import Mathlib

/-!
# Camera control-plane driver (`drivers/media/video/msm_camera.c`)

A shallow embedding of the MSM camera driver: the pmem region registry, the four
event queues with their producers and consumers, the control round trip, and the
open / release life cycle.

Each `hlist` of `struct msm_pmem_region` and each `list_head` queue is a Lean
`List` whose head is the list head; every C loop over a list is a structural
recursion that visits the nodes in the same order and stops where the C code
returns or breaks.  Out-parameters are returned in a result structure; the value
they held before the call is an argument, because the C code leaves them
untouched on the not-found path.

What the environment decides (the answer of `get_pmem_file`, whether an
allocation or a copy to or from user space succeeds, the contents of
uninitialised memory, the return codes of the hardware layer) is an argument of
the function that consults it.  A call whose behaviour C leaves undefined (a
NULL dereference, a cast of a payload of the wrong kind) returns `none`.  A
blocking wait is evaluated on the device state of the call: no other thread runs
in between.  The release of memory is not modelled.

The target is 32-bit ARM: `unsigned long` and `uint32_t` are 32 bits wide, so
address sums are taken modulo `2 ^ 32`; `uint8_t` counters are taken modulo
`2 ^ 8`.
-/

namespace MsmCamera

/-! ## Data model -/

/-- Modelled from the spec: `enum msm_pmem_t` is declared in `media/msm_camera.h`,
which is not among the sources.  The seven classes the driver switches on and
`MSM_PMEM_MAX` are named in `msm_camera.c`; `other n` stands for every further
value an `enum` object can hold. -/
inductive msm_pmem_t where
  | MSM_PMEM_OUTPUT1
  | MSM_PMEM_OUTPUT2
  | MSM_PMEM_THUMBAIL
  | MSM_PMEM_MAINIMG
  | MSM_PMEM_RAW_MAINIMG
  | MSM_PMEM_AEC_AWB
  | MSM_PMEM_AF
  | MSM_PMEM_MAX
  | other (n : Nat)
  deriving DecidableEq, Repr

open msm_pmem_t

/-- Modelled from the spec: `struct msm_pmem_region` is declared in `mach/camera.h`,
which is not among the sources.  The fields are the ones `msm_pmem_table_add`
assigns; `file` is the `struct file *` handle, `active` is an integer flag
tested for zero / non-zero. -/
structure msm_pmem_region where
  type : msm_pmem_t
  vaddr : Nat
  paddr : Nat
  len : Nat
  file : Nat
  y_off : Nat
  cbcr_off : Nat
  fd : Int
  active : Nat
  deriving DecidableEq, Repr

/-- Modelled from the spec: `struct msm_pmem_info_t` is declared in
`media/msm_camera.h`, which is not among the sources.  The fields are the ones
`msm_pmem_table_add` and `__msm_pmem_table_del` read. -/
structure msm_pmem_info_t where
  type : msm_pmem_t
  fd : Int
  vaddr : Nat
  y_off : Nat
  cbcr_off : Nat
  active : Nat
  deriving DecidableEq, Repr

/-- What `get_pmem_file(fd, &paddr, &vstart, &len, &file)` hands back: its return
code and the four out-parameters.  The function belongs to the pmem driver, so
its answer is an input of the model. -/
structure pmem_file where
  rc : Int
  paddr : Nat
  vstart : Nat
  len : Nat
  file : Nat
  deriving DecidableEq, Repr

/-- The two region lists of `msm->sync`. -/
structure msm_sync where
  frame : List msm_pmem_region
  stats : List msm_pmem_region
  deriving DecidableEq, Repr

def EINVAL : Int := 22

def ENOMEM : Int := 12

/-- Width of `unsigned long` / `uint32_t` on the 32-bit ARM target. -/
def ULONG_MOD : Nat := 2 ^ 32

/-- Width of `uint8_t`. -/
def U8_MOD : Nat := 2 ^ 8

/-- The case labels that select `msm->sync.frame` in `__msm_register_pmem` and
`__msm_pmem_table_del`. -/
def is_frame_type : msm_pmem_t → Bool
  | MSM_PMEM_OUTPUT1 => true
  | MSM_PMEM_OUTPUT2 => true
  | MSM_PMEM_THUMBAIL => true
  | MSM_PMEM_MAINIMG => true
  | MSM_PMEM_RAW_MAINIMG => true
  | _ => false

/-- The case labels that select `msm->sync.stats`. -/
def is_stats_type : msm_pmem_t → Bool
  | MSM_PMEM_AEC_AWB => true
  | MSM_PMEM_AF => true
  | _ => false

/-! ## `msm_pmem_table_add` -/

/-- The nine field assignments of `msm_pmem_table_add` (`region->type = info->type`
... `region->active = info->active`): the region built from `info` and the
answer of `get_pmem_file`. -/
def new_region (info : msm_pmem_info_t) (pin : pmem_file) : msm_pmem_region :=
  { type := info.type, vaddr := info.vaddr, paddr := pin.paddr, len := pin.len,
    file := pin.file, y_off := info.y_off, cbcr_off := info.cbcr_off,
    fd := info.fd, active := info.active }

/-- `msm_pmem_table_add(ptype, info)`: pin the fd, allocate a region, fill it from
`info` and the pin result, and `hlist_add_head` it.  `pin` is the answer of
`get_pmem_file`, `kmalloc_ok` says whether `kmalloc` returned non-NULL. -/
def msm_pmem_table_add (ptype : List msm_pmem_region) (info : msm_pmem_info_t)
    (pin : pmem_file) (kmalloc_ok : Bool) : Int × List msm_pmem_region :=
  if pin.rc < 0 then (pin.rc, ptype)
  else if !kmalloc_ok then (-ENOMEM, ptype)
  else (0, new_region info pin :: ptype)

/-! ## `msm_pmem_region_lookup` -/

/-- The `hlist_for_each_entry` loop of `msm_pmem_region_lookup`.  `rc` is the
`uint8_t` counter, `out` the entries written through `regptr` so far
(`reg[0]`, `reg[1]`, ... in this order). -/
def msm_pmem_region_lookup_loop (type : msm_pmem_t) (maxcount : Nat) :
    List msm_pmem_region → Nat → List msm_pmem_region → Nat × List msm_pmem_region
  | [], rc, out => (rc, out)
  | region :: rest, rc, out =>
    if region.type = type ∧ region.active ≠ 0 then
      if (rc + 1) % U8_MOD ≥ maxcount then ((rc + 1) % U8_MOD, out ++ [region])
      else msm_pmem_region_lookup_loop type maxcount rest ((rc + 1) % U8_MOD) (out ++ [region])
    else msm_pmem_region_lookup_loop type maxcount rest rc out

/-- `msm_pmem_region_lookup(ptype, type, reg, maxcount)`: the returned count and
the regions copied to `reg`, in the order written. -/
def msm_pmem_region_lookup (ptype : List msm_pmem_region) (type : msm_pmem_t)
    (maxcount : Nat) : Nat × List msm_pmem_region :=
  msm_pmem_region_lookup_loop type maxcount ptype 0 []

/-! ## Physical-to-virtual lookups (consume) -/

/-- The test of the loop body of `msm_pmem_frame_ptov_lookup`. -/
def frame_ptov_match (pyaddr pcbcraddr : Nat) (region : msm_pmem_region) : Prop :=
  pyaddr = (region.paddr + region.y_off) % ULONG_MOD ∧
  pcbcraddr = (region.paddr + region.cbcr_off) % ULONG_MOD ∧
  region.active ≠ 0

instance (pyaddr pcbcraddr : Nat) (region : msm_pmem_region) :
    Decidable (frame_ptov_match pyaddr pcbcraddr region) := by
  unfold frame_ptov_match; infer_instance

/-- Result of `msm_pmem_frame_ptov_lookup`: the return value, the three
out-parameters and the frame list afterwards. -/
structure frame_ptov_result where
  rc : Nat
  yoff : Nat
  cbcroff : Nat
  fd : Int
  frame : List msm_pmem_region
  deriving DecidableEq, Repr

/-- The loop of `msm_pmem_frame_ptov_lookup` over the frame list; `yoff`,
`cbcroff`, `fd` are the values behind the out-pointers before the call. -/
def frame_ptov_loop (pyaddr pcbcraddr : Nat) (yoff cbcroff : Nat) (fd : Int) :
    List msm_pmem_region → frame_ptov_result
  | [] => { rc := 0, yoff := yoff, cbcroff := cbcroff, fd := fd, frame := [] }
  | region :: rest =>
    if frame_ptov_match pyaddr pcbcraddr region then
      { rc := region.vaddr, yoff := region.y_off, cbcroff := region.cbcr_off,
        fd := region.fd, frame := { region with active := 0 } :: rest }
    else
      let r := frame_ptov_loop pyaddr pcbcraddr yoff cbcroff fd rest
      { r with frame := region :: r.frame }

/-- The test of the loop body of `msm_pmem_stats_ptov_lookup`. -/
def stats_ptov_match (addr : Nat) (region : msm_pmem_region) : Prop :=
  addr = region.paddr ∧ region.active ≠ 0

instance (addr : Nat) (region : msm_pmem_region) :
    Decidable (stats_ptov_match addr region) := by
  unfold stats_ptov_match; infer_instance

/-- Result of `msm_pmem_stats_ptov_lookup`. -/
structure stats_ptov_result where
  rc : Nat
  fd : Int
  stats : List msm_pmem_region
  deriving DecidableEq, Repr

/-- The loop of `msm_pmem_stats_ptov_lookup` over the stats list. -/
def stats_ptov_loop (addr : Nat) (fd : Int) : List msm_pmem_region → stats_ptov_result
  | [] => { rc := 0, fd := fd, stats := [] }
  | region :: rest =>
    if stats_ptov_match addr region then
      { rc := region.vaddr, fd := region.fd, stats := { region with active := 0 } :: rest }
    else
      let r := stats_ptov_loop addr fd rest
      { r with stats := region :: r.stats }

/-! ## Virtual-to-physical lookups (produce) -/

/-- The test of the loop body of `msm_pmem_frame_vtop_lookup`. -/
def frame_vtop_match (buffer yoff cbcroff : Nat) (fd : Int) (region : msm_pmem_region) : Prop :=
  region.vaddr = buffer ∧ region.y_off = yoff ∧ region.cbcr_off = cbcroff ∧
  region.fd = fd ∧ region.active = 0

instance (buffer yoff cbcroff : Nat) (fd : Int) (region : msm_pmem_region) :
    Decidable (frame_vtop_match buffer yoff cbcroff fd region) := by
  unfold frame_vtop_match; infer_instance

/-- The loop of `msm_pmem_frame_vtop_lookup`: the value stored to `*phyaddr` and
the frame list afterwards. -/
def frame_vtop_loop (buffer yoff cbcroff : Nat) (fd : Int) :
    List msm_pmem_region → Nat × List msm_pmem_region
  | [] => (0, [])
  | region :: rest =>
    if frame_vtop_match buffer yoff cbcroff fd region then
      (region.paddr, { region with active := 1 } :: rest)
    else
      let r := frame_vtop_loop buffer yoff cbcroff fd rest
      (r.1, region :: r.2)

/-- The test of the loop body of `msm_pmem_stats_vtop_lookup`. -/
def stats_vtop_match (buffer : Nat) (fd : Int) (region : msm_pmem_region) : Prop :=
  region.vaddr = buffer ∧ region.fd = fd ∧ region.active = 0

instance (buffer : Nat) (fd : Int) (region : msm_pmem_region) :
    Decidable (stats_vtop_match buffer fd region) := by
  unfold stats_vtop_match; infer_instance

/-- The loop of `msm_pmem_stats_vtop_lookup`. -/
def stats_vtop_loop (buffer : Nat) (fd : Int) :
    List msm_pmem_region → Nat × List msm_pmem_region
  | [] => (0, [])
  | region :: rest =>
    if stats_vtop_match buffer fd region then
      (region.paddr, { region with active := 1 } :: rest)
    else
      let r := stats_vtop_loop buffer fd rest
      (r.1, region :: r.2)

/-- `msm_pmem_frame_ptov_lookup(pyaddr, pcbcraddr, yoff, cbcroff, fd, msm)` on
`msm->sync`: the loop result and `msm->sync` afterwards. -/
def msm_pmem_frame_ptov_lookup (pyaddr pcbcraddr : Nat) (yoff cbcroff : Nat) (fd : Int)
    (msm : msm_sync) : frame_ptov_result × msm_sync :=
  let r := frame_ptov_loop pyaddr pcbcraddr yoff cbcroff fd msm.frame
  (r, { msm with frame := r.frame })

/-- `msm_pmem_stats_ptov_lookup(addr, fd, msm)` on `msm->sync`. -/
def msm_pmem_stats_ptov_lookup (addr : Nat) (fd : Int) (msm : msm_sync) :
    stats_ptov_result × msm_sync :=
  let r := stats_ptov_loop addr fd msm.stats
  (r, { msm with stats := r.stats })

/-- `msm_pmem_frame_vtop_lookup(buffer, yoff, cbcroff, fd, phyaddr, msm)`: the value
stored to `*phyaddr` and `msm->sync` afterwards. -/
def msm_pmem_frame_vtop_lookup (buffer yoff cbcroff : Nat) (fd : Int) (msm : msm_sync) :
    Nat × msm_sync :=
  let r := frame_vtop_loop buffer yoff cbcroff fd msm.frame
  (r.1, { msm with frame := r.2 })

/-- `msm_pmem_stats_vtop_lookup(buffer, fd, phyaddr, msm)`. -/
def msm_pmem_stats_vtop_lookup (buffer : Nat) (fd : Int) (msm : msm_sync) : Nat × msm_sync :=
  let r := stats_vtop_loop buffer fd msm.stats
  (r.1, { msm with stats := r.2 })

/-! ## `__msm_pmem_table_del` -/

/-- The test of the loop bodies of `__msm_pmem_table_del`. -/
def table_del_match (pinfo : msm_pmem_info_t) (region : msm_pmem_region) : Prop :=
  pinfo.type = region.type ∧ pinfo.vaddr = region.vaddr ∧ pinfo.fd = region.fd

instance (pinfo : msm_pmem_info_t) (region : msm_pmem_region) :
    Decidable (table_del_match pinfo region) := by
  unfold table_del_match; infer_instance

/-- The `hlist_for_each_entry_safe` loop of `__msm_pmem_table_del`: the list that
remains after every `hlist_del`, and the files handed to `put_pmem_file`, in
list order. -/
def table_del_loop (pinfo : msm_pmem_info_t) :
    List msm_pmem_region → List msm_pmem_region × List Nat
  | [] => ([], [])
  | region :: rest =>
    let r := table_del_loop pinfo rest
    if table_del_match pinfo region then (r.1, region.file :: r.2)
    else (region :: r.1, r.2)

/-- Result of `__msm_pmem_table_del`: return code, `msm->sync` afterwards and the
files released through `put_pmem_file`. -/
structure table_del_result where
  rc : Int
  sync : msm_sync
  put_files : List Nat
  deriving DecidableEq, Repr

/-- `__msm_pmem_table_del(pinfo, msm)`. -/
def __msm_pmem_table_del (pinfo : msm_pmem_info_t) (msm : msm_sync) : table_del_result :=
  match pinfo.type with
  | MSM_PMEM_OUTPUT1 | MSM_PMEM_OUTPUT2 | MSM_PMEM_THUMBAIL | MSM_PMEM_MAINIMG
  | MSM_PMEM_RAW_MAINIMG =>
    let r := table_del_loop pinfo msm.frame
    { rc := 0, sync := { msm with frame := r.1 }, put_files := r.2 }
  | MSM_PMEM_AEC_AWB | MSM_PMEM_AF =>
    let r := table_del_loop pinfo msm.stats
    { rc := 0, sync := { msm with stats := r.1 }, put_files := r.2 }
  | _ => { rc := -EINVAL, sync := msm, put_files := [] }

/-! ## `__msm_register_pmem` -/

/-- `__msm_register_pmem(pinfo, msm)`; `pin` and `kmalloc_ok` are the answers
`msm_pmem_table_add` gets from `get_pmem_file` and `kmalloc` if it is called. -/
def __msm_register_pmem (pinfo : msm_pmem_info_t) (pin : pmem_file) (kmalloc_ok : Bool)
    (msm : msm_sync) : Int × msm_sync :=
  match pinfo.type with
  | MSM_PMEM_OUTPUT1 | MSM_PMEM_OUTPUT2 | MSM_PMEM_THUMBAIL | MSM_PMEM_MAINIMG
  | MSM_PMEM_RAW_MAINIMG =>
    let r := msm_pmem_table_add msm.frame pinfo pin kmalloc_ok
    (r.1, { msm with frame := r.2 })
  | MSM_PMEM_AEC_AWB | MSM_PMEM_AF =>
    let r := msm_pmem_table_add msm.stats pinfo pin kmalloc_ok
    (r.1, { msm with stats := r.2 })
  | _ => (-EINVAL, msm)

/-! ## Sequences of registry operations -/

/-- One call into the registry, together with the answers of the environment
(`get_pmem_file`, `kmalloc`) where the call consults it.  `lookup` names the
list it is run on (`true` for `msm->sync.frame`, `false` for `msm->sync.stats`). -/
inductive registry_op where
  | register (pinfo : msm_pmem_info_t) (pin : pmem_file) (kmalloc_ok : Bool)
  | unregister (pinfo : msm_pmem_info_t)
  | lookup (on_frame : Bool) (type : msm_pmem_t) (maxcount : Nat)
  | frame_ptov (pyaddr pcbcraddr : Nat)
  | stats_ptov (addr : Nat)
  | frame_vtop (buffer yoff cbcroff : Nat) (fd : Int)
  | stats_vtop (buffer : Nat) (fd : Int)
  deriving DecidableEq, Repr

/-- Effect of one operation on `msm->sync`. -/
def registry_step (msm : msm_sync) : registry_op → msm_sync
  | .register pinfo pin kmalloc_ok => (__msm_register_pmem pinfo pin kmalloc_ok msm).2
  | .unregister pinfo => (__msm_pmem_table_del pinfo msm).sync
  | .lookup _ _ _ => msm
  | .frame_ptov pyaddr pcbcraddr => (msm_pmem_frame_ptov_lookup pyaddr pcbcraddr 0 0 0 msm).2
  | .stats_ptov addr => (msm_pmem_stats_ptov_lookup addr 0 msm).2
  | .frame_vtop buffer yoff cbcroff fd => (msm_pmem_frame_vtop_lookup buffer yoff cbcroff fd msm).2
  | .stats_vtop buffer fd => (msm_pmem_stats_vtop_lookup buffer fd msm).2

/-- The registry after a sequence of operations, first operation first. -/
def registry_run (msm : msm_sync) (ops : List registry_op) : msm_sync :=
  ops.foldl registry_step msm

/-- Both lists as `INIT_HLIST_HEAD` leaves them in `__msm_open`. -/
def empty_sync : msm_sync := { frame := [], stats := [] }


/-- The entries of `ptype` that the loop of `msm_pmem_region_lookup` selects:
the given class, active flag non-zero, in list order. -/
def active_of_type (type : msm_pmem_t) (ptype : List msm_pmem_region) : List msm_pmem_region :=
  ptype.filter (fun region => region.type = type ∧ region.active ≠ 0)

/-! ## Counting regions and registrations -/

/-- A region of class `c` whose physical address and luma / chroma offsets are
`(p, y, cb)`, whatever its active flag. -/
def tuple_match (c : msm_pmem_t) (p y cb : Nat) (region : msm_pmem_region) : Bool :=
  decide (region.type = c ∧ region.paddr = p ∧ region.y_off = y ∧ region.cbcr_off = cb)

/-- Number of active regions of a list that match class `c` and tuple `(p, y, cb)`. -/
def active_tuple_count (c : msm_pmem_t) (p y cb : Nat) (l : List msm_pmem_region) : Nat :=
  l.countP (fun region => tuple_match c p y cb region && decide (region.active ≠ 0))

/-- A `register` call whose info has class `c` and offsets `(y, cb)` and whose fd
is pinned at physical address `p`. -/
def is_tuple_registration (c : msm_pmem_t) (p y cb : Nat) : registry_op → Bool
  | .register pinfo pin _ =>
    decide (pinfo.type = c ∧ pin.paddr = p ∧ pinfo.y_off = y ∧ pinfo.cbcr_off = cb)
  | _ => false

/-- Number of `register` calls of a sequence made for class `c` and tuple `(p, y, cb)`. -/
def tuple_registrations (c : msm_pmem_t) (p y cb : Nat) (ops : List registry_op) : Nat :=
  ops.countP (is_tuple_registration c p y cb)

/-- A `register` or `unregister` call that uses the triple `(c, v, f)`. -/
def on_triple (c : msm_pmem_t) (v : Nat) (f : Int) : registry_op → Prop
  | .register pinfo _ _ => pinfo.type = c ∧ pinfo.vaddr = v ∧ pinfo.fd = f
  | .unregister pinfo => pinfo.type = c ∧ pinfo.vaddr = v ∧ pinfo.fd = f
  | _ => False

instance (c : msm_pmem_t) (v : Nat) (f : Int) (op : registry_op) :
    Decidable (on_triple c v f op) := by
  cases op <;> unfold on_triple <;> infer_instance

/-- What holds of `msm->sync` after a sequence of calls that all use the triple
`(c, v, f)`, with `n` the number of `register` calls since the last `unregister`:
at most `n` regions are held, each carries the triple, and a list that is not
the list of class `c` is empty. -/
def triple_inv (c : msm_pmem_t) (v : Nat) (f : Int) (msm : msm_sync) (n : Nat) : Prop :=
  msm.frame.length + msm.stats.length ≤ n ∧
  (∀ region ∈ msm.frame ++ msm.stats, region.type = c ∧ region.vaddr = v ∧ region.fd = f) ∧
  (is_frame_type c = false → msm.frame = []) ∧
  (is_stats_type c = false → msm.stats = [])

/-- Running count of `register` calls since the last `unregister` call. -/
def pending_step (n : Nat) : registry_op → Nat
  | .register _ _ _ => n + 1
  | .unregister _ => 0
  | _ => n

/-- Number of `register` calls of a sequence that come after its last
`unregister` call. -/
def pending_registers (ops : List registry_op) : Nat :=
  ops.foldl pending_step 0

/-- Number of regions of both lists, active or not, that match class `c` and the
tuple `(p, y, cb)`. -/
def tuple_count (c : msm_pmem_t) (p y cb : Nat) (msm : msm_sync) : Nat :=
  msm.frame.countP (tuple_match c p y cb) + msm.stats.countP (tuple_match c p y cb)

/-- In the sequence `ops`, run from `msm`, no `register` call for class `c` and the
tuple `(p, y, cb)` is made while a region of that class and tuple is still
registered. -/
def no_double_registration (c : msm_pmem_t) (p y cb : Nat) : msm_sync → List registry_op → Bool
  | _, [] => true
  | msm, op :: ops =>
    (!is_tuple_registration c p y cb op || decide (tuple_count c p y cb msm = 0)) &&
      no_double_registration c p y cb (registry_step msm op) ops

/-! ## Sample inputs -/

/-- Registration info of the scenario: class output-1, vaddr 0x1000, fd 5,
offsets (0, 0), flagged active. -/
def sample_info : msm_pmem_info_t :=
  { type := MSM_PMEM_OUTPUT1, fd := 5, vaddr := 0x1000, y_off := 0, cbcr_off := 0, active := 1 }

/-- A successful answer of `get_pmem_file` for fd 5. -/
def sample_pin : pmem_file :=
  { rc := 0, paddr := 0x8000, vstart := 0x40000000, len := 0x2000, file := 77 }

/-- The region `msm_pmem_table_add` builds from `sample_info` and `sample_pin`. -/
def sample_region : msm_pmem_region :=
  { type := MSM_PMEM_OUTPUT1, vaddr := 0x1000, paddr := 0x8000, len := 0x2000, file := 77,
    y_off := 0, cbcr_off := 0, fd := 5, active := 1 }

/-- Registration info for an AEC/AWB statistics buffer. -/
def sample_stats_info : msm_pmem_info_t :=
  { type := MSM_PMEM_AEC_AWB, fd := 6, vaddr := 0x2000, y_off := 0, cbcr_off := 0, active := 1 }

/-- A successful answer of `get_pmem_file` for fd 6. -/
def sample_stats_pin : pmem_file :=
  { rc := 0, paddr := 0x9000, vstart := 0x40002000, len := 0x1000, file := 78 }

/-- The region `msm_pmem_table_add` builds from `sample_stats_info` and
`sample_stats_pin`. -/
def sample_stats_region : msm_pmem_region :=
  { type := MSM_PMEM_AEC_AWB, vaddr := 0x2000, paddr := 0x9000, len := 0x1000, file := 78,
    y_off := 0, cbcr_off := 0, fd := 6, active := 1 }

/-- One frame buffer and one statistics buffer registered from the empty registry. -/
def sample_sync : msm_sync :=
  registry_run empty_sync
    [.register sample_info sample_pin true, .register sample_stats_info sample_stats_pin true]

/-- The same frame buffer registered twice, then handed out once: the head copy is
inactive, the second copy is still active. -/
def twice_registered_once_consumed : msm_sync :=
  registry_run empty_sync
    [.register sample_info sample_pin true, .register sample_info sample_pin true,
     .frame_ptov 0x8000 0x8000]

/-- `sample_sync` after both buffers have been handed out: both regions inactive. -/
def sample_consumed_sync : msm_sync :=
  registry_run sample_sync [.frame_ptov 0x8000 0x8000, .stats_ptov 0x9000]

/-- The scenario's registration info with the active flag cleared. -/
def inactive_info : msm_pmem_info_t :=
  { type := MSM_PMEM_OUTPUT1, fd := 5, vaddr := 0x1000, y_off := 0, cbcr_off := 0, active := 0 }

/-- Registration info with a class outside the seven the driver switches on. -/
def unknown_class_info : msm_pmem_info_t :=
  { type := MSM_PMEM_MAX, fd := 5, vaddr := 0x1000, y_off := 0, cbcr_off := 0, active := 1 }

/-- The same frame buffer registered twice from the empty registry. -/
def twice_registered : msm_sync :=
  registry_run empty_sync
    [.register sample_info sample_pin true, .register sample_info sample_pin true]

/-- Register, unregister, register again: all three calls use `sample_info`. -/
def register_unregister_register : List registry_op :=
  [.register sample_info sample_pin true, .unregister sample_info,
   .register sample_info sample_pin true]

/-! ## Queue entries and the device state -/

/-- Modelled from the spec: `enum msm_queut_t` is declared in `mach/camera.h`,
which is not among the sources.  The four tags `msm_camera.c` names are listed;
`other n` stands for every further value (the enum's invalid and maximum
markers, or whatever an uninitialised field holds). -/
inductive msm_queut_t where
  | MSM_CAM_Q_CTRL
  | MSM_CAM_Q_VFE_EVT
  | MSM_CAM_Q_VFE_MSG
  | MSM_CAM_Q_V4L2_REQ
  | other (n : Nat)
  deriving DecidableEq, Repr

/-- Modelled from the spec: `enum vfe_resp_msg_t` is declared in `mach/camera.h`,
which is not among the sources.  The six message kinds `msm_camera.c` tests for
are listed; `other n` stands for every further value. -/
inductive vfe_resp_msg_t where
  | VFE_MSG_GENERAL
  | VFE_MSG_SNAPSHOT
  | VFE_MSG_OUTPUT1
  | VFE_MSG_OUTPUT2
  | VFE_MSG_STATS_AF
  | VFE_MSG_STATS_WE
  | other (n : Nat)
  deriving DecidableEq, Repr

/-- Modelled from the spec: `struct msm_vfe_phy_info` (`mach/camera.h`, not among
the sources): the physical addresses a VFE message carries. -/
structure msm_vfe_phy_info where
  sbuf_phy : Nat
  y_phy : Nat
  cbcr_phy : Nat
  deriving DecidableEq, Repr

/-- Modelled from the spec: `struct msm_vfe_evt_msg_t` (`mach/camera.h`, not among
the sources); `data` is the byte buffer behind the pointer. -/
structure msm_vfe_evt_msg_t where
  type : Nat
  msg_id : Nat
  len : Nat
  data : List Nat
  deriving DecidableEq, Repr

/-- Modelled from the spec: `struct msm_vfe_resp_t` (`mach/camera.h`, not among the
sources), with the fields `msm_camera.c` reads. -/
structure msm_vfe_resp_t where
  type : vfe_resp_msg_t
  evt_msg : msm_vfe_evt_msg_t
  phy : msm_vfe_phy_info
  extdata : List Nat
  extlen : Nat
  deriving DecidableEq, Repr

/-- Modelled from the spec: `struct msm_ctrl_cmd_t` (`media/msm_camera.h`, not among
the sources).  `type`, `length` and `status` are 16-bit fields; `value` is the
byte buffer behind the pointer (empty for a NULL pointer). -/
structure msm_ctrl_cmd_t where
  timeout_ms : Int
  type : Nat
  length : Nat
  value : List Nat
  status : Nat
  deriving DecidableEq, Repr

/-- What the `void *command` of a queue entry points to: nothing (NULL), a control
command, a VFE response or a physical-address record.  The driver casts the
pointer according to the queue the entry sits in. -/
inductive queue_payload where
  | null
  | ctrl (c : msm_ctrl_cmd_t)
  | vfe_resp (v : msm_vfe_resp_t)
  | phy (p : msm_vfe_phy_info)
  deriving DecidableEq, Repr

/-- Modelled from the spec: `struct msm_queue_cmd_t` (`mach/camera.h`, not among the
sources): the tag and the payload pointer; the list linkage is the position in
the Lean list. -/
structure msm_queue_cmd_t where
  type : msm_queut_t
  command : queue_payload
  deriving DecidableEq, Repr

/-- Modelled from the spec: `struct msm_camvfe_fn_t` (`mach/camera.h`, not among the
sources): which of the function pointers that `msm_camera.c` tests are non-NULL. -/
structure msm_camvfe_fn_t where
  vfe_init : Bool
  vfe_enable : Bool
  vfe_config : Bool
  vfe_disable : Bool
  vfe_release : Bool
  deriving DecidableEq, Repr

/-- Modelled from the spec: `struct msm_device_t` (`mach/camera.h`, not among the
sources), with the fields `msm_camera.c` uses.  `sync` holds the two region
lists; the four queue heads, which in C also live in `msm->sync`, are fields of
their own here.  `wake_locked` records `wake_lock` / `wake_unlock`. -/
structure msm_device_t where
  opencnt : Int
  sync : msm_sync
  msg_event_queue : List msm_queue_cmd_t
  ctrl_status_queue : List msm_queue_cmd_t
  prev_frame_q : List msm_queue_cmd_t
  pict_frame_q : List msm_queue_cmd_t
  croplen : Nat
  cropinfo : List Nat
  pict_pp : Nat
  vfefn : msm_camvfe_fn_t
  wake_locked : Bool
  deriving DecidableEq, Repr

def EIO : Int := 5

def EAGAIN : Int := 11

def EFAULT : Int := 14

def ENODEV : Int := 19

def ETIMEDOUT : Int := 110

def ERESTARTSYS : Int := 512

/-- The device as `msm_camera_drv_start` leaves it: `kzalloc`ed, the four queue
heads initialised empty. -/
def msm_camera_drv_start_device : msm_device_t :=
  { opencnt := 0, sync := empty_sync, msg_event_queue := [], ctrl_status_queue := [],
    prev_frame_q := [], pict_frame_q := [], croplen := 0, cropinfo := [], pict_pp := 0,
    vfefn := { vfe_init := false, vfe_enable := false, vfe_config := false,
               vfe_disable := false, vfe_release := false },
    wake_locked := false }

/-! ## Waiting -/

/-- Modelled from the spec: the kernel's `wait_event_timeout(wq, condition, timeout)`
(`linux/wait.h`, not among the sources), a bounded wait whose lapse is reported
as a time-out.  For a wait during which no other thread changes the queue: when
the condition holds it returns the remaining time, at least 1 (`jiffies_left` is
the scheduler's answer); when it does not hold the wait times out and returns 0. -/
def wait_event_timeout (condition : Bool) (jiffies_left : Nat) : Int :=
  if condition then ((max jiffies_left 1 : Nat) : Int) else 0

/-- Modelled from the spec: the kernel's `wait_event_interruptible(wq, condition)`
(`linux/wait.h`, not among the sources), an unbounded wait that external
cancellation interrupts.  For a wait during which no other thread changes the
queue: 0 when the condition holds; otherwise the call can only come back through
a signal, with `-ERESTARTSYS`. -/
def wait_event_interruptible (condition : Bool) : Int :=
  if condition then 0 else -ERESTARTSYS

/-! ## The pending predicates -/

/-- `msm_ctrl_stats_pending`: `!list_empty(&msm->sync.ctrl_status_queue)`. -/
def msm_ctrl_stats_pending (msm : msm_device_t) : Bool :=
  !msm.ctrl_status_queue.isEmpty

/-- The body of `msm_stats_pending` on the list it inspects. -/
def stats_pending_of : List msm_queue_cmd_t → Bool
  | [] => false
  | qcmd :: _ =>
    decide (qcmd.type = .MSM_CAM_Q_CTRL ∨ qcmd.type = .MSM_CAM_Q_VFE_EVT ∨
            qcmd.type = .MSM_CAM_Q_VFE_MSG ∨ qcmd.type = .MSM_CAM_Q_V4L2_REQ)

/-- `msm_stats_pending`: the message queue is non-empty and the tag of its first
entry is one of the four kinds. -/
def msm_stats_pending (msm : msm_device_t) : Bool :=
  stats_pending_of msm.msg_event_queue

/-- The body of `msm_camera_pict_pending` on the list it inspects. -/
def pict_pending_of : List msm_queue_cmd_t → Bool
  | [] => false
  | qcmd :: _ => decide (qcmd.type = .MSM_CAM_Q_VFE_MSG)

/-- `msm_camera_pict_pending`: the picture queue is non-empty and its first entry is
tagged `MSM_CAM_Q_VFE_MSG`. -/
def msm_camera_pict_pending (msm : msm_device_t) : Bool :=
  pict_pending_of msm.pict_frame_q

/-- The body of `msm_frame_pending` on the list it inspects: `list_first_entry`
of a non-empty list is never NULL, so `yes = 1`. -/
def frame_pending_of : List msm_queue_cmd_t → Bool
  | [] => false
  | _ :: _ => true

/-- `msm_frame_pending`. -/
def msm_frame_pending (msm : msm_device_t) : Bool :=
  frame_pending_of msm.prev_frame_q

/-! ## Producers -/

/-- Environment of one `msm_vfe_sync` call: the three `kmalloc` outcomes and the
value the uninitialised `qcmd->type` holds when no branch assigns it. -/
structure vfe_sync_env where
  kmalloc_qcmd_ok : Bool
  kmalloc_qcmd_frame_ok : Bool
  kmalloc_fphy_ok : Bool
  uninit_type : msm_queut_t
  deriving DecidableEq, Repr

/-- `msm_vfe_sync(vdata, qtype, syncdata)` for a non-NULL `syncdata`: the device
afterwards.  On an allocation failure the event is dropped. -/
def msm_vfe_sync (vdata : msm_vfe_resp_t) (qtype : msm_queut_t) (env : vfe_sync_env)
    (msm : msm_device_t) : msm_device_t :=
  if !env.kmalloc_qcmd_ok then msm
  else if qtype = .MSM_CAM_Q_VFE_EVT then
    { msm with msg_event_queue :=
        msm.msg_event_queue ++ [{ type := .MSM_CAM_Q_VFE_EVT, command := .vfe_resp vdata }] }
  else if qtype = .MSM_CAM_Q_VFE_MSG then
    if vdata.type = .VFE_MSG_OUTPUT1 ∨ vdata.type = .VFE_MSG_OUTPUT2 then
      if !env.kmalloc_qcmd_frame_ok then msm
      else if !env.kmalloc_fphy_ok then msm
      else
        { msm with
          prev_frame_q :=
            msm.prev_frame_q ++ [{ type := .MSM_CAM_Q_VFE_MSG, command := .phy vdata.phy }],
          msg_event_queue :=
            msm.msg_event_queue ++ [{ type := .MSM_CAM_Q_VFE_MSG, command := .vfe_resp vdata }] }
    else if vdata.type = .VFE_MSG_SNAPSHOT then
      if msm.pict_pp = 0 then
        if !env.kmalloc_qcmd_frame_ok then msm
        else
          { msm with
            pict_frame_q :=
              msm.pict_frame_q ++ [{ type := .MSM_CAM_Q_VFE_MSG, command := .null }],
            msg_event_queue :=
              msm.msg_event_queue ++
                [{ type := .MSM_CAM_Q_VFE_MSG, command := .vfe_resp vdata }] }
      else
        { msm with msg_event_queue :=
            msm.msg_event_queue ++
              [{ type := .MSM_CAM_Q_VFE_MSG, command := .vfe_resp vdata }] }
    else
      { msm with msg_event_queue :=
          msm.msg_event_queue ++ [{ type := .MSM_CAM_Q_VFE_MSG, command := .vfe_resp vdata }] }
  else
    { msm with msg_event_queue :=
        msm.msg_event_queue ++ [{ type := env.uninit_type, command := .vfe_resp vdata }] }

/-- Environment of one `msm_ctrl_cmd_done` call: the outcomes of the user copies
and allocations in program order, and the value the never-assigned `qcmd->type`
holds. -/
structure ctrl_cmd_done_env where
  copy_from_user_arg_ok : Bool
  kzalloc_ctrlcmd_ok : Bool
  kmalloc_value_ok : Bool
  copy_from_user_value_ok : Bool
  kmalloc_qcmd_ok : Bool
  uninit_type : msm_queut_t
  deriving DecidableEq, Repr

/-- The response `msm_ctrl_cmd_done` builds from the caller's structure: a zeroed
command with `type`, `length`, `status` copied and, for a positive length, the
first `length` bytes of the caller's buffer. -/
def ctrl_cmd_done_command (ctrlcmd_t : msm_ctrl_cmd_t) : msm_ctrl_cmd_t :=
  { timeout_ms := 0, type := ctrlcmd_t.type, length := ctrlcmd_t.length,
    value := if ctrlcmd_t.length > 0 then ctrlcmd_t.value.take ctrlcmd_t.length else [],
    status := ctrlcmd_t.status }

/-- `msm_ctrl_cmd_done(arg, msm)`; `ctrlcmd_t` is the structure behind `arg`.
Returns the code and the device afterwards. -/
def msm_ctrl_cmd_done (ctrlcmd_t : msm_ctrl_cmd_t) (env : ctrl_cmd_done_env)
    (msm : msm_device_t) : Int × msm_device_t :=
  if !env.copy_from_user_arg_ok then (-EFAULT, msm)
  else if !env.kzalloc_ctrlcmd_ok then (-ENOMEM, msm)
  else if ctrlcmd_t.length > 0 ∧ !env.kmalloc_value_ok then (-ENOMEM, msm)
  else if ctrlcmd_t.length > 0 ∧ !env.copy_from_user_value_ok then (-EFAULT, msm)
  else if !env.kmalloc_qcmd_ok then (-ENOMEM, msm)
  else
    (0, { msm with ctrl_status_queue :=
            msm.ctrl_status_queue ++
              [{ type := env.uninit_type, command := .ctrl (ctrl_cmd_done_command ctrlcmd_t) }] })

/-- Environment of one `msm_pict_pp_done` call. -/
structure pict_pp_done_env where
  copy_from_user_arg_ok : Bool
  kmalloc_qcmd_ok : Bool
  kzalloc_ctrlcmd_ok : Bool
  deriving DecidableEq, Repr

/-- `msm_pict_pp_done(arg, msm)`; `ctrlcmd_t` is the structure behind `arg`.  `none`
stands for the write through the NULL `qcmd` that the code performs when the
copy from user space fails. -/
def msm_pict_pp_done (ctrlcmd_t : msm_ctrl_cmd_t) (env : pict_pp_done_env)
    (msm : msm_device_t) : Option (Int × msm_device_t) :=
  if msm.pict_pp = 0 then some (-EINVAL, msm)
  else if !env.copy_from_user_arg_ok then none
  else if !env.kmalloc_qcmd_ok then some (-ENOMEM, msm)
  else if !env.kzalloc_ctrlcmd_ok then
    some (-ENOMEM, { msm with pict_frame_q :=
      msm.pict_frame_q ++ [{ type := .MSM_CAM_Q_VFE_MSG, command := .null }] })
  else
    some (0, { msm with pict_frame_q :=
      msm.pict_frame_q ++
        [{ type := .MSM_CAM_Q_VFE_MSG,
           command := .ctrl { timeout_ms := 0, type := ctrlcmd_t.type, length := 0, value := [],
                              status := ctrlcmd_t.status } }] })

/-! ## The control round trip -/

/-- Environment of one `msm_control` call: the outcomes of the user copies and
allocations in program order, the values the `kmalloc`ed command holds in the
fields that are never assigned, and the scheduler's answer to a timed wait. -/
structure msm_control_env where
  copy_from_user_arg_ok : Bool
  kmalloc_ctrlcmd_ok : Bool
  kmalloc_value_ok : Bool
  copy_from_user_value_ok : Bool
  kmalloc_qcmd_ok : Bool
  uninit_timeout_ms : Int
  uninit_status : Nat
  jiffies_left : Nat
  copy_to_user_value_ok : Bool
  copy_to_user_arg_ok : Bool
  deriving DecidableEq, Repr

/-- Result of `msm_control`: the return code, the device afterwards, the bytes
copied to the caller's value buffer (`none` if that copy did not happen), the
structure copied back to `arg` (`none` if that copy did not happen), and the
entry unlinked from the control-status queue by `list_del` (`none` if no
`list_del` was executed). -/
structure msm_control_result where
  rc : Int
  msm : msm_device_t
  value_out : Option (List Nat)
  arg_out : Option msm_ctrl_cmd_t
  dequeued : Option msm_queue_cmd_t
  deriving DecidableEq, Repr

/-- The tail of `msm_control` from `if (!qcmd->command)` on; `qcmd` is the entry the
local pointer refers to, `rc` the code the wait returned.  `none` stands for the
cast of a payload that is not a control command. -/
def msm_control_deliver (ctrlcmd_t : msm_ctrl_cmd_t) (env : msm_control_env) (rc : Int)
    (msm : msm_device_t) (qcmd : msm_queue_cmd_t) (dequeued : Option msm_queue_cmd_t) :
    Option msm_control_result :=
  match qcmd.command with
  | .null =>
    some { rc := rc, msm := msm, value_out := none, arg_out := none, dequeued := dequeued }
  | .ctrl c =>
    if c.length > 0 then
      if !env.copy_to_user_value_ok then
        some { rc := -EFAULT, msm := msm, value_out := none, arg_out := none,
               dequeued := dequeued }
      else if !env.copy_to_user_arg_ok then
        some { rc := -EFAULT, msm := msm, value_out := some (c.value.take c.length),
               arg_out := none, dequeued := dequeued }
      else
        some { rc := rc, msm := msm, value_out := some (c.value.take c.length),
               arg_out := some { ctrlcmd_t with type := c.type, length := c.length,
                                                status := c.status },
               dequeued := dequeued }
    else if !env.copy_to_user_arg_ok then
      some { rc := -EFAULT, msm := msm, value_out := none, arg_out := none,
             dequeued := dequeued }
    else
      some { rc := rc, msm := msm, value_out := none,
             arg_out := some { ctrlcmd_t with type := c.type, length := c.length,
                                              status := c.status },
             dequeued := dequeued }
  | _ => none

/-- The entry `msm_control` appends to the message queue. -/
def msm_control_request (ctrlcmd_t : msm_ctrl_cmd_t) (env : msm_control_env) :
    msm_queue_cmd_t :=
  { type := .MSM_CAM_Q_CTRL,
    command := .ctrl { timeout_ms := env.uninit_timeout_ms, type := ctrlcmd_t.type,
                       length := ctrlcmd_t.length,
                       value := ctrlcmd_t.value.take ctrlcmd_t.length,
                       status := env.uninit_status } }

/-- `msm_control(arg, msm)`; `ctrlcmd_t` is the structure behind `arg`.  The release
of memory is not part of the model: on the paths through `fail:` the entry
appended to the message queue stays linked, as in the C code. -/
def msm_control (ctrlcmd_t : msm_ctrl_cmd_t) (env : msm_control_env) (msm : msm_device_t) :
    Option msm_control_result :=
  if !env.copy_from_user_arg_ok then
    some { rc := -EFAULT, msm := msm, value_out := none, arg_out := none, dequeued := none }
  else if !env.kmalloc_ctrlcmd_ok then
    some { rc := -ENOMEM, msm := msm, value_out := none, arg_out := none, dequeued := none }
  else if !env.kmalloc_value_ok then
    some { rc := -ENOMEM, msm := msm, value_out := none, arg_out := none, dequeued := none }
  else if !env.copy_from_user_value_ok then
    some { rc := -EFAULT, msm := msm, value_out := none, arg_out := none, dequeued := none }
  else if !env.kmalloc_qcmd_ok then
    some { rc := -ENOMEM, msm := msm, value_out := none, arg_out := none, dequeued := none }
  else
    let qcmd := msm_control_request ctrlcmd_t env
    let msm1 := { msm with msg_event_queue := msm.msg_event_queue ++ [qcmd] }
    let rc :=
      if ctrlcmd_t.timeout_ms > 0 then
        wait_event_timeout (msm_ctrl_stats_pending msm1) env.jiffies_left
      else wait_event_interruptible (msm_ctrl_stats_pending msm1)
    if ctrlcmd_t.timeout_ms > 0 ∧ rc = 0 then
      some { rc := -ETIMEDOUT, msm := msm1, value_out := none, arg_out := none,
             dequeued := none }
    else if rc < 0 then
      some { rc := -EAGAIN, msm := msm1, value_out := none, arg_out := none,
             dequeued := none }
    else
      match msm1.ctrl_status_queue with
      | [] => msm_control_deliver ctrlcmd_t env rc msm1 qcmd none
      | head :: rest =>
        msm_control_deliver ctrlcmd_t env rc { msm1 with ctrl_status_queue := rest } head
          (some head)

/-- Environment of one `__msm_control` call. -/
structure msm_control_kernel_env where
  kmalloc_qcmd_ok : Bool
  jiffies_left : Nat
  deriving DecidableEq, Repr

/-- Result of `__msm_control`: the return code, the device afterwards, the bytes
`memcpy` wrote to the caller's `ctrlcmd->value`, and the entry unlinked from the
control-status queue. -/
structure msm_control_kernel_result where
  rc : Int
  msm : msm_device_t
  value_out : Option (List Nat)
  dequeued : Option msm_queue_cmd_t
  deriving DecidableEq, Repr

/-- `__msm_control(ctrlcmd, vmsm)`.  `none` stands for the dereference of a NULL
`rcmd` or `rcmd->command`, or the cast of a payload that is not a control
command. -/
def __msm_control (ctrlcmd : msm_ctrl_cmd_t) (env : msm_control_kernel_env)
    (vmsm : msm_device_t) : Option msm_control_kernel_result :=
  if !env.kmalloc_qcmd_ok then
    some { rc := -ENOMEM, msm := vmsm, value_out := none, dequeued := none }
  else
    let msm1 := { vmsm with msg_event_queue :=
      vmsm.msg_event_queue ++ [{ type := .MSM_CAM_Q_V4L2_REQ, command := .ctrl ctrlcmd }] }
    let rc :=
      if ctrlcmd.timeout_ms > 0 then
        wait_event_timeout (msm_ctrl_stats_pending msm1) env.jiffies_left
      else wait_event_interruptible (msm_ctrl_stats_pending msm1)
    if ctrlcmd.timeout_ms > 0 ∧ rc = 0 then
      some { rc := -ETIMEDOUT, msm := msm1, value_out := none, dequeued := none }
    else if rc < 0 then
      some { rc := -ERESTARTSYS, msm := msm1, value_out := none, dequeued := none }
    else
      match msm1.ctrl_status_queue with
      | [] => none
      | rcmd :: rest =>
        match rcmd.command with
        | .ctrl c =>
          some { rc := rc, msm := { msm1 with ctrl_status_queue := rest },
                 value_out := some (c.value.take c.length), dequeued := some rcmd }
        | _ => none

/-! ## Frame and picture retrieval -/

/-- Modelled from the spec: `enum` of frame paths (`media/msm_camera.h`, not among
the sources); `msm_camera.c` names `MSM_FRAME_PREV_2` only. -/
inductive msm_frame_path where
  | MSM_FRAME_PREV_2
  | other (n : Nat)
  deriving DecidableEq, Repr

/-- Modelled from the spec: `struct msm_frame_t` (`media/msm_camera.h`, not among the
sources), with the fields `msm_camera.c` uses. -/
structure msm_frame_t where
  path : msm_frame_path
  buffer : Nat
  y_off : Nat
  cbcr_off : Nat
  fd : Int
  croplen : Nat
  deriving DecidableEq, Repr

/-- Result of `__msm_get_frame`: return code, the caller's frame descriptor and the
device afterwards, and the entry unlinked from the previous-frame queue. -/
structure get_frame_result where
  rc : Int
  frame : msm_frame_t
  msm : msm_device_t
  dequeued : Option msm_queue_cmd_t
  deriving DecidableEq, Repr

/-- `__msm_get_frame(frame, msm)`.  `none` stands for the cast of a payload that is
not a physical-address record. -/
def __msm_get_frame (frame : msm_frame_t) (msm : msm_device_t) : Option get_frame_result :=
  match msm.prev_frame_q with
  | [] => some { rc := -EAGAIN, frame := frame, msm := msm, dequeued := none }
  | qcmd :: rest =>
    match qcmd.command with
    | .phy pphy =>
      let r := msm_pmem_frame_ptov_lookup pphy.y_phy pphy.cbcr_phy frame.y_off frame.cbcr_off
        frame.fd msm.sync
      some { rc := 0,
             frame := { frame with buffer := r.1.rc, y_off := r.1.yoff, cbcr_off := r.1.cbcroff,
                                   fd := r.1.fd },
             msm := { msm with prev_frame_q := rest, sync := r.2 },
             dequeued := some qcmd }
    | _ => none

/-- Result of `__msm_get_pic`: return code, the caller's control structure and the
device afterwards, and the entry unlinked from the picture queue. -/
structure get_pic_result where
  rc : Int
  ctrl : msm_ctrl_cmd_t
  msm : msm_device_t
  dequeued : Option msm_queue_cmd_t
  deriving DecidableEq, Repr

/-- `__msm_get_pic(ctrl, msm)`; `jiffies_left` is the scheduler's answer to a timed
wait.  `none` stands for the dereference of a NULL `qcmd` or the cast of a
payload that is not a control command. -/
def __msm_get_pic (ctrl : msm_ctrl_cmd_t) (jiffies_left : Nat) (msm : msm_device_t) :
    Option get_pic_result :=
  let rc :=
    if ctrl.timeout_ms > 0 then wait_event_timeout (msm_camera_pict_pending msm) jiffies_left
    else wait_event_interruptible (msm_camera_pict_pending msm)
  if ctrl.timeout_ms > 0 ∧ rc = 0 then
    some { rc := -ETIMEDOUT, ctrl := ctrl, msm := msm, dequeued := none }
  else if rc < 0 then
    some { rc := -ERESTARTSYS, ctrl := ctrl, msm := msm, dequeued := none }
  else
    match msm.pict_frame_q with
    | [] => none
    | qcmd :: rest =>
      match qcmd.command with
      | .ctrl c =>
        some { rc := rc, ctrl := { ctrl with type := c.type, status := c.status },
               msm := { msm with pict_frame_q := rest }, dequeued := some qcmd }
      | .null =>
        some { rc := rc, ctrl := { ctrl with type := 0xFFFF, status := 0xFFFF },
               msm := { msm with pict_frame_q := rest }, dequeued := some qcmd }
      | _ => none

/-! ## `msm_get_stats` -/

/-- Modelled from the spec: the response kinds `msm_get_stats` stores in
`se.resptype` (`media/msm_camera.h`, not among the sources); `other n` stands for
whatever the caller's structure held. -/
inductive msm_resp_t where
  | MSM_CAM_RESP_CTRL
  | MSM_CAM_RESP_STAT_EVT_MSG
  | MSM_CAM_RESP_V4L2
  | other (n : Nat)
  deriving DecidableEq, Repr

/-- Modelled from the spec: `struct msm_stats_event_ctrl` (`media/msm_camera.h`, not
among the sources), with the fields `msm_get_stats` uses. -/
structure msm_stats_event_ctrl where
  timeout_ms : Int
  resptype : msm_resp_t
  ctrl_cmd : msm_ctrl_cmd_t
  stats_event : msm_vfe_evt_msg_t
  deriving DecidableEq, Repr

/-- Modelled from the spec: `struct msm_stats_buf_t` (`media/msm_camera.h`, not among
the sources). -/
structure msm_stats_buf_t where
  type : Int
  buffer : Nat
  fd : Int
  deriving DecidableEq, Repr

/-- Modelled from the spec: `struct msm_postproc_t` (`media/msm_camera.h`, not among
the sources), with the fields `msm_get_stats` assigns. -/
structure msm_postproc_t where
  fmnum : Nat
  fmain : msm_frame_t
  deriving DecidableEq, Repr

/-- What `msm_get_stats` copies to the caller's data buffer (`se.stats_event.data`
or `se.ctrl_cmd.value`), if anything. -/
inductive user_data where
  | nothing
  | stats_buf (stats : msm_stats_buf_t)
  | bytes (data : List Nat)
  | postproc (buf : msm_postproc_t)
  deriving DecidableEq, Repr

/-- Environment of one `msm_get_stats` call: copy outcomes, the scheduler's answer
to a timed wait, and the contents of the uninitialised locals `stats`, `buf` and
`region`. -/
structure get_stats_env where
  copy_from_user_se_ok : Bool
  jiffies_left : Nat
  uninit_stats : msm_stats_buf_t
  uninit_buf : msm_postproc_t
  uninit_region : msm_pmem_region
  copy_to_user_data_ok : Bool
  copy_to_user_se_ok : Bool
  deriving DecidableEq, Repr

/-- Result of `msm_get_stats`: return code, device afterwards, the structure copied
back to `arg` (`none` if that copy did not happen), the data copied to the
caller's data buffer, and the entry unlinked from the message queue. -/
structure get_stats_result where
  rc : Int
  msm : msm_device_t
  se_out : Option msm_stats_event_ctrl
  data_out : user_data
  dequeued : Option msm_queue_cmd_t
  deriving DecidableEq, Repr

/-- The final `copy_to_user((void *)arg, &se, sizeof(se))` of `msm_get_stats`. -/
def get_stats_copy_se (env : get_stats_env) (rc : Int) (msm : msm_device_t)
    (se : msm_stats_event_ctrl) (data_out : user_data) (dequeued : Option msm_queue_cmd_t) :
    get_stats_result :=
  if !env.copy_to_user_se_ok then
    { rc := -EFAULT, msm := msm, se_out := none, data_out := data_out, dequeued := dequeued }
  else { rc := rc, msm := msm, se_out := some se, data_out := data_out, dequeued := dequeued }

/-- The `if (pp_en)` block of the snapshot branch of `msm_get_stats`: the two
lookups with `maxcount` 1 and the fields of `buf` they fill. -/
def get_stats_postproc (env : get_stats_env) (msm : msm_device_t) : msm_postproc_t :=
  let r1 := msm_pmem_region_lookup msm.sync.frame MSM_PMEM_MAINIMG 1
  let region1 := r1.2.headD env.uninit_region
  if r1.1 = 1 then
    { fmnum := r1.1,
      fmain := { env.uninit_buf.fmain with buffer := region1.vaddr, y_off := region1.y_off,
                                           cbcr_off := region1.cbcr_off, fd := region1.fd } }
  else
    let r2 := msm_pmem_region_lookup msm.sync.frame MSM_PMEM_RAW_MAINIMG 1
    let region2 := r2.2.headD region1
    if r2.1 = 1 then
      { fmnum := r2.1,
        fmain := { env.uninit_buf.fmain with path := .MSM_FRAME_PREV_2,
                                             buffer := region2.vaddr, fd := region2.fd } }
    else { fmnum := r2.1, fmain := env.uninit_buf.fmain }

/-- The `MSM_CAM_Q_VFE_EVT` / `MSM_CAM_Q_VFE_MSG` case of `msm_get_stats`. -/
def get_stats_vfe (env : get_stats_env) (rc : Int) (msm : msm_device_t)
    (se : msm_stats_event_ctrl) (data : msm_vfe_resp_t) (dequeued : Option msm_queue_cmd_t) :
    get_stats_result :=
  let se1 : msm_stats_event_ctrl :=
    { se with resptype := .MSM_CAM_RESP_STAT_EVT_MSG,
              stats_event := { se.stats_event with type := data.evt_msg.type,
                                                   msg_id := data.evt_msg.msg_id,
                                                   len := data.evt_msg.len } }
  if data.type = .VFE_MSG_STATS_AF ∨ data.type = .VFE_MSG_STATS_WE then
    let r := msm_pmem_stats_ptov_lookup data.phy.sbuf_phy env.uninit_stats.fd msm.sync
    let msm1 := { msm with sync := r.2 }
    if !env.copy_to_user_data_ok then
      { rc := -EFAULT, msm := msm1, se_out := none, data_out := .nothing, dequeued := dequeued }
    else
      get_stats_copy_se env rc msm1 se1
        (.stats_buf { env.uninit_stats with buffer := r.1.rc, fd := r.1.fd }) dequeued
  else if data.evt_msg.len > 0 ∧ data.type = .VFE_MSG_GENERAL then
    if !env.copy_to_user_data_ok then get_stats_copy_se env (-EFAULT) msm se1 .nothing dequeued
    else
      get_stats_copy_se env rc msm se1 (.bytes (data.evt_msg.data.take data.evt_msg.len)) dequeued
  else if data.type = .VFE_MSG_OUTPUT1 ∨ data.type = .VFE_MSG_OUTPUT2 then
    if !env.copy_to_user_data_ok then get_stats_copy_se env (-EFAULT) msm se1 .nothing dequeued
    else get_stats_copy_se env rc msm se1 (.bytes (data.extdata.take data.extlen)) dequeued
  else if data.type = .VFE_MSG_SNAPSHOT then
    if msm.pict_pp ≠ 0 then
      if !env.copy_to_user_data_ok then
        { rc := -EFAULT, msm := msm, se_out := none, data_out := .nothing,
          dequeued := dequeued }
      else get_stats_copy_se env rc msm se1 (.postproc (get_stats_postproc env msm)) dequeued
    else get_stats_copy_se env rc msm se1 .nothing dequeued
  else get_stats_copy_se env rc msm se1 .nothing dequeued

/-- The `MSM_CAM_Q_CTRL` and `MSM_CAM_Q_V4L2_REQ` cases of `msm_get_stats`, which
differ in the response kind only. -/
def get_stats_ctrl (env : get_stats_env) (rc : Int) (msm : msm_device_t)
    (se : msm_stats_event_ctrl) (ctrl : msm_ctrl_cmd_t) (resptype : msm_resp_t)
    (dequeued : Option msm_queue_cmd_t) : get_stats_result :=
  let se1 : msm_stats_event_ctrl :=
    { se with resptype := resptype,
              ctrl_cmd := { se.ctrl_cmd with type := ctrl.type, length := ctrl.length } }
  if ctrl.length > 0 then
    if !env.copy_to_user_data_ok then
      { rc := -EFAULT, msm := msm, se_out := none, data_out := .nothing, dequeued := dequeued }
    else get_stats_copy_se env rc msm se1 (.bytes (ctrl.value.take ctrl.length)) dequeued
  else get_stats_copy_se env rc msm se1 .nothing dequeued

/-- `msm_get_stats(arg, msm)`; `se` is the structure behind `arg`.  `none` stands
for the dereference of a NULL `qcmd` or payload, or the cast of a payload of the
wrong kind. -/
def msm_get_stats (se : msm_stats_event_ctrl) (env : get_stats_env) (msm : msm_device_t) :
    Option get_stats_result :=
  if !env.copy_from_user_se_ok then
    some { rc := -EFAULT, msm := msm, se_out := none, data_out := .nothing, dequeued := none }
  else
    let rc :=
      if se.timeout_ms > 0 then wait_event_timeout (msm_stats_pending msm) env.jiffies_left
      else wait_event_interruptible (msm_stats_pending msm)
    if se.timeout_ms > 0 ∧ rc = 0 then
      some { rc := -ETIMEDOUT, msm := msm, se_out := none, data_out := .nothing,
             dequeued := none }
    else if rc < 0 then
      some { rc := -ERESTARTSYS, msm := msm, se_out := none, data_out := .nothing,
             dequeued := none }
    else
      match msm.msg_event_queue with
      | [] => none
      | qcmd :: rest =>
        let msm1 := { msm with msg_event_queue := rest }
        match qcmd.type, qcmd.command with
        | .MSM_CAM_Q_VFE_EVT, .vfe_resp data => some (get_stats_vfe env rc msm1 se data (some qcmd))
        | .MSM_CAM_Q_VFE_MSG, .vfe_resp data => some (get_stats_vfe env rc msm1 se data (some qcmd))
        | .MSM_CAM_Q_CTRL, .ctrl ctrl =>
          some (get_stats_ctrl env rc msm1 se ctrl .MSM_CAM_RESP_CTRL (some qcmd))
        | .MSM_CAM_Q_V4L2_REQ, .ctrl ctrl =>
          some (get_stats_ctrl env rc msm1 se ctrl .MSM_CAM_RESP_V4L2 (some qcmd))
        | .other _, _ =>
          some { rc := -EFAULT, msm := msm1, se_out := none, data_out := .nothing,
                 dequeued := some qcmd }
        | _, _ => none

/-! ## Open and release -/

/-- Calls into the hardware layer, the pmem driver and the wake-lock API that
`__msm_open` and `msm_release` make, as a trace. -/
inductive hw_call where
  | msm_camvfe_check
  | wake_lock
  | msm_camvfe_fn_init
  | vfe_init
  | s_init
  | vfe_release
  | put_pmem_file (file : Nat)
  | s_release
  | wake_unlock
  deriving DecidableEq, Repr

/-- Environment of one `__msm_open` call: the code `msm_camvfe_check` returns,
whether the platform data is present, the table `msm_camvfe_fn_init` stores, and
the codes the two init functions return if they are called. -/
structure msm_open_env where
  camvfe_check_rc : Int
  pdata_present : Bool
  fn_table : msm_camvfe_fn_t
  vfe_init_rc : Int
  s_init_rc : Int
  deriving DecidableEq, Repr

/-- Result of `__msm_open` and of `msm_release`: return code, device afterwards and
the external calls made, in order. -/
structure lifecycle_result where
  rc : Int
  msm : msm_device_t
  calls : List hw_call
  deriving DecidableEq, Repr

/-- `__msm_open(msm)`. -/
def __msm_open (env : msm_open_env) (msm : msm_device_t) : lifecycle_result :=
  if env.camvfe_check_rc < 0 then
    { rc := env.camvfe_check_rc, msm := msm, calls := [.msm_camvfe_check] }
  else if !env.pdata_present then
    { rc := -ENODEV, msm := msm, calls := [.msm_camvfe_check] }
  else if msm.opencnt > 3 then
    { rc := -EFAULT, msm := msm, calls := [.msm_camvfe_check] }
  else if msm.opencnt + 1 = 1 then
    let msm1 := { msm with opencnt := msm.opencnt + 1, wake_locked := true,
                           vfefn := env.fn_table }
    if msm1.vfefn.vfe_init then
      if env.vfe_init_rc < 0 then
        { rc := env.vfe_init_rc, msm := msm1,
          calls := [.msm_camvfe_check, .wake_lock, .msm_camvfe_fn_init, .vfe_init] }
      else if env.s_init_rc < 0 then
        { rc := env.s_init_rc, msm := msm1,
          calls := [.msm_camvfe_check, .wake_lock, .msm_camvfe_fn_init, .vfe_init, .s_init] }
      else
        { rc := env.s_init_rc, msm := { msm1 with sync := { frame := [], stats := [] } },
          calls := [.msm_camvfe_check, .wake_lock, .msm_camvfe_fn_init, .vfe_init, .s_init] }
    else
      { rc := -ENODEV, msm := msm1,
        calls := [.msm_camvfe_check, .wake_lock, .msm_camvfe_fn_init] }
  else if msm.opencnt + 1 > 1 then
    { rc := 0, msm := { msm with opencnt := msm.opencnt + 1 }, calls := [.msm_camvfe_check] }
  else
    { rc := env.camvfe_check_rc, msm := { msm with opencnt := msm.opencnt + 1 },
      calls := [.msm_camvfe_check] }

/-- The drain loop `while (msm_ctrl_stats_pending(pmsm))` of `msm_release` on the
control-status queue. -/
def drain_ctrl_status_queue : List msm_queue_cmd_t → List msm_queue_cmd_t
  | [] => []
  | qcmd :: rest =>
    if !(qcmd :: rest).isEmpty then drain_ctrl_status_queue rest else qcmd :: rest

/-- The drain loop `while (msm_stats_pending(pmsm))` of `msm_release` on the message
queue. -/
def drain_msg_event_queue : List msm_queue_cmd_t → List msm_queue_cmd_t
  | [] => []
  | qcmd :: rest =>
    if stats_pending_of (qcmd :: rest) then drain_msg_event_queue rest else qcmd :: rest

/-- The drain loop `while (msm_camera_pict_pending(pmsm))` of `msm_release` on the
picture queue. -/
def drain_pict_frame_q : List msm_queue_cmd_t → List msm_queue_cmd_t
  | [] => []
  | qcmd :: rest =>
    if pict_pending_of (qcmd :: rest) then drain_pict_frame_q rest else qcmd :: rest

/-- The drain loop `while (msm_frame_pending(pmsm))` of `msm_release` on the
previous-frame queue. -/
def drain_prev_frame_q : List msm_queue_cmd_t → List msm_queue_cmd_t
  | [] => []
  | qcmd :: rest =>
    if frame_pending_of (qcmd :: rest) then drain_prev_frame_q rest else qcmd :: rest

/-- `msm_release(node, filep)` on the device behind `filep->private_data`. -/
def msm_release (pmsm : msm_device_t) : lifecycle_result :=
  if pmsm.opencnt - 1 = 0 then
    { rc := 0,
      msm := { pmsm with
        opencnt := pmsm.opencnt - 1,
        croplen := 0,
        cropinfo := if pmsm.croplen ≠ 0 then [] else pmsm.cropinfo,
        sync := { frame := [], stats := [] },
        ctrl_status_queue := drain_ctrl_status_queue pmsm.ctrl_status_queue,
        msg_event_queue := drain_msg_event_queue pmsm.msg_event_queue,
        pict_frame_q := drain_pict_frame_q pmsm.pict_frame_q,
        prev_frame_q := drain_prev_frame_q pmsm.prev_frame_q,
        wake_locked := false },
      calls :=
        (if pmsm.vfefn.vfe_release then [hw_call.vfe_release] else []) ++
        pmsm.sync.frame.map (fun region => hw_call.put_pmem_file region.file) ++
        pmsm.sync.stats.map (fun region => hw_call.put_pmem_file region.file) ++
        [.s_release, .wake_unlock] }
  else { rc := 0, msm := { pmsm with opencnt := pmsm.opencnt - 1 }, calls := [] }

/-! ## Sequences of driver calls -/

/-- One call into the driver together with the environment's answers. -/
inductive session_op where
  | vfe_sync (vdata : msm_vfe_resp_t) (qtype : msm_queut_t) (env : vfe_sync_env)
  | control (ctrlcmd_t : msm_ctrl_cmd_t) (env : msm_control_env)
  | control_kernel (ctrlcmd : msm_ctrl_cmd_t) (env : msm_control_kernel_env)
  | get_stats (se : msm_stats_event_ctrl) (env : get_stats_env)
  | ctrl_cmd_done (ctrlcmd_t : msm_ctrl_cmd_t) (env : ctrl_cmd_done_env)
  | pict_pp_done (ctrlcmd_t : msm_ctrl_cmd_t) (env : pict_pp_done_env)
  | get_frame (frame : msm_frame_t)
  | get_pic (ctrl : msm_ctrl_cmd_t) (jiffies_left : Nat)
  | open_dev (env : msm_open_env)
  | release
  | registry (op : registry_op)
  | set_pict_pp (enable : Nat)
  deriving DecidableEq, Repr

/-- Effect of one driver call on the device; `none` where the call has no defined
behaviour. -/
def session_step (msm : msm_device_t) : session_op → Option msm_device_t
  | .vfe_sync vdata qtype env => some (msm_vfe_sync vdata qtype env msm)
  | .control ctrlcmd_t env => (msm_control ctrlcmd_t env msm).map (fun r => r.msm)
  | .control_kernel ctrlcmd env => (__msm_control ctrlcmd env msm).map (fun r => r.msm)
  | .get_stats se env => (msm_get_stats se env msm).map (fun r => r.msm)
  | .ctrl_cmd_done ctrlcmd_t env => some (msm_ctrl_cmd_done ctrlcmd_t env msm).2
  | .pict_pp_done ctrlcmd_t env => (msm_pict_pp_done ctrlcmd_t env msm).map (fun r => r.2)
  | .get_frame frame => (__msm_get_frame frame msm).map (fun r => r.msm)
  | .get_pic ctrl jiffies_left => (__msm_get_pic ctrl jiffies_left msm).map (fun r => r.msm)
  | .open_dev env => some (__msm_open env msm).msm
  | .release => some (msm_release msm).msm
  | .registry op => some { msm with sync := registry_step msm.sync op }
  | .set_pict_pp enable => some { msm with pict_pp := enable }

/-- The device states the driver can be in: the state `msm_camera_drv_start` sets
up, and every state a defined driver call leads to from such a state. -/
inductive reachable : msm_device_t → Prop where
  | start : reachable msm_camera_drv_start_device
  | step (msm msm1 : msm_device_t) (op : session_op) :
      reachable msm → session_step msm op = some msm1 → reachable msm1

/-! ## The four queues, their producers and consumers -/

/-- Every entry of the picture queue is tagged `MSM_CAM_Q_VFE_MSG`. -/
def pict_tags_ok (msm : msm_device_t) : Prop :=
  ∀ e ∈ msm.pict_frame_q, e.type = msm_queut_t.MSM_CAM_Q_VFE_MSG

/-! ## Sample driver inputs -/

/-- Environment in which every allocation of `msm_vfe_sync` succeeds. -/
def vfe_sync_env_ok : vfe_sync_env :=
  { kmalloc_qcmd_ok := true, kmalloc_qcmd_frame_ok := true, kmalloc_fphy_ok := true,
    uninit_type := .other 0 }

/-- A hardware event with a two-byte message. -/
def sample_event : msm_vfe_resp_t :=
  { type := .VFE_MSG_GENERAL, evt_msg := { type := 1, msg_id := 7, len := 2, data := [1, 2] },
    phy := { sbuf_phy := 0, y_phy := 0, cbcr_phy := 0 }, extdata := [], extlen := 0 }

/-- A snapshot-ready message. -/
def sample_snapshot : msm_vfe_resp_t :=
  { type := .VFE_MSG_SNAPSHOT, evt_msg := { type := 0, msg_id := 9, len := 0, data := [] },
    phy := { sbuf_phy := 0, y_phy := 0, cbcr_phy := 0 }, extdata := [], extlen := 0 }

/-- Environment in which every copy and allocation of `msm_ctrl_cmd_done` succeeds. -/
def ctrl_cmd_done_env_ok : ctrl_cmd_done_env :=
  { copy_from_user_arg_ok := true, kzalloc_ctrlcmd_ok := true, kmalloc_value_ok := true,
    copy_from_user_value_ok := true, kmalloc_qcmd_ok := true, uninit_type := .other 0 }

/-- Environment in which every copy and allocation of `msm_control` succeeds. -/
def msm_control_env_ok : msm_control_env :=
  { copy_from_user_arg_ok := true, kmalloc_ctrlcmd_ok := true, kmalloc_value_ok := true,
    copy_from_user_value_ok := true, kmalloc_qcmd_ok := true, uninit_timeout_ms := 0,
    uninit_status := 0, jiffies_left := 5, copy_to_user_value_ok := true,
    copy_to_user_arg_ok := true }

/-- Environment in which every copy of `msm_get_stats` succeeds. -/
def get_stats_env_ok : get_stats_env :=
  { copy_from_user_se_ok := true, jiffies_left := 5,
    uninit_stats := { type := 0, buffer := 0, fd := 0 },
    uninit_buf := { fmnum := 0, fmain := { path := .other 0, buffer := 0, y_off := 0,
                                           cbcr_off := 0, fd := 0, croplen := 0 } },
    uninit_region := sample_region, copy_to_user_data_ok := true, copy_to_user_se_ok := true }

/-- A first response: opcode 1, status 0, two payload bytes. -/
def sample_response_1 : msm_ctrl_cmd_t :=
  { timeout_ms := 0, type := 1, length := 2, value := [0xAA, 0xBB], status := 0 }

/-- A second response: opcode 2, status 7, one payload byte. -/
def sample_response_2 : msm_ctrl_cmd_t :=
  { timeout_ms := 0, type := 2, length := 1, value := [0xCC], status := 7 }

/-- A request with a 100 ms timeout and an empty payload. -/
def sample_request : msm_ctrl_cmd_t :=
  { timeout_ms := 100, type := 9, length := 0, value := [], status := 0 }

/-- The caller's structure for `msm_get_stats`, with a 100 ms timeout. -/
def sample_se : msm_stats_event_ctrl :=
  { timeout_ms := 100, resptype := .other 0,
    ctrl_cmd := { timeout_ms := 0, type := 0, length := 0, value := [], status := 0 },
    stats_event := { type := 0, msg_id := 0, len := 0, data := [] } }

/-- The control-status entry `msm_ctrl_cmd_done` builds from `sample_response_1`. -/
def sample_entry_1 : msm_queue_cmd_t :=
  { type := .other 0, command := .ctrl (ctrl_cmd_done_command sample_response_1) }

/-- The control-status entry `msm_ctrl_cmd_done` builds from `sample_response_2`. -/
def sample_entry_2 : msm_queue_cmd_t :=
  { type := .other 0, command := .ctrl (ctrl_cmd_done_command sample_response_2) }

/-- The device after `msm_ctrl_cmd_done` has been called with `sample_response_1`
and then with `sample_response_2`. -/
def two_responses_queued : msm_device_t :=
  (msm_ctrl_cmd_done sample_response_2 ctrl_cmd_done_env_ok
    (msm_ctrl_cmd_done sample_response_1 ctrl_cmd_done_env_ok msm_camera_drv_start_device).2).2

/-- The device after a snapshot message arrived with post-processing disabled. -/
def snapshot_arrived : msm_device_t :=
  msm_vfe_sync sample_snapshot .MSM_CAM_Q_VFE_MSG vfe_sync_env_ok msm_camera_drv_start_device

/-- The device after `msm_vfe_sync` pushed `sample_event` tagged event and
`msm_control` pushed `sample_request`, starting from `two_responses_queued`. -/
def event_then_command : msm_control_result :=
  (msm_control sample_request msm_control_env_ok
    (msm_vfe_sync sample_event .MSM_CAM_Q_VFE_EVT vfe_sync_env_ok two_responses_queued)).get
    (by decide)

/-- The checks at the top of `__msm_open` pass: `msm_camvfe_check` does not fail and
the platform data is present. -/
def open_checks_pass (env : msm_open_env) : Prop :=
  0 ≤ env.camvfe_check_rc ∧ env.pdata_present = true

instance (env : msm_open_env) : Decidable (open_checks_pass env) := by
  unfold open_checks_pass; infer_instance

/-- The initialisation of a first open succeeds: the table has an init function and
neither init call fails. -/
def open_init_succeeds (env : msm_open_env) : Prop :=
  env.fn_table.vfe_init = true ∧ 0 ≤ env.vfe_init_rc ∧ 0 ≤ env.s_init_rc

instance (env : msm_open_env) : Decidable (open_init_succeeds env) := by
  unfold open_init_succeeds; infer_instance

/-- An environment in which every check and initialisation of `__msm_open`
succeeds. -/
def open_env_ok : msm_open_env :=
  { camvfe_check_rc := 0, pdata_present := true,
    fn_table := { vfe_init := true, vfe_enable := true, vfe_config := true,
                  vfe_disable := true, vfe_release := true },
    vfe_init_rc := 0, s_init_rc := 0 }

/-- As `open_env_ok`, but `vfe_init` fails with `-EIO`. -/
def open_env_vfe_init_fails : msm_open_env :=
  { open_env_ok with vfe_init_rc := - EIO }

/-- The device after one successful open. -/
def opened_once : msm_device_t :=
  (__msm_open open_env_ok msm_camera_drv_start_device).msm

/-- The device after one successful open and a `msm_vfe_sync` call whose `qtype` is
neither event nor message, so that the tag of the queued entry is whatever the
allocation held (here a value outside the four kinds). -/
def untagged_entry_queued : msm_device_t :=
  msm_vfe_sync sample_event .MSM_CAM_Q_CTRL vfe_sync_env_ok opened_once

/-- The device after two successful opens. -/
def opened_twice : msm_device_t := (__msm_open open_env_ok opened_once).msm

/-- The device after three successful opens. -/
def opened_three_times : msm_device_t := (__msm_open open_env_ok opened_twice).msm

/-- The device after four successful opens. -/
def opened_four_times : msm_device_t := (__msm_open open_env_ok opened_three_times).msm

/-! ## Buffer release and AXI configuration -/

/-- Modelled from the spec: the command types `msm_camera.c` stores in
`cfgcmd_t.cmd_type` on the paths embedded here (`media/msm_camera.h`, not among
the sources); `other n` stands for every other command type. -/
inductive vfe_cmd_type where
  | CMD_AXI_CFG_OUT1
  | CMD_AXI_CFG_OUT2
  | CMD_AXI_CFG_SNAP_O1_AND_O2
  | CMD_RAW_PICT_AXI_CFG
  | CMD_FRAME_BUF_RELEASE
  | CMD_STATS_BUF_RELEASE
  | CMD_STATS_AF_BUF_RELEASE
  | other (n : Nat)
  deriving DecidableEq, Repr

/-- Modelled from the spec: `struct axidata_t` (`mach/camera.h`, not among the
sources).  `region` points at the local array `region[8]` of the caller; it is
given here as the stores made into that array, position and region, in program
order. -/
structure axidata_t where
  bufnum1 : Nat
  bufnum2 : Nat
  region : List (Nat × msm_pmem_region)
  deriving DecidableEq, Repr

/-- The second argument of a `msm->vfefn.vfe_config` call: the physical address
behind `&pphy`, or the AXI data. -/
inductive vfe_config_data where
  | pphy (addr : Nat)
  | axi (data : axidata_t)
  deriving DecidableEq, Repr

/-- One call of `msm->vfefn.vfe_config(cfgcmd, data)`. -/
structure vfe_config_call where
  cmd_type : vfe_cmd_type
  data : vfe_config_data
  deriving DecidableEq, Repr

/-- Result of a buffer-release call: return code, the device afterwards and the
`vfe_config` calls made. -/
structure put_buf_result where
  rc : Int
  msm : msm_device_t
  config_calls : List vfe_config_call
  deriving DecidableEq, Repr

/-- `__msm_put_frame_buf(pb, msm)`; `vfe_config_rc` is what the hardware's config
function returns when it is called. -/
def __msm_put_frame_buf (pb : msm_frame_t) (vfe_config_rc : Int) (msm : msm_device_t) :
    put_buf_result :=
  let r := msm_pmem_frame_vtop_lookup pb.buffer pb.y_off pb.cbcr_off pb.fd msm.sync
  let msm1 := { msm with sync := r.2 }
  if r.1 ≠ 0 then
    if msm.vfefn.vfe_config then
      { rc := vfe_config_rc, msm := msm1,
        config_calls := [{ cmd_type := .CMD_FRAME_BUF_RELEASE, data := .pphy r.1 }] }
    else { rc := 0, msm := msm1, config_calls := [] }
  else { rc := -EFAULT, msm := msm1, config_calls := [] }

/-- Modelled from the spec: the stat kind of an AEC/AWB buffer
(`media/msm_camera.h`, not among the sources).  The driver only compares stat
kinds for equality; the numbers follow the order in which it tests them. -/
def STAT_AEAW : Int := 0

/-- Modelled from the spec: the stat kind of an autofocus buffer
(`media/msm_camera.h`, not among the sources). -/
def STAT_AF : Int := 1

/-- Environment of one `msm_put_stats_buffer` call: the outcome of the user copy
and what the hardware's config function returns when it is called. -/
structure put_stats_env where
  copy_from_user_ok : Bool
  vfe_config_rc : Int
  deriving DecidableEq, Repr

/-- The part of `msm_put_stats_buffer` after `cfgcmd_t.cmd_type` has been chosen:
the guarded call of the config function. -/
def put_stats_release (cmd_type : vfe_cmd_type) (pphy : Nat) (env : put_stats_env)
    (msm : msm_device_t) : put_buf_result :=
  if msm.vfefn.vfe_config then
    { rc := env.vfe_config_rc, msm := msm,
      config_calls := [{ cmd_type := cmd_type, data := .pphy pphy }] }
  else { rc := 0, msm := msm, config_calls := [] }

/-- `msm_put_stats_buffer(arg, msm)`; `buf` is the structure behind `arg`. -/
def msm_put_stats_buffer (buf : msm_stats_buf_t) (env : put_stats_env) (msm : msm_device_t) :
    put_buf_result :=
  if !env.copy_from_user_ok then { rc := -EFAULT, msm := msm, config_calls := [] }
  else
    let r := msm_pmem_stats_vtop_lookup buf.buffer buf.fd msm.sync
    let msm1 := { msm with sync := r.2 }
    if r.1 ≠ 0 then
      if buf.type = STAT_AEAW then put_stats_release .CMD_STATS_BUF_RELEASE r.1 env msm1
      else if buf.type = STAT_AF then put_stats_release .CMD_STATS_AF_BUF_RELEASE r.1 env msm1
      else { rc := -EINVAL, msm := msm1, config_calls := [] }
    else { rc := -EFAULT, msm := msm1, config_calls := [] }

/-- The lookups of `msm_frame_axi_cfg`: `bufnum1`, `bufnum2` and the stores into
the local array `region[8]`.  A lookup called with `&region[base]` stores its
regions at the positions `base`, `base + 1`, ... -/
def msm_frame_axi_cfg_lookups (cmd_type : vfe_cmd_type) (sync : msm_sync) : axidata_t :=
  match cmd_type with
  | .CMD_AXI_CFG_OUT1 =>
    let r := msm_pmem_region_lookup sync.frame MSM_PMEM_OUTPUT1 8
    { bufnum1 := r.1, bufnum2 := 0, region := r.2.enumFrom 0 }
  | .CMD_AXI_CFG_OUT2 =>
    let r := msm_pmem_region_lookup sync.frame MSM_PMEM_OUTPUT2 8
    { bufnum1 := 0, bufnum2 := r.1, region := r.2.enumFrom 0 }
  | .CMD_AXI_CFG_SNAP_O1_AND_O2 =>
    let r1 := msm_pmem_region_lookup sync.frame MSM_PMEM_THUMBAIL 8
    let r2 := msm_pmem_region_lookup sync.frame MSM_PMEM_MAINIMG 8
    { bufnum1 := r1.1, bufnum2 := r2.1, region := r1.2.enumFrom 0 ++ r2.2.enumFrom r1.1 }
  | .CMD_RAW_PICT_AXI_CFG =>
    let r := msm_pmem_region_lookup sync.frame MSM_PMEM_RAW_MAINIMG 8
    { bufnum1 := 0, bufnum2 := r.1, region := r.2.enumFrom 0 }
  | _ => { bufnum1 := 0, bufnum2 := 0, region := [] }

/-- Every store of the lookups hits one of the 8 elements of `region[8]`. -/
def axi_stores_in_bounds (a : axidata_t) : Prop :=
  ∀ w ∈ a.region, w.1 < 8

instance (a : axidata_t) : Decidable (axi_stores_in_bounds a) := by
  unfold axi_stores_in_bounds; infer_instance

/-- `msm_frame_axi_cfg(cfgcmd_t, msm)`; `vfe_config_rc` is what the hardware's
config function returns when it is called.  `none` stands for a store past the
end of the local array `region[8]`. -/
def msm_frame_axi_cfg (cmd_type : vfe_cmd_type) (vfe_config_rc : Int) (msm : msm_device_t) :
    Option put_buf_result :=
  let axi_data := msm_frame_axi_cfg_lookups cmd_type msm.sync
  if axi_stores_in_bounds axi_data then
    if msm.vfefn.vfe_config then
      some { rc := vfe_config_rc, msm := msm,
             config_calls := [{ cmd_type := cmd_type, data := .axi axi_data }] }
    else some { rc := 0, msm := msm, config_calls := [] }
  else none

/-! ## Crop metadata and the user entry points of frame and picture retrieval -/

/-- Modelled from the spec: `struct crop_info_t` (`media/msm_camera.h`, not among the
sources): the user buffer behind `info` and its declared length. -/
structure crop_info_t where
  info : List Nat
  len : Nat
  deriving DecidableEq, Repr

/-- Size in bytes of the pointer member `msm->cropinfo` on the 32-bit ARM target. -/
def CROPINFO_MEMBER_SIZE : Nat := 4

/-- Environment of one `msm_set_crop` call: the outcomes of the user copies and of
the allocation, in program order, and `after_copy`, the device as the second
`copy_from_user` leaves it where the embedding cannot tell: that copy targets
`&msm->cropinfo`, the pointer member itself, so a blob longer than the member
runs into the members that follow it in `struct msm_device_t` (`mach/camera.h`,
not among the sources), and a copy that fails may have written a part. -/
structure set_crop_env where
  copy_from_user_arg_ok : Bool
  kmalloc_ok : Bool
  copy_from_user_info_ok : Bool
  after_copy : msm_device_t
  deriving DecidableEq, Repr

/-- The tail of `msm_set_crop` from `copy_from_user(&msm->cropinfo, crop.info,
crop.len)` on.  The field `cropinfo` of the embedding stands for the first
`croplen` bytes found at `&msm->cropinfo`, the address `msm_set_crop` writes and
`msm_get_frame` / `msm_get_pic` read.  A blob that fits the member changes
nothing else; for a longer blob, and for a failed copy, the device after the
copy is `env.after_copy`.  `msm->croplen = crop.len` is assigned after the
copy. -/
def msm_set_crop_store (crop : crop_info_t) (env : set_crop_env) (msm : msm_device_t) :
    Int × msm_device_t :=
  if !env.copy_from_user_info_ok then (-EFAULT, env.after_copy)
  else if crop.len ≤ CROPINFO_MEMBER_SIZE then
    (0, { msm with croplen := crop.len, cropinfo := crop.info.take crop.len })
  else (0, { env.after_copy with croplen := crop.len })

/-- `msm_set_crop(arg, msm)`; `crop` is the structure behind `arg`. -/
def msm_set_crop (crop : crop_info_t) (env : set_crop_env) (msm : msm_device_t) :
    Int × msm_device_t :=
  if !env.copy_from_user_arg_ok then (-EFAULT, msm)
  else if msm.croplen = 0 then
    if !env.kmalloc_ok then (-ENOMEM, msm)
    else msm_set_crop_store crop env msm
  else if msm.croplen < crop.len then (-EINVAL, msm)
  else msm_set_crop_store crop env msm

/-- Environment of one `msm_get_frame` call: the outcomes of the user copies in
program order. -/
structure get_frame_env where
  copy_from_user_ok : Bool
  copy_to_user_crop_ok : Bool
  copy_to_user_arg_ok : Bool
  deriving DecidableEq, Repr

/-- Result of `msm_get_frame`: the return code, the device afterwards, the byte
count of the `copy_to_user` into the caller's crop buffer (`none` if that copy
did not happen), the frame copied back to `arg` (`none` if that copy did not
happen) and the entry unlinked from the previous-frame queue. -/
structure msm_get_frame_result where
  rc : Int
  msm : msm_device_t
  crop_copied : Option Nat
  arg_out : Option msm_frame_t
  dequeued : Option msm_queue_cmd_t
  deriving DecidableEq, Repr

/-- `msm_get_frame(arg, msm)`; `frame` is the structure behind `arg`, whose
`croplen` is the capacity of the caller's crop buffer. -/
def msm_get_frame (frame : msm_frame_t) (env : get_frame_env) (msm : msm_device_t) :
    Option msm_get_frame_result :=
  if !env.copy_from_user_ok then
    some { rc := -EFAULT, msm := msm, crop_copied := none, arg_out := none, dequeued := none }
  else if msm.croplen ≠ 0 ∧ frame.croplen > msm.croplen then
    some { rc := -EINVAL, msm := msm, crop_copied := none, arg_out := none, dequeued := none }
  else if msm.croplen ≠ 0 ∧ env.copy_to_user_crop_ok = false then
    some { rc := -EFAULT, msm := msm, crop_copied := none, arg_out := none, dequeued := none }
  else
    let crop := if msm.croplen ≠ 0 then some msm.croplen else none
    match __msm_get_frame frame msm with
    | none => none
    | some r =>
      if r.rc < 0 then
        some { rc := r.rc, msm := r.msm, crop_copied := crop, arg_out := none,
               dequeued := r.dequeued }
      else if !env.copy_to_user_arg_ok then
        some { rc := -EFAULT, msm := r.msm, crop_copied := crop, arg_out := none,
               dequeued := r.dequeued }
      else
        some { rc := r.rc, msm := r.msm, crop_copied := crop, arg_out := some r.frame,
               dequeued := r.dequeued }

/-- Environment of one `msm_get_pic` call: the outcomes of the user copies in
program order and the scheduler's answer to a timed wait. -/
structure get_pic_env where
  copy_from_user_ok : Bool
  copy_to_user_crop_ok : Bool
  jiffies_left : Nat
  copy_to_user_arg_ok : Bool
  deriving DecidableEq, Repr

/-- Result of `msm_get_pic`: the return code, the device afterwards, the byte count
of the `copy_to_user` into the caller's value buffer (`none` if that copy did
not happen), the structure copied back to `arg` and the entry unlinked from the
picture queue. -/
structure msm_get_pic_result where
  rc : Int
  msm : msm_device_t
  crop_copied : Option Nat
  arg_out : Option msm_ctrl_cmd_t
  dequeued : Option msm_queue_cmd_t
  deriving DecidableEq, Repr

/-- `msm_get_pic(arg, msm)`; `ctrlcmd_t` is the structure behind `arg`, whose
`length` is the capacity of the caller's value buffer. -/
def msm_get_pic (ctrlcmd_t : msm_ctrl_cmd_t) (env : get_pic_env) (msm : msm_device_t) :
    Option msm_get_pic_result :=
  if !env.copy_from_user_ok then
    some { rc := -EFAULT, msm := msm, crop_copied := none, arg_out := none, dequeued := none }
  else if msm.croplen ≠ 0 ∧ ctrlcmd_t.length < msm.croplen then
    some { rc := -EINVAL, msm := msm, crop_copied := none, arg_out := none, dequeued := none }
  else if msm.croplen ≠ 0 ∧ env.copy_to_user_crop_ok = false then
    some { rc := -EFAULT, msm := msm, crop_copied := none, arg_out := none, dequeued := none }
  else
    let crop := if msm.croplen ≠ 0 then some msm.croplen else none
    match __msm_get_pic ctrlcmd_t env.jiffies_left msm with
    | none => none
    | some r =>
      if r.rc < 0 then
        some { rc := r.rc, msm := r.msm, crop_copied := crop, arg_out := none,
               dequeued := r.dequeued }
      else if !env.copy_to_user_arg_ok then
        some { rc := -EFAULT, msm := r.msm, crop_copied := crop, arg_out := none,
               dequeued := r.dequeued }
      else
        some { rc := 0, msm := r.msm, crop_copied := crop, arg_out := some r.ctrl,
               dequeued := r.dequeued }

/-! ## The Scorpion CPU clock (`acpuclock-scorpion.c`) -/

/-- `struct clkctl_acpu_speed`: one row of the frequency table. -/
structure clkctl_acpu_speed where
  acpu_khz : Nat
  clk_cfg : Nat
  clk_sel : Nat
  sc_l_value : Nat
  lpj : Nat
  vdd : Int
  deriving DecidableEq, Repr

/-- Clock source: TCXO, 19.2 MHz. -/
def CLK_TCXO : Nat := 0

/-- Clock source: global PLL, 768 MHz. -/
def CLK_GLOBAL_PLL : Nat := 1

/-- Clock source: modem PLL. -/
def CLK_MODEM_PLL : Nat := 4

/-- The macro `CCTL(src, div)`: `((src) << 4) | (div - 1)`. -/
def CCTL (src div : Nat) : Nat := (src <<< 4) ||| (div - 1)

/-- Core source: clock from `SPSS_CLK_CNTL`. -/
def SRC_RAW : Nat := 0

/-- Core source: output of the Scorpion PLL. -/
def SRC_SCPLL : Nat := 1

/-- Core source: AXI, 128 MHz. -/
def SRC_AXI : Nat := 2

/-- The table `acpu_freq_tbl[]`: 21 speeds and the all-zero terminator `{ 0 }`. -/
def acpu_freq_tbl : List clkctl_acpu_speed :=
  [ { acpu_khz := 19200, clk_cfg := CCTL CLK_TCXO 1, clk_sel := SRC_RAW, sc_l_value := 0,
      lpj := 0, vdd := 1000 },
    { acpu_khz := 128000, clk_cfg := CCTL CLK_TCXO 1, clk_sel := SRC_AXI, sc_l_value := 0,
      lpj := 0, vdd := 1000 },
    { acpu_khz := 245000, clk_cfg := CCTL CLK_MODEM_PLL 1, clk_sel := SRC_RAW, sc_l_value := 0,
      lpj := 0, vdd := 1000 },
    { acpu_khz := 256000, clk_cfg := CCTL CLK_GLOBAL_PLL 3, clk_sel := SRC_RAW,
      sc_l_value := 0, lpj := 0, vdd := 1000 },
    { acpu_khz := 384000, clk_cfg := CCTL CLK_TCXO 1, clk_sel := SRC_SCPLL,
      sc_l_value := 0x0A, lpj := 0, vdd := 1000 },
    { acpu_khz := 422400, clk_cfg := CCTL CLK_TCXO 1, clk_sel := SRC_SCPLL,
      sc_l_value := 0x0B, lpj := 0, vdd := 1000 },
    { acpu_khz := 460800, clk_cfg := CCTL CLK_TCXO 1, clk_sel := SRC_SCPLL,
      sc_l_value := 0x0C, lpj := 0, vdd := 1000 },
    { acpu_khz := 499200, clk_cfg := CCTL CLK_TCXO 1, clk_sel := SRC_SCPLL,
      sc_l_value := 0x0D, lpj := 0, vdd := 1025 },
    { acpu_khz := 537600, clk_cfg := CCTL CLK_TCXO 1, clk_sel := SRC_SCPLL,
      sc_l_value := 0x0E, lpj := 0, vdd := 1050 },
    { acpu_khz := 576000, clk_cfg := CCTL CLK_TCXO 1, clk_sel := SRC_SCPLL,
      sc_l_value := 0x0F, lpj := 0, vdd := 1050 },
    { acpu_khz := 614400, clk_cfg := CCTL CLK_TCXO 1, clk_sel := SRC_SCPLL,
      sc_l_value := 0x10, lpj := 0, vdd := 1075 },
    { acpu_khz := 652800, clk_cfg := CCTL CLK_TCXO 1, clk_sel := SRC_SCPLL,
      sc_l_value := 0x11, lpj := 0, vdd := 1100 },
    { acpu_khz := 691200, clk_cfg := CCTL CLK_TCXO 1, clk_sel := SRC_SCPLL,
      sc_l_value := 0x12, lpj := 0, vdd := 1125 },
    { acpu_khz := 729600, clk_cfg := CCTL CLK_TCXO 1, clk_sel := SRC_SCPLL,
      sc_l_value := 0x13, lpj := 0, vdd := 1150 },
    { acpu_khz := 768000, clk_cfg := CCTL CLK_TCXO 1, clk_sel := SRC_SCPLL,
      sc_l_value := 0x14, lpj := 0, vdd := 1150 },
    { acpu_khz := 806400, clk_cfg := CCTL CLK_TCXO 1, clk_sel := SRC_SCPLL,
      sc_l_value := 0x15, lpj := 0, vdd := 1175 },
    { acpu_khz := 844800, clk_cfg := CCTL CLK_TCXO 1, clk_sel := SRC_SCPLL,
      sc_l_value := 0x16, lpj := 0, vdd := 1200 },
    { acpu_khz := 883200, clk_cfg := CCTL CLK_TCXO 1, clk_sel := SRC_SCPLL,
      sc_l_value := 0x17, lpj := 0, vdd := 1225 },
    { acpu_khz := 921600, clk_cfg := CCTL CLK_TCXO 1, clk_sel := SRC_SCPLL,
      sc_l_value := 0x18, lpj := 0, vdd := 1250 },
    { acpu_khz := 960000, clk_cfg := CCTL CLK_TCXO 1, clk_sel := SRC_SCPLL,
      sc_l_value := 0x19, lpj := 0, vdd := 1250 },
    { acpu_khz := 998400, clk_cfg := CCTL CLK_TCXO 1, clk_sel := SRC_SCPLL,
      sc_l_value := 0x1A, lpj := 0, vdd := 1275 },
    { acpu_khz := 0, clk_cfg := 0, clk_sel := 0, sc_l_value := 0, lpj := 0, vdd := 0 } ]

/-- The standby speed `acpu_stby = &acpu_freq_tbl[0]`. -/
def acpu_stby : clkctl_acpu_speed :=
  acpu_freq_tbl.headD
    { acpu_khz := 0, clk_cfg := 0, clk_sel := 0, sc_l_value := 0, lpj := 0, vdd := 0 }

/-- The macro `IS_ACPU_STANDBY(x)`. -/
def IS_ACPU_STANDBY (x : clkctl_acpu_speed) : Prop :=
  x.clk_cfg = acpu_stby.clk_cfg ∧ x.clk_sel = acpu_stby.clk_sel

instance (x : clkctl_acpu_speed) : Decidable (IS_ACPU_STANDBY x) := by
  unfold IS_ACPU_STANDBY; infer_instance

/-- The fields of `drv_state` and the global `loops_per_jiffy` that
`acpuclk_set_rate` reads or writes.  `current_speed` is the index of the table
row `drv_state.current_speed` points at.  `lpj_column` is the `lpj` column of
the table as `acpuclk_init` wrote it (the only column written after
initialisation of the array). -/
structure clock_state where
  current_speed : Nat
  lpj_column : List Nat
  loops_per_jiffy : Nat
  deriving DecidableEq, Repr

/-- A call to one of the helpers that drive the regulator and the clock registers;
their register protocol is outside the embedding. -/
inductive clk_call where
  | acpuclk_set_vdd_level (vdd : Int)
  | scpll_apps_enable (state : Bool)
  | select_clock (src config : Nat)
  | scpll_set_freq (lval : Nat)
  deriving DecidableEq, Repr

/-- Outcome of the search loop of `acpuclk_set_rate`: the row `next` stops at and
its index, the `-EINVAL` exit, or a walk past the end of the array. -/
inductive tbl_search where
  | found (index : Nat) (next : clkctl_acpu_speed)
  | invalid
  | overrun
  deriving DecidableEq, Repr

/-- The search loop of `acpuclk_set_rate` from row `i` on: stop at a row whose
`acpu_khz` equals `rate`; otherwise leave with `-EINVAL` at a row whose
`acpu_khz` is 0; otherwise step to the next row. -/
def acpuclk_set_rate_loop (rate : Nat) : List clkctl_acpu_speed → Nat → tbl_search
  | [], _ => .overrun
  | next :: rest, i =>
    if next.acpu_khz = rate then .found i next
    else if next.acpu_khz = 0 then .invalid
    else acpuclk_set_rate_loop rate rest (i + 1)

/-- The clock switch of `acpuclk_set_rate` between the two `spin_lock` calls, as
the helper calls it makes. -/
def acpuclk_switch (cur next : clkctl_acpu_speed) : List clk_call :=
  if next.clk_sel = SRC_SCPLL then
    (if cur.clk_sel ≠ SRC_SCPLL then [clk_call.scpll_apps_enable true] else []) ++
    (if ¬ IS_ACPU_STANDBY cur then [clk_call.select_clock acpu_stby.clk_sel acpu_stby.clk_cfg]
     else []) ++
    [.scpll_set_freq next.sc_l_value, .select_clock SRC_SCPLL 0]
  else if cur.clk_sel = SRC_SCPLL then
    [.select_clock acpu_stby.clk_sel acpu_stby.clk_cfg,
     .select_clock next.clk_sel next.clk_cfg, .scpll_apps_enable false]
  else [.select_clock next.clk_sel next.clk_cfg]

/-- Result of `acpuclk_set_rate`: return code, state afterwards, helper calls. -/
structure set_rate_result where
  rc : Int
  state : clock_state
  calls : List clk_call
  deriving DecidableEq, Repr

/-- `acpuclk_set_rate(rate, for_power_collapse)`; `set_vdd_level_rc` is what
`acpuclk_set_vdd_level` returns when it is called.  `none` stands for a
`current_speed` that points at no row of the table and for a search that walks
past the end of the array. -/
def acpuclk_set_rate (rate : Nat) (for_power_collapse : Int) (set_vdd_level_rc : Int)
    (st : clock_state) : Option set_rate_result :=
  match acpu_freq_tbl.get? st.current_speed with
  | none => none
  | some cur =>
    let rate := rate / 1000
    if rate = cur.acpu_khz then some { rc := 0, state := st, calls := [] }
    else
      match acpuclk_set_rate_loop rate acpu_freq_tbl 0 with
      | .overrun => none
      | .invalid => some { rc := -EINVAL, state := st, calls := [] }
      | .found i next =>
        if for_power_collapse = 0 ∧ next.vdd > cur.vdd ∧ set_vdd_level_rc ≠ 0 then
          some { rc := -EINVAL, state := st, calls := [.acpuclk_set_vdd_level next.vdd] }
        else
          some { rc := 0,
                 state := { st with current_speed := i,
                                    loops_per_jiffy := st.lpj_column.getD i 0 },
                 calls :=
                   (if for_power_collapse = 0 ∧ next.vdd > cur.vdd then
                      [clk_call.acpuclk_set_vdd_level next.vdd] else []) ++
                   acpuclk_switch cur next ++
                   (if for_power_collapse = 0 ∧ next.vdd < cur.vdd then
                      [clk_call.acpuclk_set_vdd_level next.vdd] else []) }

/-- `acpuclk_get_rate()`: `drv_state.current_speed->acpu_khz`; `none` when
`current_speed` points at no row of the table. -/
def acpuclk_get_rate (st : clock_state) : Option Nat :=
  (acpu_freq_tbl.get? st.current_speed).map (fun s => s.acpu_khz)

/-- The 21 real rows of the table: every row but the terminator. -/
def acpu_real_speeds : List clkctl_acpu_speed := acpu_freq_tbl.take 21

/-- The state `acpuclk_init` leaves: the clock at 768 MHz (row 14). -/
def clock_at_768 : clock_state :=
  { current_speed := 14, lpj_column := List.replicate 22 0, loops_per_jiffy := 0 }

/-- A response of the configuration thread with a four-byte payload. -/
def sample_long_response : msm_ctrl_cmd_t :=
  { timeout_ms := 0, type := 1, length := 4, value := [1, 2, 3, 4], status := 0 }

/-- A request whose value buffer holds two bytes. -/
def sample_short_request : msm_ctrl_cmd_t :=
  { timeout_ms := 100, type := 9, length := 2, value := [0, 0], status := 0 }

/-- The device after `msm_ctrl_cmd_done` has queued `sample_long_response`. -/
def long_response_queued : msm_device_t :=
  (msm_ctrl_cmd_done sample_long_response ctrl_cmd_done_env_ok msm_camera_drv_start_device).2

/-- The control-status entry `msm_ctrl_cmd_done` builds from
`sample_long_response`. -/
def sample_long_entry : msm_queue_cmd_t :=
  { type := .other 0, command := .ctrl (ctrl_cmd_done_command sample_long_response) }

/-- An output-1 frame message for the physical pair (0x8000, 0x8000), the
addresses of `sample_region`. -/
def sample_output1 : msm_vfe_resp_t :=
  { type := .VFE_MSG_OUTPUT1, evt_msg := { type := 0, msg_id := 3, len := 0, data := [] },
    phy := { sbuf_phy := 0, y_phy := 0x8000, cbcr_phy := 0x8000 }, extdata := [], extlen := 0 }

/-- The device `msm_camera_drv_start` sets up, with the registry `sample_sync`. -/
def registered_device : msm_device_t :=
  { msm_camera_drv_start_device with sync := sample_sync }

/-- `registered_device` after the hardware reported `sample_output1` as a message. -/
def frame_notified : msm_device_t :=
  msm_vfe_sync sample_output1 .MSM_CAM_Q_VFE_MSG vfe_sync_env_ok registered_device

/-- A caller's frame descriptor before `__msm_get_frame` fills it. -/
def sample_frame : msm_frame_t :=
  { path := .MSM_FRAME_PREV_2, buffer := 0, y_off := 11, cbcr_off := 12, fd := 13,
    croplen := 0 }

/-- An opened device (function table present) whose two registered buffers have
both been handed out: both regions are inactive. -/
def buffers_handed_out : msm_device_t :=
  { opened_once with sync := sample_consumed_sync }

/-- As `buffers_handed_out`, on the device `msm_camera_drv_start` sets up, whose
function table has no config function. -/
def handed_out_no_config : msm_device_t :=
  { msm_camera_drv_start_device with sync := sample_consumed_sync }

/-- The frame descriptor of `sample_region`: vaddr 0x1000, offsets (0, 0), fd 5. -/
def sample_frame_release : msm_frame_t :=
  { path := .MSM_FRAME_PREV_2, buffer := 0x1000, y_off := 0, cbcr_off := 0, fd := 5,
    croplen := 0 }

/-- The stats descriptor of `sample_stats_region`: vaddr 0x2000, fd 6, kind AEC/AWB. -/
def sample_stats_release : msm_stats_buf_t :=
  { type := STAT_AEAW, buffer := 0x2000, fd := 6 }

/-- The stats descriptor of `sample_stats_region` with a stat kind that is neither
AEC/AWB nor AF. -/
def sample_stats_bad_kind : msm_stats_buf_t :=
  { type := 7, buffer := 0x2000, fd := 6 }

/-- Environment of `msm_put_stats_buffer` in which the user copy succeeds and the
config function, when called, returns 0. -/
def put_stats_env_ok : put_stats_env :=
  { copy_from_user_ok := true, vfe_config_rc := 0 }

/-- Registration info of a thumbnail buffer, number `i`. -/
def thumbnail_info (i : Nat) : msm_pmem_info_t :=
  { type := MSM_PMEM_THUMBAIL, fd := 20 + i, vaddr := 0x10000 * (i + 1), y_off := 0,
    cbcr_off := 0, active := 1 }

/-- Registration info of a main-image buffer. -/
def mainimg_info : msm_pmem_info_t :=
  { type := MSM_PMEM_MAINIMG, fd := 40, vaddr := 0x200000, y_off := 0, cbcr_off := 0,
    active := 1 }

/-- A successful answer of `get_pmem_file` for buffer number `i`. -/
def snapshot_pin (i : Nat) : pmem_file :=
  { rc := 0, paddr := 0x100000 * (i + 1), vstart := 0x40000000, len := 0x10000,
    file := 100 + i }

/-- Eight thumbnail buffers and one main-image buffer registered from the empty
registry. -/
def nine_snapshot_regions : msm_sync :=
  registry_run empty_sync
    ((List.range 8).map (fun i => registry_op.register (thumbnail_info i) (snapshot_pin i) true)
      ++ [.register mainimg_info (snapshot_pin 8) true])

/-- An opened device whose registry is `nine_snapshot_regions`. -/
def snapshot_device : msm_device_t :=
  { opened_once with sync := nine_snapshot_regions }

/-- Environment in which every copy and allocation of `msm_set_crop` succeeds. -/
def set_crop_env_ok : set_crop_env :=
  { copy_from_user_arg_ok := true, kmalloc_ok := true, copy_from_user_info_ok := true,
    after_copy := msm_camera_drv_start_device }

/-- The device after a first `msm_set_crop` with a four-byte blob. -/
def crop_stored : msm_device_t :=
  (msm_set_crop { info := [1, 2, 3, 4], len := 4 } set_crop_env_ok
    msm_camera_drv_start_device).2

/-- Environment in which every copy of `msm_get_frame` succeeds. -/
def get_frame_env_ok : get_frame_env :=
  { copy_from_user_ok := true, copy_to_user_crop_ok := true, copy_to_user_arg_ok := true }

/-- Environment in which every copy of `msm_get_pic` succeeds. -/
def get_pic_env_ok : get_pic_env :=
  { copy_from_user_ok := true, copy_to_user_crop_ok := true, jiffies_left := 5,
    copy_to_user_arg_ok := true }

/-- A device that stores 4 bytes of crop metadata, has `sample_sync` registered and
has been notified of the frame `sample_output1`. -/
def crop_frame_ready : msm_device_t :=
  msm_vfe_sync sample_output1 .MSM_CAM_Q_VFE_MSG vfe_sync_env_ok
    { crop_stored with sync := sample_sync }

/-- As `open_env_ok`, but the function table the hardware layer fills in has no
release function. -/
def open_env_no_vfe_release : msm_open_env :=
  { open_env_ok with
    fn_table := { vfe_init := true, vfe_enable := true, vfe_config := true,
                  vfe_disable := true, vfe_release := false } }

/-- The device after one successful open with `open_env_no_vfe_release`. -/
def opened_without_release : msm_device_t :=
  (__msm_open open_env_no_vfe_release msm_camera_drv_start_device).msm

/-! ## Invariants of the queues -/

/-- A list with an element satisfying `P` splits at the first such element. -/
theorem exists_first_split {α : Type} (P : α → Prop) [DecidablePred P] :
    ∀ l : List α, (∃ x ∈ l, P x) →
      ∃ pre r post, l = pre ++ r :: post ∧ (∀ x ∈ pre, ¬ P x) ∧ P r := by
  intro l
  induction l with
  | nil => rintro ⟨x, hx, _⟩; simp at hx
  | cons a l ih =>
    rintro ⟨x, hx, hP⟩
    by_cases ha : P a
    · exact ⟨[], a, l, by simp, by simp, ha⟩
    · have hx2 : x ∈ l := by
        rcases List.mem_cons.mp hx with h | h
        · subst h; exact absurd hP ha
        · exact h
      obtain ⟨pre, r, post, hl, hpre, hr⟩ := ih ⟨x, hx2, hP⟩
      refine ⟨a :: pre, r, post, by simp [hl], ?_, hr⟩
      intro y hy
      rcases List.mem_cons.mp hy with h | h
      · subst h; exact ha
      · exact hpre y h

/-! ## The four lookup loops: found and not-found behaviour -/

theorem frame_ptov_loop_split (pyaddr pcbcraddr yoff cbcroff : Nat) (fd : Int)
    (pre : List msm_pmem_region) (region : msm_pmem_region) (post : List msm_pmem_region)
    (hpre : ∀ x ∈ pre, ¬ frame_ptov_match pyaddr pcbcraddr x)
    (hr : frame_ptov_match pyaddr pcbcraddr region) :
    frame_ptov_loop pyaddr pcbcraddr yoff cbcroff fd (pre ++ region :: post) =
      { rc := region.vaddr, yoff := region.y_off, cbcroff := region.cbcr_off, fd := region.fd,
        frame := pre ++ { region with active := 0 } :: post } := by
  induction pre with
  | nil => simp [frame_ptov_loop, hr]
  | cons a pre ih =>
    have ha : ¬ frame_ptov_match pyaddr pcbcraddr a := hpre a (by simp)
    have h := ih (fun x hx => hpre x (by simp [hx]))
    simp [frame_ptov_loop, ha, h]

theorem frame_ptov_loop_none (pyaddr pcbcraddr yoff cbcroff : Nat) (fd : Int)
    (l : List msm_pmem_region) (hl : ∀ x ∈ l, ¬ frame_ptov_match pyaddr pcbcraddr x) :
    frame_ptov_loop pyaddr pcbcraddr yoff cbcroff fd l =
      { rc := 0, yoff := yoff, cbcroff := cbcroff, fd := fd, frame := l } := by
  induction l with
  | nil => simp [frame_ptov_loop]
  | cons a l ih =>
    have ha : ¬ frame_ptov_match pyaddr pcbcraddr a := hl a (by simp)
    have h := ih (fun x hx => hl x (by simp [hx]))
    simp [frame_ptov_loop, ha, h]

theorem stats_ptov_loop_split (addr : Nat) (fd : Int)
    (pre : List msm_pmem_region) (region : msm_pmem_region) (post : List msm_pmem_region)
    (hpre : ∀ x ∈ pre, ¬ stats_ptov_match addr x) (hr : stats_ptov_match addr region) :
    stats_ptov_loop addr fd (pre ++ region :: post) =
      { rc := region.vaddr, fd := region.fd,
        stats := pre ++ { region with active := 0 } :: post } := by
  induction pre with
  | nil => simp [stats_ptov_loop, hr]
  | cons a pre ih =>
    have ha : ¬ stats_ptov_match addr a := hpre a (by simp)
    have h := ih (fun x hx => hpre x (by simp [hx]))
    simp [stats_ptov_loop, ha, h]

theorem stats_ptov_loop_none (addr : Nat) (fd : Int)
    (l : List msm_pmem_region) (hl : ∀ x ∈ l, ¬ stats_ptov_match addr x) :
    stats_ptov_loop addr fd l = { rc := 0, fd := fd, stats := l } := by
  induction l with
  | nil => simp [stats_ptov_loop]
  | cons a l ih =>
    have ha : ¬ stats_ptov_match addr a := hl a (by simp)
    have h := ih (fun x hx => hl x (by simp [hx]))
    simp [stats_ptov_loop, ha, h]

theorem frame_vtop_loop_split (buffer yoff cbcroff : Nat) (fd : Int)
    (pre : List msm_pmem_region) (region : msm_pmem_region) (post : List msm_pmem_region)
    (hpre : ∀ x ∈ pre, ¬ frame_vtop_match buffer yoff cbcroff fd x)
    (hr : frame_vtop_match buffer yoff cbcroff fd region) :
    frame_vtop_loop buffer yoff cbcroff fd (pre ++ region :: post) =
      (region.paddr, pre ++ { region with active := 1 } :: post) := by
  induction pre with
  | nil => simp [frame_vtop_loop, hr]
  | cons a pre ih =>
    have ha : ¬ frame_vtop_match buffer yoff cbcroff fd a := hpre a (by simp)
    have h := ih (fun x hx => hpre x (by simp [hx]))
    simp [frame_vtop_loop, ha, h]

theorem frame_vtop_loop_none (buffer yoff cbcroff : Nat) (fd : Int)
    (l : List msm_pmem_region) (hl : ∀ x ∈ l, ¬ frame_vtop_match buffer yoff cbcroff fd x) :
    frame_vtop_loop buffer yoff cbcroff fd l = (0, l) := by
  induction l with
  | nil => simp [frame_vtop_loop]
  | cons a l ih =>
    have ha : ¬ frame_vtop_match buffer yoff cbcroff fd a := hl a (by simp)
    have h := ih (fun x hx => hl x (by simp [hx]))
    simp [frame_vtop_loop, ha, h]

theorem stats_vtop_loop_split (buffer : Nat) (fd : Int)
    (pre : List msm_pmem_region) (region : msm_pmem_region) (post : List msm_pmem_region)
    (hpre : ∀ x ∈ pre, ¬ stats_vtop_match buffer fd x)
    (hr : stats_vtop_match buffer fd region) :
    stats_vtop_loop buffer fd (pre ++ region :: post) =
      (region.paddr, pre ++ { region with active := 1 } :: post) := by
  induction pre with
  | nil => simp [stats_vtop_loop, hr]
  | cons a pre ih =>
    have ha : ¬ stats_vtop_match buffer fd a := hpre a (by simp)
    have h := ih (fun x hx => hpre x (by simp [hx]))
    simp [stats_vtop_loop, ha, h]

theorem stats_vtop_loop_none (buffer : Nat) (fd : Int)
    (l : List msm_pmem_region) (hl : ∀ x ∈ l, ¬ stats_vtop_match buffer fd x) :
    stats_vtop_loop buffer fd l = (0, l) := by
  induction l with
  | nil => simp [stats_vtop_loop]
  | cons a l ih =>
    have ha : ¬ stats_vtop_match buffer fd a := hl a (by simp)
    have h := ih (fun x hx => hl x (by simp [hx]))
    simp [stats_vtop_loop, ha, h]

/-! ## C1: consume then produce -/

/-- C1 (as stated, refuted): in the registry reached by registering one frame
buffer twice and consuming it once, the frame lookup by physical address finds
the still-active second copy (it returns vaddr 0x1000), yet the following
lookup by virtual address with the returned key re-activates the head copy, so
the frame list differs from the one before the consume. -/
theorem C1_round_trip_fails_on_duplicate_key :
    (∃ x ∈ twice_registered_once_consumed.frame, frame_ptov_match 0x8000 0x8000 x) ∧
    (msm_pmem_frame_ptov_lookup 0x8000 0x8000 0 0 0 twice_registered_once_consumed).1.rc
      = 0x1000 ∧
    (msm_pmem_frame_vtop_lookup
        (msm_pmem_frame_ptov_lookup 0x8000 0x8000 0 0 0 twice_registered_once_consumed).1.rc
        (msm_pmem_frame_ptov_lookup 0x8000 0x8000 0 0 0 twice_registered_once_consumed).1.yoff
        (msm_pmem_frame_ptov_lookup 0x8000 0x8000 0 0 0 twice_registered_once_consumed).1.cbcroff
        (msm_pmem_frame_ptov_lookup 0x8000 0x8000 0 0 0 twice_registered_once_consumed).1.fd
        (msm_pmem_frame_ptov_lookup 0x8000 0x8000 0 0 0 twice_registered_once_consumed).2).2.frame
      ≠ twice_registered_once_consumed.frame := by
  decide

/-- C1 (amended): when the lookup by physical address finds a region (the first
matching one) whose active flag is 1, and no inactive region carrying the same
key stands before it in the list, the immediately following lookup by virtual
address with the returned values leaves `msm->sync` exactly as it was before
the consume.  The key is (vaddr, y_off, cbcr_off, fd) for the frame list and
(vaddr, fd) for the stats list. -/
theorem C1_consume_then_produce_restores :
    (∀ (msm : msm_sync) (pyaddr pcbcraddr yoff cbcroff : Nat) (fd : Int)
        (pre : List msm_pmem_region) (region : msm_pmem_region) (post : List msm_pmem_region),
        msm.frame = pre ++ region :: post →
        (∀ x ∈ pre, ¬ frame_ptov_match pyaddr pcbcraddr x) →
        frame_ptov_match pyaddr pcbcraddr region →
        region.active = 1 →
        (∀ x ∈ pre, ¬ frame_vtop_match region.vaddr region.y_off region.cbcr_off region.fd x) →
        (msm_pmem_frame_vtop_lookup
            (msm_pmem_frame_ptov_lookup pyaddr pcbcraddr yoff cbcroff fd msm).1.rc
            (msm_pmem_frame_ptov_lookup pyaddr pcbcraddr yoff cbcroff fd msm).1.yoff
            (msm_pmem_frame_ptov_lookup pyaddr pcbcraddr yoff cbcroff fd msm).1.cbcroff
            (msm_pmem_frame_ptov_lookup pyaddr pcbcraddr yoff cbcroff fd msm).1.fd
            (msm_pmem_frame_ptov_lookup pyaddr pcbcraddr yoff cbcroff fd msm).2).2 = msm) ∧
    (∀ (msm : msm_sync) (addr : Nat) (fd : Int)
        (pre : List msm_pmem_region) (region : msm_pmem_region) (post : List msm_pmem_region),
        msm.stats = pre ++ region :: post →
        (∀ x ∈ pre, ¬ stats_ptov_match addr x) →
        stats_ptov_match addr region →
        region.active = 1 →
        (∀ x ∈ pre, ¬ stats_vtop_match region.vaddr region.fd x) →
        (msm_pmem_stats_vtop_lookup
            (msm_pmem_stats_ptov_lookup addr fd msm).1.rc
            (msm_pmem_stats_ptov_lookup addr fd msm).1.fd
            (msm_pmem_stats_ptov_lookup addr fd msm).2).2 = msm) := by
  constructor
  · intro msm pyaddr pcbcraddr yoff cbcroff fd pre region post hsplit hpre hr hflag hkey
    obtain ⟨frame, stats⟩ := msm
    simp only at hsplit
    subst hsplit
    have h1 := frame_ptov_loop_split pyaddr pcbcraddr yoff cbcroff fd pre region post hpre hr
    have hm : frame_vtop_match region.vaddr region.y_off region.cbcr_off region.fd
        { region with active := 0 } := by
      simp [frame_vtop_match]
    have h2 := frame_vtop_loop_split region.vaddr region.y_off region.cbcr_off region.fd
      pre { region with active := 0 } post hkey hm
    have hback : ({ region with active := 1 } : msm_pmem_region) = region := by
      cases region; simp_all
    simp only [msm_pmem_frame_ptov_lookup, msm_pmem_frame_vtop_lookup, h1, h2]
    simp [hback]
  · intro msm addr fd pre region post hsplit hpre hr hflag hkey
    obtain ⟨frame, stats⟩ := msm
    simp only at hsplit
    subst hsplit
    have h1 := stats_ptov_loop_split addr fd pre region post hpre hr
    have hm : stats_vtop_match region.vaddr region.fd { region with active := 0 } := by
      simp [stats_vtop_match]
    have h2 := stats_vtop_loop_split region.vaddr region.fd
      pre { region with active := 0 } post hkey hm
    have hback : ({ region with active := 1 } : msm_pmem_region) = region := by
      cases region; simp_all
    simp only [msm_pmem_stats_ptov_lookup, msm_pmem_stats_vtop_lookup, h1, h2]
    simp [hback]

/-- Witness for C1 (amended): in `sample_sync` the frame lookup for 0x8000 and the
stats lookup for 0x9000 each find the single registered region, every hypothesis
holds there, and the round trip gives back `sample_sync`. -/
theorem C1_consume_then_produce_restores_witness :
    (msm_pmem_frame_vtop_lookup
        (msm_pmem_frame_ptov_lookup 0x8000 0x8000 0 0 0 sample_sync).1.rc
        (msm_pmem_frame_ptov_lookup 0x8000 0x8000 0 0 0 sample_sync).1.yoff
        (msm_pmem_frame_ptov_lookup 0x8000 0x8000 0 0 0 sample_sync).1.cbcroff
        (msm_pmem_frame_ptov_lookup 0x8000 0x8000 0 0 0 sample_sync).1.fd
        (msm_pmem_frame_ptov_lookup 0x8000 0x8000 0 0 0 sample_sync).2).2 = sample_sync ∧
    (msm_pmem_stats_vtop_lookup
        (msm_pmem_stats_ptov_lookup 0x9000 0 sample_sync).1.rc
        (msm_pmem_stats_ptov_lookup 0x9000 0 sample_sync).1.fd
        (msm_pmem_stats_ptov_lookup 0x9000 0 sample_sync).2).2 = sample_sync :=
  ⟨C1_consume_then_produce_restores.1 sample_sync 0x8000 0x8000 0 0 0 [] sample_region []
      (by decide) (by decide) (by decide) (by decide) (by decide),
   C1_consume_then_produce_restores.2 sample_sync 0x9000 0 [] sample_stats_region []
      (by decide) (by decide) (by decide) (by decide) (by decide)⟩

/-! ## C2: lookup by physical address (consume) -/

/-- C2: `msm_pmem_frame_ptov_lookup` and `msm_pmem_stats_ptov_lookup`.  If some
active region of the list matches the physical address(es), the list splits as
`pre ++ region :: post` with `region` the first such region; the call returns
`region`'s vaddr (and y_off, cbcr_off, fd), and afterwards the list is
`pre ++ region' :: post` where `region'` is `region` with only the active flag
set to 0, the other list being untouched.  If no active region matches, the
call returns 0, leaves the out-parameters alone and leaves `msm->sync`
unchanged. -/
theorem C2_consume_by_physical (msm : msm_sync) (pyaddr pcbcraddr addr yoff cbcroff : Nat)
    (fd : Int) :
    ((∃ x ∈ msm.frame, frame_ptov_match pyaddr pcbcraddr x) →
      ∃ pre region post, msm.frame = pre ++ region :: post ∧
        (∀ x ∈ pre, ¬ frame_ptov_match pyaddr pcbcraddr x) ∧
        frame_ptov_match pyaddr pcbcraddr region ∧ region.active ≠ 0 ∧
        msm_pmem_frame_ptov_lookup pyaddr pcbcraddr yoff cbcroff fd msm =
          ({ rc := region.vaddr, yoff := region.y_off, cbcroff := region.cbcr_off,
             fd := region.fd, frame := pre ++ { region with active := 0 } :: post },
           { frame := pre ++ { region with active := 0 } :: post, stats := msm.stats })) ∧
    ((∀ x ∈ msm.frame, ¬ frame_ptov_match pyaddr pcbcraddr x) →
      msm_pmem_frame_ptov_lookup pyaddr pcbcraddr yoff cbcroff fd msm =
        ({ rc := 0, yoff := yoff, cbcroff := cbcroff, fd := fd, frame := msm.frame }, msm)) ∧
    ((∃ x ∈ msm.stats, stats_ptov_match addr x) →
      ∃ pre region post, msm.stats = pre ++ region :: post ∧
        (∀ x ∈ pre, ¬ stats_ptov_match addr x) ∧
        stats_ptov_match addr region ∧ region.active ≠ 0 ∧
        msm_pmem_stats_ptov_lookup addr fd msm =
          ({ rc := region.vaddr, fd := region.fd,
             stats := pre ++ { region with active := 0 } :: post },
           { frame := msm.frame, stats := pre ++ { region with active := 0 } :: post })) ∧
    ((∀ x ∈ msm.stats, ¬ stats_ptov_match addr x) →
      msm_pmem_stats_ptov_lookup addr fd msm = ({ rc := 0, fd := fd, stats := msm.stats }, msm)) := by
  refine ⟨?_, ?_, ?_, ?_⟩
  · intro hex
    obtain ⟨pre, region, post, hsplit, hpre, hr⟩ :=
      exists_first_split (frame_ptov_match pyaddr pcbcraddr) msm.frame hex
    refine ⟨pre, region, post, hsplit, hpre, hr, hr.2.2, ?_⟩
    simp only [msm_pmem_frame_ptov_lookup, hsplit,
      frame_ptov_loop_split pyaddr pcbcraddr yoff cbcroff fd pre region post hpre hr]
  · intro hnone
    simp only [msm_pmem_frame_ptov_lookup,
      frame_ptov_loop_none pyaddr pcbcraddr yoff cbcroff fd msm.frame hnone]
  · intro hex
    obtain ⟨pre, region, post, hsplit, hpre, hr⟩ :=
      exists_first_split (stats_ptov_match addr) msm.stats hex
    refine ⟨pre, region, post, hsplit, hpre, hr, hr.2, ?_⟩
    simp only [msm_pmem_stats_ptov_lookup, hsplit,
      stats_ptov_loop_split addr fd pre region post hpre hr]
  · intro hnone
    simp only [msm_pmem_stats_ptov_lookup, stats_ptov_loop_none addr fd msm.stats hnone]

/-- Witness for C2: on `sample_sync` the frame lookup for 0x8000 and the stats
lookup for 0x9000 have a matching active region, and the lookups for 0x7000 have
none; each branch of the theorem is exercised. -/
theorem C2_consume_by_physical_witness :
    (∃ pre region post, sample_sync.frame = pre ++ region :: post ∧
        (∀ x ∈ pre, ¬ frame_ptov_match 0x8000 0x8000 x) ∧
        frame_ptov_match 0x8000 0x8000 region ∧ region.active ≠ 0 ∧
        msm_pmem_frame_ptov_lookup 0x8000 0x8000 0 0 0 sample_sync =
          ({ rc := region.vaddr, yoff := region.y_off, cbcroff := region.cbcr_off,
             fd := region.fd, frame := pre ++ { region with active := 0 } :: post },
           { frame := pre ++ { region with active := 0 } :: post,
             stats := sample_sync.stats })) ∧
    msm_pmem_frame_ptov_lookup 0x7000 0x7000 1 2 3 sample_sync =
        ({ rc := 0, yoff := 1, cbcroff := 2, fd := 3, frame := sample_sync.frame },
         sample_sync) ∧
    (∃ pre region post, sample_sync.stats = pre ++ region :: post ∧
        (∀ x ∈ pre, ¬ stats_ptov_match 0x9000 x) ∧
        stats_ptov_match 0x9000 region ∧ region.active ≠ 0 ∧
        msm_pmem_stats_ptov_lookup 0x9000 0 sample_sync =
          ({ rc := region.vaddr, fd := region.fd,
             stats := pre ++ { region with active := 0 } :: post },
           { frame := sample_sync.frame,
             stats := pre ++ { region with active := 0 } :: post })) ∧
    msm_pmem_stats_ptov_lookup 0x7000 3 sample_sync =
        ({ rc := 0, fd := 3, stats := sample_sync.stats }, sample_sync) :=
  ⟨(C2_consume_by_physical sample_sync 0x8000 0x8000 0x9000 0 0 0).1 (by decide),
   (C2_consume_by_physical sample_sync 0x7000 0x7000 0x7000 1 2 3).2.1 (by decide),
   (C2_consume_by_physical sample_sync 0x8000 0x8000 0x9000 0 0 0).2.2.1 (by decide),
   (C2_consume_by_physical sample_sync 0x7000 0x7000 0x7000 1 2 3).2.2.2 (by decide)⟩

/-! ## C3: lookup by virtual address (produce) -/

/-- C3: `msm_pmem_frame_vtop_lookup` and `msm_pmem_stats_vtop_lookup`.  If some
inactive region of the list matches the key, the list splits as
`pre ++ region :: post` with `region` the first such region; the call stores
`region`'s physical address, and afterwards the list is `pre ++ region' :: post`
where `region'` is `region` with only the active flag set to 1, the other list
being untouched.  If no inactive region matches, physical address 0 is stored and
`msm->sync` is unchanged. -/
theorem C3_produce_by_virtual (msm : msm_sync) (buffer yoff cbcroff : Nat) (fd : Int) :
    ((∃ x ∈ msm.frame, frame_vtop_match buffer yoff cbcroff fd x) →
      ∃ pre region post, msm.frame = pre ++ region :: post ∧
        (∀ x ∈ pre, ¬ frame_vtop_match buffer yoff cbcroff fd x) ∧
        frame_vtop_match buffer yoff cbcroff fd region ∧ region.active = 0 ∧
        msm_pmem_frame_vtop_lookup buffer yoff cbcroff fd msm =
          (region.paddr,
           { frame := pre ++ { region with active := 1 } :: post, stats := msm.stats })) ∧
    ((∀ x ∈ msm.frame, ¬ frame_vtop_match buffer yoff cbcroff fd x) →
      msm_pmem_frame_vtop_lookup buffer yoff cbcroff fd msm = (0, msm)) ∧
    ((∃ x ∈ msm.stats, stats_vtop_match buffer fd x) →
      ∃ pre region post, msm.stats = pre ++ region :: post ∧
        (∀ x ∈ pre, ¬ stats_vtop_match buffer fd x) ∧
        stats_vtop_match buffer fd region ∧ region.active = 0 ∧
        msm_pmem_stats_vtop_lookup buffer fd msm =
          (region.paddr,
           { frame := msm.frame, stats := pre ++ { region with active := 1 } :: post })) ∧
    ((∀ x ∈ msm.stats, ¬ stats_vtop_match buffer fd x) →
      msm_pmem_stats_vtop_lookup buffer fd msm = (0, msm)) := by
  refine ⟨?_, ?_, ?_, ?_⟩
  · intro hex
    obtain ⟨pre, region, post, hsplit, hpre, hr⟩ :=
      exists_first_split (frame_vtop_match buffer yoff cbcroff fd) msm.frame hex
    refine ⟨pre, region, post, hsplit, hpre, hr, hr.2.2.2.2, ?_⟩
    simp only [msm_pmem_frame_vtop_lookup, hsplit,
      frame_vtop_loop_split buffer yoff cbcroff fd pre region post hpre hr]
  · intro hnone
    simp only [msm_pmem_frame_vtop_lookup,
      frame_vtop_loop_none buffer yoff cbcroff fd msm.frame hnone]
  · intro hex
    obtain ⟨pre, region, post, hsplit, hpre, hr⟩ :=
      exists_first_split (stats_vtop_match buffer fd) msm.stats hex
    refine ⟨pre, region, post, hsplit, hpre, hr, hr.2.2, ?_⟩
    simp only [msm_pmem_stats_vtop_lookup, hsplit,
      stats_vtop_loop_split buffer fd pre region post hpre hr]
  · intro hnone
    simp only [msm_pmem_stats_vtop_lookup, stats_vtop_loop_none buffer fd msm.stats hnone]

/-- Witness for C3: on `sample_consumed_sync` both regions are inactive, so the
frame lookup for (0x1000, 0, 0, 5) and the stats lookup for (0x2000, 6) match,
while the lookups for vaddr 0x3000 match nothing; each branch is exercised. -/
theorem C3_produce_by_virtual_witness :
    (∃ pre region post, sample_consumed_sync.frame = pre ++ region :: post ∧
        (∀ x ∈ pre, ¬ frame_vtop_match 0x1000 0 0 5 x) ∧
        frame_vtop_match 0x1000 0 0 5 region ∧ region.active = 0 ∧
        msm_pmem_frame_vtop_lookup 0x1000 0 0 5 sample_consumed_sync =
          (region.paddr,
           { frame := pre ++ { region with active := 1 } :: post,
             stats := sample_consumed_sync.stats })) ∧
    msm_pmem_frame_vtop_lookup 0x3000 0 0 5 sample_consumed_sync
      = (0, sample_consumed_sync) ∧
    (∃ pre region post, sample_consumed_sync.stats = pre ++ region :: post ∧
        (∀ x ∈ pre, ¬ stats_vtop_match 0x2000 6 x) ∧
        stats_vtop_match 0x2000 6 region ∧ region.active = 0 ∧
        msm_pmem_stats_vtop_lookup 0x2000 6 sample_consumed_sync =
          (region.paddr,
           { frame := sample_consumed_sync.frame,
             stats := pre ++ { region with active := 1 } :: post })) ∧
    msm_pmem_stats_vtop_lookup 0x3000 6 sample_consumed_sync
      = (0, sample_consumed_sync) :=
  ⟨(C3_produce_by_virtual sample_consumed_sync 0x1000 0 0 5).1 (by decide),
   (C3_produce_by_virtual sample_consumed_sync 0x3000 0 0 5).2.1 (by decide),
   (C3_produce_by_virtual sample_consumed_sync 0x2000 0 0 6).2.2.1 (by decide),
   (C3_produce_by_virtual sample_consumed_sync 0x3000 0 0 6).2.2.2 (by decide)⟩

/-! ## `msm_pmem_region_lookup`: what the loop computes -/

theorem active_of_type_cons_pos (type : msm_pmem_t) (region : msm_pmem_region)
    (rest : List msm_pmem_region) (h : region.type = type ∧ region.active ≠ 0) :
    active_of_type type (region :: rest) = region :: active_of_type type rest := by
  simp [active_of_type, h]

theorem active_of_type_cons_neg (type : msm_pmem_t) (region : msm_pmem_region)
    (rest : List msm_pmem_region) (h : ¬ (region.type = type ∧ region.active ≠ 0)) :
    active_of_type type (region :: rest) = active_of_type type rest := by
  simp only [active_of_type]
  rw [List.filter_cons_of_neg]
  simpa using h

/-- Loop invariant of `msm_pmem_region_lookup`, for a counter still below the
effective bound `max maxcount 1` and a bound that fits `uint8_t`. -/
theorem msm_pmem_region_lookup_loop_eq (type : msm_pmem_t) (maxcount : Nat)
    (hmax : maxcount < 256) :
    ∀ (l : List msm_pmem_region) (rc : Nat) (out : List msm_pmem_region),
      rc < max maxcount 1 →
      msm_pmem_region_lookup_loop type maxcount l rc out =
        (min (max maxcount 1) (rc + (active_of_type type l).length),
         out ++ (active_of_type type l).take (max maxcount 1 - rc)) := by
  intro l
  induction l with
  | nil =>
    intro rc out hrc
    simp [msm_pmem_region_lookup_loop, active_of_type]
    omega
  | cons region rest ih =>
    intro rc out hrc
    have hrc255 : rc + 1 < 256 := by omega
    have hmod : (rc + 1) % U8_MOD = rc + 1 := by
      simp only [U8_MOD]; exact Nat.mod_eq_of_lt (by omega)
    by_cases hsel : region.type = type ∧ region.active ≠ 0
    · rw [active_of_type_cons_pos type region rest hsel]
      by_cases hstop : rc + 1 ≥ maxcount
      · have hm : max maxcount 1 = rc + 1 := by omega
        simp only [msm_pmem_region_lookup_loop, hsel, hmod, hstop, and_self, ite_true,
          if_true, ne_eq, not_false_eq_true, hm, List.length_cons]
        have h1 : rc + 1 - rc = 1 := by omega
        simp [h1]
      · have hlt : rc + 1 < max maxcount 1 := by omega
        have hrec := ih (rc + 1) (out ++ [region]) hlt
        simp only [msm_pmem_region_lookup_loop, hsel, hmod, hstop, and_self, ite_true,
          if_true, if_false, ne_eq, not_false_eq_true, hrec, List.length_cons]
        have h2 : max maxcount 1 - rc = (max maxcount 1 - (rc + 1)) + 1 := by omega
        rw [h2, List.take_succ_cons]
        simp [Nat.add_comm, Nat.add_left_comm]
    · rw [active_of_type_cons_neg type region rest hsel]
      have hrec := ih rc out hrc
      simp only [msm_pmem_region_lookup_loop, hsel, if_false, hrec]

/-- `msm_pmem_region_lookup` for a `uint8_t` bound: it behaves as if the bound
were `max maxcount 1`. -/
theorem msm_pmem_region_lookup_eq (ptype : List msm_pmem_region) (type : msm_pmem_t)
    (maxcount : Nat) (hmax : maxcount < 256) :
    msm_pmem_region_lookup ptype type maxcount =
      (min (max maxcount 1) (active_of_type type ptype).length,
       (active_of_type type ptype).take (max maxcount 1)) := by
  have h := msm_pmem_region_lookup_loop_eq type maxcount hmax ptype 0 [] (by omega)
  simpa [msm_pmem_region_lookup] using h

/-- For a bound between 1 and 255, `msm_pmem_region_lookup` returns the smaller of
the bound and the number of active regions of the class, and copies exactly that
many of them, the first ones in list order. -/
theorem msm_pmem_region_lookup_of_pos (ptype : List msm_pmem_region) (type : msm_pmem_t)
    (maxcount : Nat) (hpos : 1 ≤ maxcount) (hmax : maxcount < 256) :
    msm_pmem_region_lookup ptype type maxcount =
      (min maxcount (active_of_type type ptype).length,
       (active_of_type type ptype).take maxcount) := by
  have hm : max maxcount 1 = maxcount := by omega
  rw [msm_pmem_region_lookup_eq ptype type maxcount hmax, hm]

/-- The counter and the number of copied entries never exceed what the list offers. -/
theorem msm_pmem_region_lookup_loop_le (type : msm_pmem_t) (maxcount : Nat) :
    ∀ (l : List msm_pmem_region) (rc : Nat) (out : List msm_pmem_region),
      (msm_pmem_region_lookup_loop type maxcount l rc out).1 ≤ rc + l.length ∧
      (msm_pmem_region_lookup_loop type maxcount l rc out).2.length ≤ out.length + l.length := by
  intro l
  induction l with
  | nil => intro rc out; simp [msm_pmem_region_lookup_loop]
  | cons region rest ih =>
    intro rc out
    have hmod : (rc + 1) % U8_MOD ≤ rc + 1 := Nat.mod_le _ _
    by_cases hsel : region.type = type ∧ region.active ≠ 0
    · by_cases hstop : (rc + 1) % U8_MOD ≥ maxcount
      · simp only [msm_pmem_region_lookup_loop, hsel, hstop, and_self, ite_true, if_true,
          ne_eq, not_false_eq_true, List.length_cons, List.length_append, List.length_nil]
        omega
      · have hrec := ih ((rc + 1) % U8_MOD) (out ++ [region])
        simp only [msm_pmem_region_lookup_loop, hsel, hstop, and_self, ite_true, if_true,
          if_false, ne_eq, not_false_eq_true, List.length_cons]
        simp only [List.length_append, List.length_cons, List.length_nil] at hrec
        omega
    · have hrec := ih rc out
      simp only [msm_pmem_region_lookup_loop, hsel, if_false, List.length_cons]
      omega

/-! ## C5: `msm_pmem_region_lookup` with `maxcount = 0` -/

/-- C5 (as stated, refuted): with `maxcount = 0` and one active output-1 region in
the list, `msm_pmem_region_lookup` copies that region and returns 1, not
`min(0, 1) = 0`: the bound is tested after the copy. -/
theorem C5_lookup_maxcount_zero_copies_one :
    msm_pmem_region_lookup [sample_region] MSM_PMEM_OUTPUT1 0 = (1, [sample_region]) ∧
    (active_of_type MSM_PMEM_OUTPUT1 [sample_region]).length = 1 ∧
    ¬ ((msm_pmem_region_lookup [sample_region] MSM_PMEM_OUTPUT1 0).1 =
        min 0 (active_of_type MSM_PMEM_OUTPUT1 [sample_region]).length) ∧
    (msm_pmem_region_lookup [sample_region] MSM_PMEM_OUTPUT1 0).2 ≠ [] := by
  decide

/-- C5 (amended): for a bound `maxcount` from 1 to 255, the values a `uint8_t`
bound takes at the call sites, `msm_pmem_region_lookup` returns
`n = min(maxcount, number of active regions of the class)`, copies out exactly
the first `n` active regions of the class in list order, and the registry is
the same after the lookup. -/
theorem C5_lookup_for_positive_bound (ptype : List msm_pmem_region) (type : msm_pmem_t)
    (maxcount : Nat) (hpos : 1 ≤ maxcount) (hmax : maxcount < 256) :
    (msm_pmem_region_lookup ptype type maxcount).1 =
      min maxcount (active_of_type type ptype).length ∧
    (msm_pmem_region_lookup ptype type maxcount).2 =
      (active_of_type type ptype).take (msm_pmem_region_lookup ptype type maxcount).1 ∧
    (msm_pmem_region_lookup ptype type maxcount).2.length =
      (msm_pmem_region_lookup ptype type maxcount).1 ∧
    (∀ (msm : msm_sync) (on_frame : Bool),
      registry_step msm (.lookup on_frame type maxcount) = msm) := by
  rw [msm_pmem_region_lookup_of_pos ptype type maxcount hpos hmax]
  refine ⟨rfl, ?_, ?_, ?_⟩
  · simp only [List.take_eq_take, Nat.min_assoc, Nat.min_self]
  · simp only [List.length_take]
  · intro msm on_frame
    rfl

/-- Witness for C5: on `sample_sync` the lookup for output-1 regions with bound 8
returns 1 and copies `sample_region`. -/
theorem C5_lookup_for_positive_bound_witness :
    (msm_pmem_region_lookup sample_sync.frame MSM_PMEM_OUTPUT1 8).1 =
      min 8 (active_of_type MSM_PMEM_OUTPUT1 sample_sync.frame).length ∧
    (active_of_type MSM_PMEM_OUTPUT1 sample_sync.frame) = [sample_region] :=
  ⟨(C5_lookup_for_positive_bound sample_sync.frame MSM_PMEM_OUTPUT1 8 (by decide)
     (by decide)).1, by decide⟩

/-! ## C6: registration -/

theorem msm_pmem_region_lookup_head (region : msm_pmem_region) (rest : List msm_pmem_region)
    (type : msm_pmem_t) (maxcount : Nat) (hmax : maxcount < 256)
    (hsel : region.type = type ∧ region.active ≠ 0) :
    1 ≤ (msm_pmem_region_lookup (region :: rest) type maxcount).1 ∧
    (msm_pmem_region_lookup (region :: rest) type maxcount).2.head? = some region := by
  rw [msm_pmem_region_lookup_eq _ _ _ hmax, active_of_type_cons_pos type region rest hsel]
  have h : max maxcount 1 = (max maxcount 1 - 1) + 1 := by omega
  constructor
  · simp only [List.length_cons]; omega
  · rw [h, List.take_succ_cons]; simp

/-- C6 (as stated, refuted): registering the scenario's buffer with the active flag
of the info cleared succeeds (pinning and allocation succeed, return code 0), yet
the following lookup for output-1 with maxcount 8 reports no region at all. -/
theorem C6_register_inactive_not_reported :
    (__msm_register_pmem inactive_info sample_pin true empty_sync).1 = 0 ∧
    msm_pmem_region_lookup
      (__msm_register_pmem inactive_info sample_pin true empty_sync).2.frame
      MSM_PMEM_OUTPUT1 8 = (0, []) := by
  decide

/-- C6 (amended): for a recognised class, when `get_pmem_file` and `kmalloc` succeed,
`__msm_register_pmem` returns 0 and puts the new region, built from the info and
the pin result and carrying the info's own active flag, at the head of the class's
list (frame list for the five frame classes, stats list for AEC/AWB and AF),
leaving the other list unchanged.  When the info's active flag is non-zero, a
lookup for that class with `1 ≤ maxcount ≤ 255` on the new list reports the new
region first; from the empty registry, registering class output-1, vaddr 0x1000,
fd 5, offsets (0, 0) with a non-zero flag and then looking up output-1 with
maxcount 8 gives exactly one region, with vaddr 0x1000. -/
theorem C6_register_puts_region_at_head (msm : msm_sync) (pinfo : msm_pmem_info_t)
    (pin : pmem_file) (hpin : 0 ≤ pin.rc) :
    (is_frame_type pinfo.type = true →
      __msm_register_pmem pinfo pin true msm =
        (0, { frame := new_region pinfo pin :: msm.frame, stats := msm.stats })) ∧
    (is_stats_type pinfo.type = true →
      __msm_register_pmem pinfo pin true msm =
        (0, { frame := msm.frame, stats := new_region pinfo pin :: msm.stats })) ∧
    (new_region pinfo pin).active = pinfo.active ∧
    (∀ (ptype : List msm_pmem_region) (maxcount : Nat), pinfo.active ≠ 0 →
      1 ≤ maxcount → maxcount < 256 →
      1 ≤ (msm_pmem_region_lookup (new_region pinfo pin :: ptype) pinfo.type maxcount).1 ∧
      (msm_pmem_region_lookup (new_region pinfo pin :: ptype) pinfo.type maxcount).2.head?
        = some (new_region pinfo pin)) ∧
    (∀ a : Nat, a ≠ 0 →
      msm_pmem_region_lookup
        (__msm_register_pmem
          { type := MSM_PMEM_OUTPUT1, fd := 5, vaddr := 0x1000, y_off := 0, cbcr_off := 0,
            active := a } pin true empty_sync).2.frame MSM_PMEM_OUTPUT1 8 =
        (1, [{ type := MSM_PMEM_OUTPUT1, vaddr := 0x1000, paddr := pin.paddr, len := pin.len,
               file := pin.file, y_off := 0, cbcr_off := 0, fd := 5, active := a }])) := by
  have hnot : ¬ pin.rc < 0 := by omega
  refine ⟨?_, ?_, rfl, ?_, ?_⟩
  · intro hc
    cases hty : pinfo.type <;> simp [hty, is_frame_type] at hc <;>
      simp [__msm_register_pmem, msm_pmem_table_add, hty, hnot]
  · intro hc
    cases hty : pinfo.type <;> simp [hty, is_stats_type] at hc <;>
      simp [__msm_register_pmem, msm_pmem_table_add, hty, hnot]
  · intro ptype maxcount hact _ hmax
    exact msm_pmem_region_lookup_head (new_region pinfo pin) ptype pinfo.type maxcount hmax
      ⟨rfl, hact⟩
  · intro a ha
    simp [__msm_register_pmem, msm_pmem_table_add, hnot, empty_sync, new_region,
      msm_pmem_region_lookup, msm_pmem_region_lookup_loop, ha, U8_MOD]

/-- Witness for C6 (amended): `sample_info` (class output-1, active flag 1) with the
successful pin `sample_pin`, registered into the empty registry. -/
theorem C6_register_puts_region_at_head_witness :
    (0 : Int) ≤ sample_pin.rc ∧
    __msm_register_pmem sample_info sample_pin true empty_sync =
      (0, { frame := [sample_region], stats := [] }) ∧
    msm_pmem_region_lookup
      (__msm_register_pmem sample_info sample_pin true empty_sync).2.frame
      MSM_PMEM_OUTPUT1 8 = (1, [sample_region]) :=
  ⟨by decide,
   (C6_register_puts_region_at_head empty_sync sample_info sample_pin (by decide)).1 (by decide),
   (C6_register_puts_region_at_head empty_sync sample_info sample_pin (by decide)).2.2.2.2
     1 (by decide)⟩

/-! ## `__msm_pmem_table_del`: what the loop computes -/

theorem table_del_loop_eq (pinfo : msm_pmem_info_t) (l : List msm_pmem_region) :
    table_del_loop pinfo l =
      (l.filter (fun region => ¬ table_del_match pinfo region),
       (l.filter (fun region => table_del_match pinfo region)).map (fun region => region.file)) := by
  induction l with
  | nil => simp [table_del_loop]
  | cons region rest ih =>
    by_cases h : table_del_match pinfo region <;> simp [table_del_loop, h, ih]

theorem recognised_cases (t : msm_pmem_t) :
    (is_frame_type t = true ∧ is_stats_type t = false) ∨
    (is_frame_type t = false ∧ is_stats_type t = true) ∨
    (is_frame_type t = false ∧ is_stats_type t = false) := by
  cases t <;> simp [is_frame_type, is_stats_type]

theorem table_del_frame (pinfo : msm_pmem_info_t) (msm : msm_sync)
    (h : is_frame_type pinfo.type = true) :
    __msm_pmem_table_del pinfo msm =
      { rc := 0, sync := { frame := (table_del_loop pinfo msm.frame).1, stats := msm.stats },
        put_files := (table_del_loop pinfo msm.frame).2 } := by
  cases hty : pinfo.type <;> simp [hty, is_frame_type] at h <;>
    simp [__msm_pmem_table_del, hty]

theorem table_del_stats (pinfo : msm_pmem_info_t) (msm : msm_sync)
    (h : is_stats_type pinfo.type = true) :
    __msm_pmem_table_del pinfo msm =
      { rc := 0, sync := { frame := msm.frame, stats := (table_del_loop pinfo msm.stats).1 },
        put_files := (table_del_loop pinfo msm.stats).2 } := by
  cases hty : pinfo.type <;> simp [hty, is_stats_type] at h <;>
    simp [__msm_pmem_table_del, hty]

theorem table_del_unrecognised (pinfo : msm_pmem_info_t) (msm : msm_sync)
    (hf : is_frame_type pinfo.type = false) (hs : is_stats_type pinfo.type = false) :
    __msm_pmem_table_del pinfo msm = { rc := -EINVAL, sync := msm, put_files := [] } := by
  cases hty : pinfo.type <;> simp [hty, is_frame_type] at hf <;>
    simp [hty, is_stats_type] at hs <;> simp [__msm_pmem_table_del, hty]

/-! ## C8: what unregistering removes -/

/-- C8: for a recognised class, `__msm_pmem_table_del` leaves in the class's list
exactly the regions that do not have the given type, vaddr and fd (all matching
ones are gone, active or not; the others keep their fields, flag and order),
hands the file of every removed region to `put_pmem_file`, and leaves the other
list unchanged. -/
theorem C8_table_del_removes_exactly_matching (pinfo : msm_pmem_info_t) (msm : msm_sync) :
    (is_frame_type pinfo.type = true →
      (__msm_pmem_table_del pinfo msm).sync =
        { frame := msm.frame.filter (fun region =>
            ¬ (pinfo.type = region.type ∧ pinfo.vaddr = region.vaddr ∧ pinfo.fd = region.fd)),
          stats := msm.stats } ∧
      (__msm_pmem_table_del pinfo msm).put_files =
        (msm.frame.filter (fun region =>
            pinfo.type = region.type ∧ pinfo.vaddr = region.vaddr ∧ pinfo.fd = region.fd)).map
          (fun region => region.file)) ∧
    (is_stats_type pinfo.type = true →
      (__msm_pmem_table_del pinfo msm).sync =
        { frame := msm.frame,
          stats := msm.stats.filter (fun region =>
            ¬ (pinfo.type = region.type ∧ pinfo.vaddr = region.vaddr ∧ pinfo.fd = region.fd)) } ∧
      (__msm_pmem_table_del pinfo msm).put_files =
        (msm.stats.filter (fun region =>
            pinfo.type = region.type ∧ pinfo.vaddr = region.vaddr ∧ pinfo.fd = region.fd)).map
          (fun region => region.file)) := by
  constructor
  · intro h
    rw [table_del_frame pinfo msm h, table_del_loop_eq]
    simp [table_del_match]
  · intro h
    rw [table_del_stats pinfo msm h, table_del_loop_eq]
    simp [table_del_match]

/-- Witness for C8: unregistering `sample_info` from `sample_sync` empties the frame
list and keeps the stats list; unregistering `sample_stats_info` does the
converse. -/
theorem C8_table_del_removes_exactly_matching_witness :
    ((__msm_pmem_table_del sample_info sample_sync).sync =
        { frame := sample_sync.frame.filter (fun region =>
            ¬ (sample_info.type = region.type ∧ sample_info.vaddr = region.vaddr ∧
               sample_info.fd = region.fd)),
          stats := sample_sync.stats } ∧
      (__msm_pmem_table_del sample_info sample_sync).put_files =
        (sample_sync.frame.filter (fun region =>
            sample_info.type = region.type ∧ sample_info.vaddr = region.vaddr ∧
            sample_info.fd = region.fd)).map (fun region => region.file)) ∧
    ((__msm_pmem_table_del sample_stats_info sample_sync).sync =
        { frame := sample_sync.frame,
          stats := sample_sync.stats.filter (fun region =>
            ¬ (sample_stats_info.type = region.type ∧ sample_stats_info.vaddr = region.vaddr ∧
               sample_stats_info.fd = region.fd)) } ∧
      (__msm_pmem_table_del sample_stats_info sample_sync).put_files =
        (sample_sync.stats.filter (fun region =>
            sample_stats_info.type = region.type ∧ sample_stats_info.vaddr = region.vaddr ∧
            sample_stats_info.fd = region.fd)).map (fun region => region.file)) :=
  ⟨(C8_table_del_removes_exactly_matching sample_info sample_sync).1 (by decide),
   (C8_table_del_removes_exactly_matching sample_stats_info sample_sync).2 (by decide)⟩

/-! ## C9: return code of unregistering, and idempotence -/

theorem table_del_loop_of_no_match (pinfo : msm_pmem_info_t) (l : List msm_pmem_region)
    (h : ∀ x ∈ l, ¬ table_del_match pinfo x) : table_del_loop pinfo l = (l, []) := by
  induction l with
  | nil => simp [table_del_loop]
  | cons region rest ih =>
    have hr : ¬ table_del_match pinfo region := h region (by simp)
    have hrest := ih (fun x hx => h x (by simp [hx]))
    simp [table_del_loop, hr, hrest]

theorem table_del_loop_no_match_left (pinfo : msm_pmem_info_t) (l : List msm_pmem_region) :
    ∀ x ∈ (table_del_loop pinfo l).1, ¬ table_del_match pinfo x := by
  intro x hx
  rw [table_del_loop_eq] at hx
  simpa using (List.mem_filter.mp hx).2

/-- C9: `__msm_pmem_table_del` returns `-EINVAL` exactly when the class is none of
the seven recognised ones, and then neither list changes and nothing is released;
for a recognised class it returns 0, also when no region of the class's list
matches, in which case `msm->sync` is unchanged; and a second call with the same
info returns the same code as the first, leaves the registry as the first call
left it, and releases nothing more. -/
theorem C9_table_del_result_and_idempotence (pinfo : msm_pmem_info_t) (msm : msm_sync) :
    ((__msm_pmem_table_del pinfo msm).rc = -EINVAL ↔
      (is_frame_type pinfo.type = false ∧ is_stats_type pinfo.type = false)) ∧
    ((is_frame_type pinfo.type = false ∧ is_stats_type pinfo.type = false) →
      (__msm_pmem_table_del pinfo msm).sync = msm ∧
      (__msm_pmem_table_del pinfo msm).put_files = []) ∧
    ((is_frame_type pinfo.type = true ∨ is_stats_type pinfo.type = true) →
      (__msm_pmem_table_del pinfo msm).rc = 0) ∧
    (is_frame_type pinfo.type = true →
      (∀ x ∈ msm.frame, ¬ (pinfo.type = x.type ∧ pinfo.vaddr = x.vaddr ∧ pinfo.fd = x.fd)) →
      __msm_pmem_table_del pinfo msm = { rc := 0, sync := msm, put_files := [] }) ∧
    (is_stats_type pinfo.type = true →
      (∀ x ∈ msm.stats, ¬ (pinfo.type = x.type ∧ pinfo.vaddr = x.vaddr ∧ pinfo.fd = x.fd)) →
      __msm_pmem_table_del pinfo msm = { rc := 0, sync := msm, put_files := [] }) ∧
    __msm_pmem_table_del pinfo (__msm_pmem_table_del pinfo msm).sync =
      { rc := (__msm_pmem_table_del pinfo msm).rc,
        sync := (__msm_pmem_table_del pinfo msm).sync,
        put_files := [] } := by
  rcases recognised_cases pinfo.type with ⟨hf, hs⟩ | ⟨hf, hs⟩ | ⟨hf, hs⟩
  · refine ⟨?_, ?_, ?_, ?_, ?_, ?_⟩
    · simp [table_del_frame pinfo msm hf, hf, EINVAL]
    · intro h; simp [hf] at h
    · intro _; simp [table_del_frame pinfo msm hf]
    · intro _ hno
      have h := table_del_loop_of_no_match pinfo msm.frame hno
      simp [table_del_frame pinfo msm hf, h]
    · intro h; simp [hs] at h
    · have h := table_del_loop_of_no_match pinfo (table_del_loop pinfo msm.frame).1
        (table_del_loop_no_match_left pinfo msm.frame)
      simp [table_del_frame pinfo _ hf, h]
  · refine ⟨?_, ?_, ?_, ?_, ?_, ?_⟩
    · simp [table_del_stats pinfo msm hs, hs, EINVAL]
    · intro h; simp [hs] at h
    · intro _; simp [table_del_stats pinfo msm hs]
    · intro h; simp [hf] at h
    · intro _ hno
      have h := table_del_loop_of_no_match pinfo msm.stats hno
      simp [table_del_stats pinfo msm hs, h]
    · have h := table_del_loop_of_no_match pinfo (table_del_loop pinfo msm.stats).1
        (table_del_loop_no_match_left pinfo msm.stats)
      simp [table_del_stats pinfo _ hs, h]
  · refine ⟨?_, ?_, ?_, ?_, ?_, ?_⟩
    · simp [table_del_unrecognised pinfo msm hf hs, hf, hs]
    · intro _; simp [table_del_unrecognised pinfo msm hf hs]
    · intro h; simp [hf, hs] at h
    · intro h; simp [hf] at h
    · intro h; simp [hs] at h
    · simp [table_del_unrecognised pinfo _ hf hs]

/-- Witness for C9: `unknown_class_info` (class `MSM_PMEM_MAX`) is rejected with
`-EINVAL` and changes nothing; `sample_info` on the empty registry and
`sample_stats_info` on the empty registry succeed without a match. -/
theorem C9_table_del_result_and_idempotence_witness :
    ((__msm_pmem_table_del unknown_class_info sample_sync).sync = sample_sync ∧
      (__msm_pmem_table_del unknown_class_info sample_sync).put_files = []) ∧
    (__msm_pmem_table_del sample_info sample_sync).rc = 0 ∧
    __msm_pmem_table_del sample_info empty_sync
      = { rc := 0, sync := empty_sync, put_files := [] } ∧
    __msm_pmem_table_del sample_stats_info empty_sync
      = { rc := 0, sync := empty_sync, put_files := [] } :=
  ⟨(C9_table_del_result_and_idempotence unknown_class_info sample_sync).2.1 (by decide),
   (C9_table_del_result_and_idempotence sample_info sample_sync).2.2.1 (by decide),
   (C9_table_del_result_and_idempotence sample_info empty_sync).2.2.2.1
     (by decide) (by decide),
   (C9_table_del_result_and_idempotence sample_stats_info empty_sync).2.2.2.2.1
     (by decide) (by decide)⟩

/-! ## C10: return code of registering -/

/-- C10: for a class that is none of the seven recognised ones `__msm_register_pmem`
returns `-EINVAL` and leaves both lists unchanged; and when `get_pmem_file`
succeeds (its return code is not negative), `-EINVAL` is returned only in that
case, whether or not the allocation succeeds. -/
theorem C10_register_einval_iff_unrecognised (pinfo : msm_pmem_info_t) (pin : pmem_file)
    (kmalloc_ok : Bool) (msm : msm_sync) :
    ((is_frame_type pinfo.type = false ∧ is_stats_type pinfo.type = false) →
      __msm_register_pmem pinfo pin kmalloc_ok msm = (-EINVAL, msm)) ∧
    (0 ≤ pin.rc →
      ((__msm_register_pmem pinfo pin kmalloc_ok msm).1 = -EINVAL ↔
        (is_frame_type pinfo.type = false ∧ is_stats_type pinfo.type = false))) := by
  constructor
  · rintro ⟨hf, hs⟩
    cases hty : pinfo.type <;> simp [hty, is_frame_type] at hf <;>
      simp [hty, is_stats_type] at hs <;> simp [__msm_register_pmem, hty]
  · intro hpin
    have hnot : ¬ pin.rc < 0 := by omega
    cases hty : pinfo.type <;> cases kmalloc_ok <;>
      simp [__msm_register_pmem, msm_pmem_table_add, hty, hnot, is_frame_type,
        is_stats_type, EINVAL, ENOMEM]

/-- Witness for C10: `unknown_class_info` is rejected with `-EINVAL` and the registry
is unchanged; with the successful pin `sample_pin` the equivalence holds for
`sample_info`, whose registration does not return `-EINVAL`. -/
theorem C10_register_einval_iff_unrecognised_witness :
    __msm_register_pmem unknown_class_info sample_pin true sample_sync
      = (-EINVAL, sample_sync) ∧
    ((__msm_register_pmem sample_info sample_pin false sample_sync).1 = -EINVAL ↔
      (is_frame_type sample_info.type = false ∧ is_stats_type sample_info.type = false)) :=
  ⟨(C10_register_einval_iff_unrecognised unknown_class_info sample_pin true sample_sync).1
     (by decide),
   (C10_register_einval_iff_unrecognised sample_info sample_pin false sample_sync).2
     (by decide)⟩

/-! ## How each operation changes the number of regions with a given tuple -/

theorem register_result (pinfo : msm_pmem_info_t) (pin : pmem_file) (kmalloc_ok : Bool)
    (msm : msm_sync) :
    (__msm_register_pmem pinfo pin kmalloc_ok msm).2 = msm ∨
    (is_frame_type pinfo.type = true ∧ (__msm_register_pmem pinfo pin kmalloc_ok msm).2 =
      { frame := new_region pinfo pin :: msm.frame, stats := msm.stats }) ∨
    (is_stats_type pinfo.type = true ∧ (__msm_register_pmem pinfo pin kmalloc_ok msm).2 =
      { frame := msm.frame, stats := new_region pinfo pin :: msm.stats }) := by
  by_cases hrc : pin.rc < 0
  · left
    cases hty : pinfo.type <;> simp [__msm_register_pmem, msm_pmem_table_add, hty, hrc]
  · cases kmalloc_ok
    · left
      cases hty : pinfo.type <;> simp [__msm_register_pmem, msm_pmem_table_add, hty, hrc]
    · cases hty : pinfo.type <;>
        simp [__msm_register_pmem, msm_pmem_table_add, hty, hrc, is_frame_type, is_stats_type]

theorem table_del_result_cases (pinfo : msm_pmem_info_t) (msm : msm_sync) :
    (__msm_pmem_table_del pinfo msm).sync = msm ∨
    (is_frame_type pinfo.type = true ∧ (__msm_pmem_table_del pinfo msm).sync =
      { frame := (table_del_loop pinfo msm.frame).1, stats := msm.stats }) ∨
    (is_stats_type pinfo.type = true ∧ (__msm_pmem_table_del pinfo msm).sync =
      { frame := msm.frame, stats := (table_del_loop pinfo msm.stats).1 }) := by
  rcases recognised_cases pinfo.type with ⟨hf, hs⟩ | ⟨hf, hs⟩ | ⟨hf, hs⟩
  · right; left; exact ⟨hf, by rw [table_del_frame pinfo msm hf]⟩
  · right; right; exact ⟨hs, by rw [table_del_stats pinfo msm hs]⟩
  · left; rw [table_del_unrecognised pinfo msm hf hs]

theorem countP_flag_change (P : msm_pmem_region → Bool) (a : Nat)
    (hP : ∀ region : msm_pmem_region, P { region with active := a } = P region)
    (pre : List msm_pmem_region) (region : msm_pmem_region) (post : List msm_pmem_region) :
    (pre ++ { region with active := a } :: post).countP P
      = (pre ++ region :: post).countP P := by
  simp [List.countP_append, List.countP_cons, hP]

theorem frame_ptov_loop_countP (P : msm_pmem_region → Bool)
    (hP : ∀ (region : msm_pmem_region) (a : Nat), P { region with active := a } = P region)
    (pyaddr pcbcraddr yoff cbcroff : Nat) (fd : Int) (l : List msm_pmem_region) :
    (frame_ptov_loop pyaddr pcbcraddr yoff cbcroff fd l).frame.countP P = l.countP P := by
  by_cases hex : ∃ x ∈ l, frame_ptov_match pyaddr pcbcraddr x
  · obtain ⟨pre, region, post, hsplit, hpre, hr⟩ :=
      exists_first_split (frame_ptov_match pyaddr pcbcraddr) l hex
    rw [hsplit, frame_ptov_loop_split pyaddr pcbcraddr yoff cbcroff fd pre region post hpre hr]
    exact countP_flag_change P 0 (fun r => hP r 0) pre region post
  · have hnone : ∀ x ∈ l, ¬ frame_ptov_match pyaddr pcbcraddr x :=
      fun x hx hm => hex ⟨x, hx, hm⟩
    rw [frame_ptov_loop_none pyaddr pcbcraddr yoff cbcroff fd l hnone]

theorem stats_ptov_loop_countP (P : msm_pmem_region → Bool)
    (hP : ∀ (region : msm_pmem_region) (a : Nat), P { region with active := a } = P region)
    (addr : Nat) (fd : Int) (l : List msm_pmem_region) :
    (stats_ptov_loop addr fd l).stats.countP P = l.countP P := by
  by_cases hex : ∃ x ∈ l, stats_ptov_match addr x
  · obtain ⟨pre, region, post, hsplit, hpre, hr⟩ :=
      exists_first_split (stats_ptov_match addr) l hex
    rw [hsplit, stats_ptov_loop_split addr fd pre region post hpre hr]
    exact countP_flag_change P 0 (fun r => hP r 0) pre region post
  · have hnone : ∀ x ∈ l, ¬ stats_ptov_match addr x := fun x hx hm => hex ⟨x, hx, hm⟩
    rw [stats_ptov_loop_none addr fd l hnone]

theorem frame_vtop_loop_countP (P : msm_pmem_region → Bool)
    (hP : ∀ (region : msm_pmem_region) (a : Nat), P { region with active := a } = P region)
    (buffer yoff cbcroff : Nat) (fd : Int) (l : List msm_pmem_region) :
    (frame_vtop_loop buffer yoff cbcroff fd l).2.countP P = l.countP P := by
  by_cases hex : ∃ x ∈ l, frame_vtop_match buffer yoff cbcroff fd x
  · obtain ⟨pre, region, post, hsplit, hpre, hr⟩ :=
      exists_first_split (frame_vtop_match buffer yoff cbcroff fd) l hex
    rw [hsplit, frame_vtop_loop_split buffer yoff cbcroff fd pre region post hpre hr]
    exact countP_flag_change P 1 (fun r => hP r 1) pre region post
  · have hnone : ∀ x ∈ l, ¬ frame_vtop_match buffer yoff cbcroff fd x :=
      fun x hx hm => hex ⟨x, hx, hm⟩
    rw [frame_vtop_loop_none buffer yoff cbcroff fd l hnone]

theorem stats_vtop_loop_countP (P : msm_pmem_region → Bool)
    (hP : ∀ (region : msm_pmem_region) (a : Nat), P { region with active := a } = P region)
    (buffer : Nat) (fd : Int) (l : List msm_pmem_region) :
    (stats_vtop_loop buffer fd l).2.countP P = l.countP P := by
  by_cases hex : ∃ x ∈ l, stats_vtop_match buffer fd x
  · obtain ⟨pre, region, post, hsplit, hpre, hr⟩ :=
      exists_first_split (stats_vtop_match buffer fd) l hex
    rw [hsplit, stats_vtop_loop_split buffer fd pre region post hpre hr]
    exact countP_flag_change P 1 (fun r => hP r 1) pre region post
  · have hnone : ∀ x ∈ l, ¬ stats_vtop_match buffer fd x := fun x hx hm => hex ⟨x, hx, hm⟩
    rw [stats_vtop_loop_none buffer fd l hnone]

theorem table_del_loop_countP_le (P : msm_pmem_region → Bool) (pinfo : msm_pmem_info_t)
    (l : List msm_pmem_region) : (table_del_loop pinfo l).1.countP P ≤ l.countP P := by
  rw [table_del_loop_eq]
  exact List.Sublist.countP_le P (List.filter_sublist l)

theorem tuple_match_flag (c : msm_pmem_t) (p y cb : Nat) (region : msm_pmem_region) (a : Nat) :
    tuple_match c p y cb { region with active := a } = tuple_match c p y cb region := by
  simp [tuple_match]

/-- One operation adds at most one region with the tuple, and only if it is a
registration for that tuple. -/
theorem registry_step_tuple_count (c : msm_pmem_t) (p y cb : Nat) (msm : msm_sync)
    (op : registry_op) :
    (registry_step msm op).frame.countP (tuple_match c p y cb) +
      (registry_step msm op).stats.countP (tuple_match c p y cb) ≤
    msm.frame.countP (tuple_match c p y cb) + msm.stats.countP (tuple_match c p y cb) +
      (if is_tuple_registration c p y cb op then 1 else 0) := by
  cases op with
  | register pinfo pin kmalloc_ok =>
    have hnew : tuple_match c p y cb (new_region pinfo pin)
        = is_tuple_registration c p y cb (.register pinfo pin kmalloc_ok) := by
      simp [tuple_match, is_tuple_registration, new_region]
    rcases register_result pinfo pin kmalloc_ok msm with h | ⟨_, h⟩ | ⟨_, h⟩
    · simp only [registry_step, h]; omega
    · simp only [registry_step, h, List.countP_cons, hnew]; omega
    · simp only [registry_step, h, List.countP_cons, hnew]; omega
  | unregister pinfo =>
    have hf := table_del_loop_countP_le (tuple_match c p y cb) pinfo msm.frame
    have hs := table_del_loop_countP_le (tuple_match c p y cb) pinfo msm.stats
    rcases table_del_result_cases pinfo msm with h | ⟨_, h⟩ | ⟨_, h⟩
    · simp only [registry_step, h]; omega
    · simp only [registry_step, h]; omega
    · simp only [registry_step, h]; omega
  | lookup on_frame type maxcount => simp [registry_step]
  | frame_ptov pyaddr pcbcraddr =>
    have h := frame_ptov_loop_countP (tuple_match c p y cb) (tuple_match_flag c p y cb)
      pyaddr pcbcraddr 0 0 0 msm.frame
    simp only [registry_step, msm_pmem_frame_ptov_lookup, h]; omega
  | stats_ptov addr =>
    have h := stats_ptov_loop_countP (tuple_match c p y cb) (tuple_match_flag c p y cb)
      addr 0 msm.stats
    simp only [registry_step, msm_pmem_stats_ptov_lookup, h]; omega
  | frame_vtop buffer yoff cbcroff fd =>
    have h := frame_vtop_loop_countP (tuple_match c p y cb) (tuple_match_flag c p y cb)
      buffer yoff cbcroff fd msm.frame
    simp only [registry_step, msm_pmem_frame_vtop_lookup, h]; omega
  | stats_vtop buffer fd =>
    have h := stats_vtop_loop_countP (tuple_match c p y cb) (tuple_match_flag c p y cb)
      buffer fd msm.stats
    simp only [registry_step, msm_pmem_stats_vtop_lookup, h]; omega

theorem registry_run_tuple_count (c : msm_pmem_t) (p y cb : Nat) :
    ∀ (ops : List registry_op) (msm : msm_sync),
      (registry_run msm ops).frame.countP (tuple_match c p y cb) +
        (registry_run msm ops).stats.countP (tuple_match c p y cb) ≤
      msm.frame.countP (tuple_match c p y cb) + msm.stats.countP (tuple_match c p y cb) +
        tuple_registrations c p y cb ops := by
  intro ops
  induction ops with
  | nil => intro msm; simp [registry_run, tuple_registrations]
  | cons op ops ih =>
    intro msm
    have h1 := ih (registry_step msm op)
    have h2 := registry_step_tuple_count c p y cb msm op
    simp only [registry_run, List.foldl_cons, tuple_registrations, List.countP_cons] at h1 ⊢
    omega

theorem active_tuple_count_le (c : msm_pmem_t) (p y cb : Nat) (l : List msm_pmem_region) :
    active_tuple_count c p y cb l ≤ l.countP (tuple_match c p y cb) := by
  unfold active_tuple_count
  apply List.countP_mono_left
  intro x _ hx
  simp only [Bool.and_eq_true] at hx
  exact hx.1

/-! ## C4: active regions matching one tuple -/

/-- C4 (as stated, refuted): after registering the same output-1 buffer twice from
the empty registry, two active regions of class output-1 match the tuple
(physical address 0x8000, luma offset 0, chroma offset 0). -/
theorem C4_double_registration_two_active_matches :
    active_tuple_count MSM_PMEM_OUTPUT1 0x8000 0 0 twice_registered.frame = 2 ∧
    ¬ (active_tuple_count MSM_PMEM_OUTPUT1 0x8000 0 0 twice_registered.frame ≤ 1) := by
  decide

/-- In every registry state reached from the empty registry by a sequence of
register, unregister, lookup, consume and produce operations, the number of
active regions of a class that match a (physical address, luma offset, chroma
offset) tuple, counted over both lists, is at most the number of register calls
of the sequence made for that class and tuple. -/
theorem active_matches_bounded_by_registrations (ops : List registry_op)
    (c : msm_pmem_t) (p y cb : Nat) :
    active_tuple_count c p y cb (registry_run empty_sync ops).frame +
      active_tuple_count c p y cb (registry_run empty_sync ops).stats ≤
    tuple_registrations c p y cb ops := by
  have h := registry_run_tuple_count c p y cb ops empty_sync
  have hf := active_tuple_count_le c p y cb (registry_run empty_sync ops).frame
  have hs := active_tuple_count_le c p y cb (registry_run empty_sync ops).stats
  simp only [empty_sync, List.countP_nil] at h hf hs ⊢
  omega

/-- Along a sequence without double registration of the tuple, at most one region
with the tuple is registered at any time. -/
theorem no_double_registration_run (c : msm_pmem_t) (p y cb : Nat) :
    ∀ (ops : List registry_op) (msm : msm_sync), tuple_count c p y cb msm ≤ 1 →
      no_double_registration c p y cb msm ops = true →
      tuple_count c p y cb (registry_run msm ops) ≤ 1 := by
  intro ops
  induction ops with
  | nil => intro msm h _; simpa [registry_run] using h
  | cons op ops ih =>
    intro msm hle hno
    simp only [no_double_registration, Bool.and_eq_true, Bool.or_eq_true,
      Bool.not_eq_true', decide_eq_true_eq] at hno
    obtain ⟨hop, hrest⟩ := hno
    have hstep := registry_step_tuple_count c p y cb msm op
    have hle1 : tuple_count c p y cb (registry_step msm op) ≤ 1 := by
      unfold tuple_count at hle hop ⊢
      rcases hop with hf | h0
      · rw [hf, if_neg (by simp)] at hstep
        omega
      · by_cases hr : is_tuple_registration c p y cb op = true
        · rw [if_pos hr] at hstep
          omega
        · rw [if_neg hr] at hstep
          omega
    have := ih (registry_step msm op) hle1 hrest
    simpa [registry_run] using this

/-- C4 (amended): in every registry state reached from the empty registry by a
sequence of register, unregister, lookup, consume and produce operations in
which no register call for a class and (physical address, luma offset, chroma
offset) tuple is made while a region of that class and tuple is still
registered, at most one active region matches the tuple (counted over both
lists). -/
theorem C4_at_most_one_without_double_registration (ops : List registry_op)
    (c : msm_pmem_t) (p y cb : Nat)
    (hno : no_double_registration c p y cb empty_sync ops = true) :
    active_tuple_count c p y cb (registry_run empty_sync ops).frame +
      active_tuple_count c p y cb (registry_run empty_sync ops).stats ≤ 1 := by
  have h := no_double_registration_run c p y cb ops empty_sync
    (by simp [tuple_count, empty_sync]) hno
  have hf := active_tuple_count_le c p y cb (registry_run empty_sync ops).frame
  have hs := active_tuple_count_le c p y cb (registry_run empty_sync ops).stats
  unfold tuple_count at h
  omega

/-- Witness for C4: register, unregister, register again of the same output-1
buffer is a sequence without double registration of the tuple (0x8000, 0, 0),
with two register calls for it; one active region matches afterwards. -/
theorem C4_at_most_one_without_double_registration_witness :
    no_double_registration MSM_PMEM_OUTPUT1 0x8000 0 0 empty_sync
      register_unregister_register = true ∧
    tuple_registrations MSM_PMEM_OUTPUT1 0x8000 0 0 register_unregister_register = 2 ∧
    active_tuple_count MSM_PMEM_OUTPUT1 0x8000 0 0
        (registry_run empty_sync register_unregister_register).frame +
      active_tuple_count MSM_PMEM_OUTPUT1 0x8000 0 0
        (registry_run empty_sync register_unregister_register).stats ≤ 1 :=
  ⟨by decide, by decide,
   C4_at_most_one_without_double_registration register_unregister_register
     MSM_PMEM_OUTPUT1 0x8000 0 0 (by decide)⟩

/-! ## Sequences of register / unregister on one triple -/

theorem table_del_loop_all_match (pinfo : msm_pmem_info_t) (l : List msm_pmem_region)
    (h : ∀ x ∈ l, table_del_match pinfo x) : (table_del_loop pinfo l).1 = [] := by
  induction l with
  | nil => simp [table_del_loop]
  | cons region rest ih =>
    have hr : table_del_match pinfo region := h region (by simp)
    have hrest := ih (fun x hx => h x (by simp [hx]))
    simp [table_del_loop, hr, hrest]

theorem triple_inv_step (c : msm_pmem_t) (v : Nat) (f : Int) (msm : msm_sync) (n : Nat)
    (op : registry_op) (hop : on_triple c v f op) (hinv : triple_inv c v f msm n) :
    triple_inv c v f (registry_step msm op) (pending_step n op) := by
  obtain ⟨hlen, hkey, hfe, hse⟩ := hinv
  cases op with
  | register pinfo pin kmalloc_ok =>
    obtain ⟨hc, hv, hfd⟩ := hop
    have hnew : (new_region pinfo pin).type = c ∧ (new_region pinfo pin).vaddr = v ∧
        (new_region pinfo pin).fd = f := ⟨hc, hv, hfd⟩
    rcases register_result pinfo pin kmalloc_ok msm with h | ⟨hty, h⟩ | ⟨hty, h⟩
    · simp only [registry_step, pending_step, h]
      exact ⟨by omega, hkey, hfe, hse⟩
    · rw [hc] at hty
      simp only [registry_step, pending_step, h]
      refine ⟨by simp only [List.length_cons]; omega, ?_, ?_, hse⟩
      · intro region hmem
        simp only [List.cons_append, List.mem_cons] at hmem
        rcases hmem with hmem | hmem
        · rw [hmem]; exact hnew
        · exact hkey region hmem
      · intro hfalse; rw [hty] at hfalse; exact absurd hfalse (by decide)
    · rw [hc] at hty
      simp only [registry_step, pending_step, h]
      refine ⟨by simp only [List.length_cons]; omega, ?_, hfe, ?_⟩
      · intro region hmem
        simp only [List.mem_append, List.mem_cons] at hmem
        rcases hmem with hmem | hmem | hmem
        · exact hkey region (List.mem_append.mpr (Or.inl hmem))
        · rw [hmem]; exact hnew
        · exact hkey region (List.mem_append.mpr (Or.inr hmem))
      · intro hfalse; rw [hty] at hfalse; exact absurd hfalse (by decide)
  | unregister pinfo =>
    obtain ⟨hc, hv, hfd⟩ := hop
    have hall : ∀ x ∈ msm.frame ++ msm.stats, table_del_match pinfo x := by
      intro x hx
      obtain ⟨h1, h2, h3⟩ := hkey x hx
      exact ⟨by rw [hc, h1], by rw [hv, h2], by rw [hfd, h3]⟩
    rcases recognised_cases pinfo.type with ⟨hf, hs⟩ | ⟨hf, hs⟩ | ⟨hf, hs⟩
    · have hstats : msm.stats = [] := hse (by rw [← hc]; exact hs)
      have hdel := table_del_loop_all_match pinfo msm.frame
        (fun x hx => hall x (List.mem_append.mpr (Or.inl hx)))
      simp only [registry_step, pending_step, table_del_frame pinfo msm hf, hdel, hstats]
      exact ⟨by simp, by simp, fun _ => rfl, fun _ => rfl⟩
    · have hframe : msm.frame = [] := hfe (by rw [← hc]; exact hf)
      have hdel := table_del_loop_all_match pinfo msm.stats
        (fun x hx => hall x (List.mem_append.mpr (Or.inr hx)))
      simp only [registry_step, pending_step, table_del_stats pinfo msm hs, hdel, hframe]
      exact ⟨by simp, by simp, fun _ => rfl, fun _ => rfl⟩
    · have hframe : msm.frame = [] := hfe (by rw [← hc]; exact hf)
      have hstats : msm.stats = [] := hse (by rw [← hc]; exact hs)
      simp only [registry_step, pending_step, table_del_unrecognised pinfo msm hf hs]
      refine ⟨by simp [hframe, hstats], hkey, hfe, hse⟩
  | lookup on_frame type maxcount => exact absurd hop (by simp [on_triple])
  | frame_ptov pyaddr pcbcraddr => exact absurd hop (by simp [on_triple])
  | stats_ptov addr => exact absurd hop (by simp [on_triple])
  | frame_vtop buffer yoff cbcroff fd => exact absurd hop (by simp [on_triple])
  | stats_vtop buffer fd => exact absurd hop (by simp [on_triple])

theorem triple_inv_run (c : msm_pmem_t) (v : Nat) (f : Int) :
    ∀ (ops : List registry_op) (msm : msm_sync) (n : Nat),
      (∀ op ∈ ops, on_triple c v f op) → triple_inv c v f msm n →
      triple_inv c v f (registry_run msm ops) (ops.foldl pending_step n) := by
  intro ops
  induction ops with
  | nil => intro msm n _ hinv; simpa [registry_run] using hinv
  | cons op ops ih =>
    intro msm n hops hinv
    have hstep := triple_inv_step c v f msm n op (hops op (by simp)) hinv
    have hrest := ih (registry_step msm op) (pending_step n op)
      (fun o ho => hops o (by simp [ho])) hstep
    simpa [registry_run] using hrest

/-! ## C7: duplicate registration of one key -/

/-- C7 (as stated, refuted): two register calls with the same (class, vaddr, fd)
triple (output-1, 0x1000, 5) from the empty registry; the following lookup for
output-1 with maxcount 8 reports two regions carrying that key. -/
theorem C7_duplicate_registration_counted_twice :
    (∀ op ∈ [registry_op.register sample_info sample_pin true,
              registry_op.register sample_info sample_pin true],
        on_triple MSM_PMEM_OUTPUT1 0x1000 5 op) ∧
    msm_pmem_region_lookup
      (registry_run empty_sync
        [.register sample_info sample_pin true, .register sample_info sample_pin true]).frame
      MSM_PMEM_OUTPUT1 8 = (2, [sample_region, sample_region]) := by
  decide

/-- C7 (amended): after any sequence of register and unregister calls that all use
one (class, vaddr, fd) triple, starting from the empty registry, the count that
a lookup for the class returns, and the number of regions it copies, on either
list and for any maxcount, is at most the number of register calls made since
the last unregister call: it is 0 right after an unregister and at most 1 as
long as the key is never registered twice without an unregister in between,
whereas a duplicate registration is counted again. -/
theorem C7_lookup_bounded_by_pending_registers (c : msm_pmem_t) (v : Nat) (f : Int)
    (ops : List registry_op) (hops : ∀ op ∈ ops, on_triple c v f op) (maxcount : Nat) :
    (msm_pmem_region_lookup (registry_run empty_sync ops).frame c maxcount).1
      ≤ pending_registers ops ∧
    (msm_pmem_region_lookup (registry_run empty_sync ops).frame c maxcount).2.length
      ≤ pending_registers ops ∧
    (msm_pmem_region_lookup (registry_run empty_sync ops).stats c maxcount).1
      ≤ pending_registers ops ∧
    (msm_pmem_region_lookup (registry_run empty_sync ops).stats c maxcount).2.length
      ≤ pending_registers ops := by
  have h0 : triple_inv c v f empty_sync 0 := by
    refine ⟨by simp [empty_sync], ?_, fun _ => rfl, fun _ => rfl⟩
    intro region hmem
    simp [empty_sync] at hmem
  obtain ⟨hlen, _, _, _⟩ := triple_inv_run c v f ops empty_sync 0 hops h0
  have hf := msm_pmem_region_lookup_loop_le c maxcount (registry_run empty_sync ops).frame 0 []
  have hs := msm_pmem_region_lookup_loop_le c maxcount (registry_run empty_sync ops).stats 0 []
  simp only [List.length_nil, Nat.zero_add] at hf hs
  simp only [msm_pmem_region_lookup, pending_registers]
  refine ⟨?_, ?_, ?_, ?_⟩ <;> omega

/-- Witness for C7 (amended): register, unregister, register with `sample_info`;
one register call is pending, and the lookup for output-1 reports at most one
region. -/
theorem C7_lookup_bounded_by_pending_registers_witness :
    (∀ op ∈ register_unregister_register, on_triple MSM_PMEM_OUTPUT1 0x1000 5 op) ∧
    pending_registers register_unregister_register = 1 ∧
    (msm_pmem_region_lookup (registry_run empty_sync register_unregister_register).frame
      MSM_PMEM_OUTPUT1 8).1 ≤ pending_registers register_unregister_register :=
  ⟨by decide, by decide,
   (C7_lookup_bounded_by_pending_registers MSM_PMEM_OUTPUT1 0x1000 5
     register_unregister_register (by decide) 8).1⟩

/-! ## What each driver call does to the four queues -/

theorem msm_control_deliver_some (ctrlcmd_t : msm_ctrl_cmd_t) (env : msm_control_env) (rc : Int)
    (msm : msm_device_t) (qcmd : msm_queue_cmd_t) (dequeued : Option msm_queue_cmd_t)
    (r : msm_control_result)
    (h : msm_control_deliver ctrlcmd_t env rc msm qcmd dequeued = some r) :
    r.msm = msm ∧ r.dequeued = dequeued := by
  unfold msm_control_deliver at h
  split at h
  · simp only [Option.some.injEq] at h; subst h; exact ⟨rfl, rfl⟩
  · split_ifs at h <;> (simp only [Option.some.injEq] at h; subst h; exact ⟨rfl, rfl⟩)
  · exact absurd h (by simp)

/-- A defined `msm_control` call appends at most one entry to the message queue,
leaves the previous-frame and picture queues alone, and either unlinks nothing
from the control-status queue or unlinks exactly its first entry. -/
theorem msm_control_queues (ctrlcmd_t : msm_ctrl_cmd_t) (env : msm_control_env)
    (msm : msm_device_t) (r : msm_control_result)
    (h : msm_control ctrlcmd_t env msm = some r) :
    (∃ l, r.msm.msg_event_queue = msm.msg_event_queue ++ l ∧ l.length ≤ 1) ∧
    r.msm.prev_frame_q = msm.prev_frame_q ∧
    r.msm.pict_frame_q = msm.pict_frame_q ∧
    ((r.dequeued = none ∧ r.msm.ctrl_status_queue = msm.ctrl_status_queue) ∨
     (∃ e, r.dequeued = some e ∧ msm.ctrl_status_queue = e :: r.msm.ctrl_status_queue)) := by
  unfold msm_control at h
  split_ifs at h
  · cases h; exact ⟨⟨[], by simp⟩, rfl, rfl, Or.inl ⟨rfl, rfl⟩⟩
  · cases h; exact ⟨⟨[], by simp⟩, rfl, rfl, Or.inl ⟨rfl, rfl⟩⟩
  · cases h; exact ⟨⟨[], by simp⟩, rfl, rfl, Or.inl ⟨rfl, rfl⟩⟩
  · cases h; exact ⟨⟨[], by simp⟩, rfl, rfl, Or.inl ⟨rfl, rfl⟩⟩
  · cases h; exact ⟨⟨[], by simp⟩, rfl, rfl, Or.inl ⟨rfl, rfl⟩⟩
  all_goals
    simp only at h
    split_ifs at h
    all_goals first
      | (cases h
         exact ⟨⟨[msm_control_request ctrlcmd_t env], by simp⟩, rfl, rfl, Or.inl ⟨rfl, rfl⟩⟩)
      | (split at h
         · obtain ⟨hm, hd⟩ := msm_control_deliver_some _ _ _ _ _ _ _ h
           rw [hm, hd]
           exact ⟨⟨[msm_control_request ctrlcmd_t env], by simp⟩, rfl, rfl,
             Or.inl ⟨rfl, rfl⟩⟩
         · rename_i head rest hq
           obtain ⟨hm, hd⟩ := msm_control_deliver_some _ _ _ _ _ _ _ h
           rw [hm, hd]
           exact ⟨⟨[msm_control_request ctrlcmd_t env], by simp⟩, rfl, rfl,
             Or.inr ⟨head, rfl, by simp [hq]⟩⟩)

theorem __msm_control_queues (ctrlcmd : msm_ctrl_cmd_t) (env : msm_control_kernel_env)
    (vmsm : msm_device_t) (r : msm_control_kernel_result)
    (h : __msm_control ctrlcmd env vmsm = some r) :
    (∃ l, r.msm.msg_event_queue = vmsm.msg_event_queue ++ l ∧ l.length ≤ 1) ∧
    r.msm.prev_frame_q = vmsm.prev_frame_q ∧
    r.msm.pict_frame_q = vmsm.pict_frame_q ∧
    ((r.dequeued = none ∧ r.msm.ctrl_status_queue = vmsm.ctrl_status_queue) ∨
     (∃ e, r.dequeued = some e ∧ vmsm.ctrl_status_queue = e :: r.msm.ctrl_status_queue)) := by
  unfold __msm_control at h
  split_ifs at h
  · cases h; exact ⟨⟨[], by simp⟩, rfl, rfl, Or.inl ⟨rfl, rfl⟩⟩
  all_goals
    simp only at h
    split_ifs at h
    all_goals first
      | (cases h
         exact ⟨⟨[{ type := .MSM_CAM_Q_V4L2_REQ, command := .ctrl ctrlcmd }], by simp⟩,
           rfl, rfl, Or.inl ⟨rfl, rfl⟩⟩)
      | (split at h
         · exact absurd h (by simp)
         · rename_i rcmd rest hq
           split at h
           · cases h
             exact ⟨⟨[{ type := .MSM_CAM_Q_V4L2_REQ, command := .ctrl ctrlcmd }], by simp⟩,
               rfl, rfl, Or.inr ⟨rcmd, rfl, by simpa using hq⟩⟩
           · exact absurd h (by simp))

theorem get_stats_copy_se_keeps (env : get_stats_env) (rc : Int) (msm : msm_device_t)
    (se : msm_stats_event_ctrl) (data_out : user_data) (dequeued : Option msm_queue_cmd_t) :
    (get_stats_copy_se env rc msm se data_out dequeued).msm = msm ∧
    (get_stats_copy_se env rc msm se data_out dequeued).dequeued = dequeued := by
  unfold get_stats_copy_se
  split_ifs <;> exact ⟨rfl, rfl⟩

theorem get_stats_vfe_keeps (env : get_stats_env) (rc : Int) (msm : msm_device_t)
    (se : msm_stats_event_ctrl) (data : msm_vfe_resp_t) (dequeued : Option msm_queue_cmd_t) :
    (get_stats_vfe env rc msm se data dequeued).msm.msg_event_queue = msm.msg_event_queue ∧
    (get_stats_vfe env rc msm se data dequeued).msm.ctrl_status_queue = msm.ctrl_status_queue ∧
    (get_stats_vfe env rc msm se data dequeued).msm.prev_frame_q = msm.prev_frame_q ∧
    (get_stats_vfe env rc msm se data dequeued).msm.pict_frame_q = msm.pict_frame_q ∧
    (get_stats_vfe env rc msm se data dequeued).dequeued = dequeued := by
  unfold get_stats_vfe
  simp only
  split_ifs <;>
    simp only [(get_stats_copy_se_keeps _ _ _ _ _ _).1, (get_stats_copy_se_keeps _ _ _ _ _ _).2,
      and_self]

theorem get_stats_ctrl_keeps (env : get_stats_env) (rc : Int) (msm : msm_device_t)
    (se : msm_stats_event_ctrl) (ctrl : msm_ctrl_cmd_t) (resptype : msm_resp_t)
    (dequeued : Option msm_queue_cmd_t) :
    (get_stats_ctrl env rc msm se ctrl resptype dequeued).msm = msm ∧
    (get_stats_ctrl env rc msm se ctrl resptype dequeued).dequeued = dequeued := by
  unfold get_stats_ctrl
  simp only
  split_ifs <;>
    simp only [(get_stats_copy_se_keeps _ _ _ _ _ _).1, (get_stats_copy_se_keeps _ _ _ _ _ _).2,
      and_self]

/-- A defined `msm_get_stats` call leaves the control-status, previous-frame and
picture queues alone and either unlinks nothing from the message queue or unlinks
exactly its first entry. -/
theorem msm_get_stats_queues (se : msm_stats_event_ctrl) (env : get_stats_env)
    (msm : msm_device_t) (r : get_stats_result) (h : msm_get_stats se env msm = some r) :
    r.msm.ctrl_status_queue = msm.ctrl_status_queue ∧
    r.msm.prev_frame_q = msm.prev_frame_q ∧
    r.msm.pict_frame_q = msm.pict_frame_q ∧
    ((r.dequeued = none ∧ r.msm.msg_event_queue = msm.msg_event_queue) ∨
     (∃ e, r.dequeued = some e ∧ msm.msg_event_queue = e :: r.msm.msg_event_queue)) := by
  unfold msm_get_stats at h
  split_ifs at h
  · cases h; exact ⟨rfl, rfl, rfl, Or.inl ⟨rfl, rfl⟩⟩
  all_goals
    simp only at h
    split_ifs at h
    all_goals first
      | (cases h; exact ⟨rfl, rfl, rfl, Or.inl ⟨rfl, rfl⟩⟩)
      | (split at h
         · exact absurd h (by simp)
         · rename_i qcmd rest hq
           split at h
           all_goals first
             | (cases h; done)
             | (cases h
                obtain ⟨h1, h2, h3, h4, h5⟩ := get_stats_vfe_keeps env _
                  { msm with msg_event_queue := rest } se _ (some qcmd)
                rw [h1, h2, h3, h4, h5]
                exact ⟨rfl, rfl, rfl, Or.inr ⟨qcmd, rfl, by simpa using hq⟩⟩)
             | (cases h
                obtain ⟨h1, h2⟩ := get_stats_ctrl_keeps env _
                  { msm with msg_event_queue := rest } se _ _ (some qcmd)
                rw [h1, h2]
                exact ⟨rfl, rfl, rfl, Or.inr ⟨qcmd, rfl, by simpa using hq⟩⟩)
             | (cases h
                exact ⟨rfl, rfl, rfl, Or.inr ⟨qcmd, rfl, by simpa using hq⟩⟩))

theorem __msm_get_frame_queues (frame : msm_frame_t) (msm : msm_device_t)
    (r : get_frame_result) (h : __msm_get_frame frame msm = some r) :
    r.msm.msg_event_queue = msm.msg_event_queue ∧
    r.msm.ctrl_status_queue = msm.ctrl_status_queue ∧
    r.msm.pict_frame_q = msm.pict_frame_q ∧
    ((r.dequeued = none ∧ r.msm.prev_frame_q = msm.prev_frame_q) ∨
     (∃ e, r.dequeued = some e ∧ msm.prev_frame_q = e :: r.msm.prev_frame_q)) := by
  unfold __msm_get_frame at h
  split at h
  · rename_i hq
    cases h
    exact ⟨rfl, rfl, rfl, Or.inl ⟨rfl, rfl⟩⟩
  · rename_i qcmd rest hq
    split at h
    · cases h
      exact ⟨rfl, rfl, rfl, Or.inr ⟨qcmd, rfl, by simpa using hq⟩⟩
    · cases h

theorem __msm_get_pic_queues (ctrl : msm_ctrl_cmd_t) (jiffies_left : Nat) (msm : msm_device_t)
    (r : get_pic_result) (h : __msm_get_pic ctrl jiffies_left msm = some r) :
    r.msm.msg_event_queue = msm.msg_event_queue ∧
    r.msm.ctrl_status_queue = msm.ctrl_status_queue ∧
    r.msm.prev_frame_q = msm.prev_frame_q ∧
    ((r.dequeued = none ∧ r.msm.pict_frame_q = msm.pict_frame_q) ∨
     (∃ e, r.dequeued = some e ∧ msm.pict_frame_q = e :: r.msm.pict_frame_q)) := by
  unfold __msm_get_pic at h
  simp only at h
  split_ifs at h
  all_goals first
    | (cases h; exact ⟨rfl, rfl, rfl, Or.inl ⟨rfl, rfl⟩⟩)
    | (split at h
       · cases h
       · rename_i qcmd rest hq
         split at h
         · cases h
           exact ⟨rfl, rfl, rfl, Or.inr ⟨qcmd, rfl, by simpa using hq⟩⟩
         · cases h
           exact ⟨rfl, rfl, rfl, Or.inr ⟨qcmd, rfl, by simpa using hq⟩⟩
         · cases h)

/-- `msm_vfe_sync` only appends: at most one entry to each of the message,
previous-frame and picture queues, a picture-queue entry being tagged
`MSM_CAM_Q_VFE_MSG`; the control-status queue is left alone. -/
theorem msm_vfe_sync_queues (vdata : msm_vfe_resp_t) (qtype : msm_queut_t) (env : vfe_sync_env)
    (msm : msm_device_t) :
    (∃ l, (msm_vfe_sync vdata qtype env msm).msg_event_queue = msm.msg_event_queue ++ l ∧
      l.length ≤ 1) ∧
    (msm_vfe_sync vdata qtype env msm).ctrl_status_queue = msm.ctrl_status_queue ∧
    (∃ l, (msm_vfe_sync vdata qtype env msm).prev_frame_q = msm.prev_frame_q ++ l ∧
      l.length ≤ 1) ∧
    (∃ l, (msm_vfe_sync vdata qtype env msm).pict_frame_q = msm.pict_frame_q ++ l ∧
      l.length ≤ 1 ∧ ∀ e ∈ l, e.type = msm_queut_t.MSM_CAM_Q_VFE_MSG) := by
  unfold msm_vfe_sync
  split_ifs
  all_goals
    refine ⟨?_, rfl, ?_, ?_⟩
    · first
        | (refine ⟨[], ?_, ?_⟩ <;> simp; done)
        | (refine ⟨[_], rfl, ?_⟩; simp)
    · first
        | (refine ⟨[], ?_, ?_⟩ <;> simp; done)
        | (refine ⟨[_], rfl, ?_⟩; simp)
    · first
        | (refine ⟨[], ?_, ?_, ?_⟩ <;> simp; done)
        | (refine ⟨[{ type := .MSM_CAM_Q_VFE_MSG, command := .null }], rfl, ?_, ?_⟩ <;> simp)

theorem msm_ctrl_cmd_done_queues (ctrlcmd_t : msm_ctrl_cmd_t) (env : ctrl_cmd_done_env)
    (msm : msm_device_t) :
    (msm_ctrl_cmd_done ctrlcmd_t env msm).2.msg_event_queue = msm.msg_event_queue ∧
    (∃ l, (msm_ctrl_cmd_done ctrlcmd_t env msm).2.ctrl_status_queue
        = msm.ctrl_status_queue ++ l ∧ l.length ≤ 1) ∧
    (msm_ctrl_cmd_done ctrlcmd_t env msm).2.prev_frame_q = msm.prev_frame_q ∧
    (msm_ctrl_cmd_done ctrlcmd_t env msm).2.pict_frame_q = msm.pict_frame_q := by
  unfold msm_ctrl_cmd_done
  split_ifs
  all_goals
    refine ⟨rfl, ?_, rfl, rfl⟩
    first
      | (refine ⟨[], ?_, ?_⟩ <;> simp; done)
      | (refine ⟨[_], rfl, ?_⟩; simp)

theorem msm_pict_pp_done_queues (ctrlcmd_t : msm_ctrl_cmd_t) (env : pict_pp_done_env)
    (msm : msm_device_t) (r : Int × msm_device_t)
    (h : msm_pict_pp_done ctrlcmd_t env msm = some r) :
    r.2.msg_event_queue = msm.msg_event_queue ∧
    r.2.ctrl_status_queue = msm.ctrl_status_queue ∧
    r.2.prev_frame_q = msm.prev_frame_q ∧
    (∃ l, r.2.pict_frame_q = msm.pict_frame_q ++ l ∧ l.length ≤ 1 ∧
      ∀ e ∈ l, e.type = msm_queut_t.MSM_CAM_Q_VFE_MSG) := by
  unfold msm_pict_pp_done at h
  split_ifs at h
  all_goals first
    | (cases h; done)
    | (cases h; refine ⟨rfl, rfl, rfl, [], ?_, ?_, ?_⟩ <;> simp; done)
    | (cases h; refine ⟨rfl, rfl, rfl, [_], rfl, ?_, ?_⟩ <;> simp)

theorem __msm_open_queues (env : msm_open_env) (msm : msm_device_t) :
    (__msm_open env msm).msm.msg_event_queue = msm.msg_event_queue ∧
    (__msm_open env msm).msm.ctrl_status_queue = msm.ctrl_status_queue ∧
    (__msm_open env msm).msm.prev_frame_q = msm.prev_frame_q ∧
    (__msm_open env msm).msm.pict_frame_q = msm.pict_frame_q := by
  unfold __msm_open
  simp only
  split_ifs <;> exact ⟨rfl, rfl, rfl, rfl⟩

theorem drain_pict_frame_q_subset (l : List msm_queue_cmd_t) :
    ∀ e ∈ drain_pict_frame_q l, e ∈ l := by
  induction l with
  | nil => intro e he; simp [drain_pict_frame_q] at he
  | cons qcmd rest ih =>
    intro e he
    unfold drain_pict_frame_q at he
    split_ifs at he
    · exact List.mem_cons_of_mem _ (ih e he)
    · exact he

theorem msm_release_pict_subset (pmsm : msm_device_t) :
    ∀ e ∈ (msm_release pmsm).msm.pict_frame_q, e ∈ pmsm.pict_frame_q := by
  intro e he
  by_cases hc : pmsm.opencnt - 1 = 0
  · simp only [msm_release, hc, if_true] at he
    exact drain_pict_frame_q_subset _ e he
  · simp only [msm_release, hc, if_false] at he
    exact he

theorem pict_tags_ok_of_append (msm msm1 : msm_device_t)
    (hinv : pict_tags_ok msm)
    (h : ∃ l, msm1.pict_frame_q = msm.pict_frame_q ++ l ∧ l.length ≤ 1 ∧
      ∀ e ∈ l, e.type = msm_queut_t.MSM_CAM_Q_VFE_MSG) : pict_tags_ok msm1 := by
  obtain ⟨l, hl, _, htag⟩ := h
  intro e he
  rw [hl] at he
  rcases List.mem_append.mp he with h1 | h1
  · exact hinv e h1
  · exact htag e h1

theorem pict_tags_ok_of_eq (msm msm1 : msm_device_t) (hinv : pict_tags_ok msm)
    (h : msm1.pict_frame_q = msm.pict_frame_q) : pict_tags_ok msm1 := by
  intro e he
  rw [h] at he
  exact hinv e he

/-- Every driver call keeps the tags of the picture queue: entries are only ever
appended with tag `MSM_CAM_Q_VFE_MSG`, unlinked at the head, or drained. -/
theorem pict_tags_ok_step (msm msm1 : msm_device_t) (op : session_op)
    (hinv : pict_tags_ok msm) (h : session_step msm op = some msm1) : pict_tags_ok msm1 := by
  cases op with
  | vfe_sync vdata qtype env =>
    simp only [session_step, Option.some.injEq] at h
    subst h
    exact pict_tags_ok_of_append msm _ hinv (msm_vfe_sync_queues vdata qtype env msm).2.2.2
  | control ctrlcmd_t env =>
    simp only [session_step, Option.map_eq_some'] at h
    obtain ⟨r, hr, rfl⟩ := h
    exact pict_tags_ok_of_eq msm _ hinv (msm_control_queues _ _ _ _ hr).2.2.1
  | control_kernel ctrlcmd env =>
    simp only [session_step, Option.map_eq_some'] at h
    obtain ⟨r, hr, rfl⟩ := h
    exact pict_tags_ok_of_eq msm _ hinv (__msm_control_queues _ _ _ _ hr).2.2.1
  | get_stats se env =>
    simp only [session_step, Option.map_eq_some'] at h
    obtain ⟨r, hr, rfl⟩ := h
    exact pict_tags_ok_of_eq msm _ hinv (msm_get_stats_queues _ _ _ _ hr).2.2.1
  | ctrl_cmd_done ctrlcmd_t env =>
    simp only [session_step, Option.some.injEq] at h
    subst h
    exact pict_tags_ok_of_eq msm _ hinv (msm_ctrl_cmd_done_queues ctrlcmd_t env msm).2.2.2
  | pict_pp_done ctrlcmd_t env =>
    simp only [session_step, Option.map_eq_some'] at h
    obtain ⟨r, hr, rfl⟩ := h
    exact pict_tags_ok_of_append msm _ hinv (msm_pict_pp_done_queues _ _ _ _ hr).2.2.2
  | get_frame frame =>
    simp only [session_step, Option.map_eq_some'] at h
    obtain ⟨r, hr, rfl⟩ := h
    exact pict_tags_ok_of_eq msm _ hinv (__msm_get_frame_queues _ _ _ hr).2.2.1
  | get_pic ctrl jiffies_left =>
    simp only [session_step, Option.map_eq_some'] at h
    obtain ⟨r, hr, rfl⟩ := h
    rcases (__msm_get_pic_queues _ _ _ _ hr).2.2.2 with ⟨_, hq⟩ | ⟨e, _, hq⟩
    · exact pict_tags_ok_of_eq msm _ hinv hq
    · intro x hx
      exact hinv x (by rw [hq]; exact List.mem_cons_of_mem _ hx)
  | open_dev env =>
    simp only [session_step, Option.some.injEq] at h
    subst h
    exact pict_tags_ok_of_eq msm _ hinv (__msm_open_queues env msm).2.2.2
  | release =>
    simp only [session_step, Option.some.injEq] at h
    subst h
    intro x hx
    exact hinv x (msm_release_pict_subset msm x hx)
  | registry op =>
    simp only [session_step, Option.some.injEq] at h
    subst h
    exact pict_tags_ok_of_eq msm _ hinv rfl
  | set_pict_pp enable =>
    simp only [session_step, Option.some.injEq] at h
    subst h
    exact pict_tags_ok_of_eq msm _ hinv rfl

theorem reachable_pict_tags_ok (msm : msm_device_t) (h : reachable msm) : pict_tags_ok msm := by
  induction h with
  | start => intro e he; simp [msm_camera_drv_start_device] at he
  | step msm msm1 op _ hstep ih => exact pict_tags_ok_step msm msm1 op ih hstep

/-! ## C13: pending exactly when non-empty -/

/-- C13: in every device state the driver can reach, `msm_ctrl_stats_pending`,
`msm_frame_pending` and `msm_camera_pict_pending` return true exactly when the
control-status, previous-frame and picture queue, respectively, holds at least
one entry.  For the picture queue this rests on the fact that every entry the
driver puts there is tagged `MSM_CAM_Q_VFE_MSG`. -/
theorem C13_pending_iff_nonempty (msm : msm_device_t) (h : reachable msm) :
    (msm_ctrl_stats_pending msm = true ↔ msm.ctrl_status_queue ≠ []) ∧
    (msm_frame_pending msm = true ↔ msm.prev_frame_q ≠ []) ∧
    (msm_camera_pict_pending msm = true ↔ msm.pict_frame_q ≠ []) := by
  have htags := reachable_pict_tags_ok msm h
  refine ⟨?_, ?_, ?_⟩
  · unfold msm_ctrl_stats_pending
    cases msm.ctrl_status_queue <;> simp
  · unfold msm_frame_pending
    cases msm.prev_frame_q <;> simp [frame_pending_of]
  · unfold msm_camera_pict_pending
    unfold pict_tags_ok at htags
    cases hq : msm.pict_frame_q with
    | nil => simp [pict_pending_of]
    | cons qcmd rest =>
      have := htags qcmd (by rw [hq]; exact List.mem_cons_self _ _)
      simp [pict_pending_of, this]

/-! ## FIFO order of the four queues -/

/-- Witness for C13: after a snapshot message arrived with post-processing disabled,
the picture queue holds one entry and `msm_camera_pict_pending` is true, while the
control-status and previous-frame queues are empty and not pending. -/
theorem C13_pending_iff_nonempty_witness :
    reachable snapshot_arrived ∧
    snapshot_arrived.pict_frame_q ≠ [] ∧
    (msm_ctrl_stats_pending snapshot_arrived = true ↔ snapshot_arrived.ctrl_status_queue ≠ []) ∧
    (msm_frame_pending snapshot_arrived = true ↔ snapshot_arrived.prev_frame_q ≠ []) ∧
    (msm_camera_pict_pending snapshot_arrived = true ↔ snapshot_arrived.pict_frame_q ≠ []) :=
  ⟨reachable.step _ _ (.vfe_sync sample_snapshot .MSM_CAM_Q_VFE_MSG vfe_sync_env_ok)
      reachable.start rfl,
   by decide,
   C13_pending_iff_nonempty snapshot_arrived
     (reachable.step _ _ (.vfe_sync sample_snapshot .MSM_CAM_Q_VFE_MSG vfe_sync_env_ok)
       reachable.start rfl)⟩

/-! ## Waits that find their condition true -/

theorem wait_event_timeout_true (jiffies_left : Nat) :
    0 < wait_event_timeout true jiffies_left := by
  simp only [wait_event_timeout, if_true]
  omega

theorem wait_event_interruptible_true : wait_event_interruptible true = 0 := by
  simp [wait_event_interruptible]

theorem wait_event_timeout_false (jiffies_left : Nat) :
    wait_event_timeout false jiffies_left = 0 := by
  simp [wait_event_timeout]

/-- The code a wait returns when its condition holds: not a time-out, not an
error. -/
theorem wait_succeeds (timeout_ms : Int) (jiffies_left : Nat) :
    ¬ (timeout_ms > 0 ∧
        (if timeout_ms > 0 then wait_event_timeout true jiffies_left
         else wait_event_interruptible true) = 0) ∧
    ¬ (if timeout_ms > 0 then wait_event_timeout true jiffies_left
       else wait_event_interruptible true) < 0 ∧
    0 ≤ (if timeout_ms > 0 then wait_event_timeout true jiffies_left
         else wait_event_interruptible true) := by
  have h1 := wait_event_timeout_true jiffies_left
  have h2 := wait_event_interruptible_true
  by_cases ht : timeout_ms > 0
  · simp only [ht, if_true, true_and]
    omega
  · simp only [ht, if_false, false_and, not_false_eq_true, true_and, h2]
    omega

/-- With its copies and allocations succeeding, a defined `msm_control` call leaves
the message queue extended by exactly its request entry. -/
theorem msm_control_pushes_request (ctrlcmd_t : msm_ctrl_cmd_t) (env : msm_control_env)
    (msm : msm_device_t) (r : msm_control_result)
    (h1 : env.copy_from_user_arg_ok = true) (h2 : env.kmalloc_ctrlcmd_ok = true)
    (h3 : env.kmalloc_value_ok = true) (h4 : env.copy_from_user_value_ok = true)
    (h5 : env.kmalloc_qcmd_ok = true)
    (h : msm_control ctrlcmd_t env msm = some r) :
    r.msm.msg_event_queue = msm.msg_event_queue ++ [msm_control_request ctrlcmd_t env] := by
  unfold msm_control at h
  simp only [h1, h2, h3, h4, h5, Bool.not_true, Bool.false_eq_true, if_false] at h
  split_ifs at h
  all_goals first
    | (cases h; rfl)
    | (split at h
       · obtain ⟨hm, _⟩ := msm_control_deliver_some _ _ _ _ _ _ _ h
         rw [hm]
       · obtain ⟨hm, _⟩ := msm_control_deliver_some _ _ _ _ _ _ _ h
         rw [hm])

/-- `msm_get_stats` on a message queue whose first entry is a hardware event or
message: the wait succeeds, that entry is unlinked and handled by the
`MSM_CAM_Q_VFE_EVT` / `MSM_CAM_Q_VFE_MSG` case. -/
theorem msm_get_stats_vfe_head (se : msm_stats_event_ctrl) (env : get_stats_env)
    (msm : msm_device_t) (qcmd : msm_queue_cmd_t) (rest : List msm_queue_cmd_t)
    (data : msm_vfe_resp_t)
    (hq : msm.msg_event_queue = qcmd :: rest) (hcopy : env.copy_from_user_se_ok = true)
    (hty : qcmd.type = .MSM_CAM_Q_VFE_EVT ∨ qcmd.type = .MSM_CAM_Q_VFE_MSG)
    (hcmd : qcmd.command = .vfe_resp data) :
    ∃ r, msm_get_stats se env msm = some r ∧ r.dequeued = some qcmd ∧
      r.msm.msg_event_queue = rest := by
  have hpend : msm_stats_pending msm = true := by
    unfold msm_stats_pending
    rw [hq]
    rcases hty with h | h <;> simp [stats_pending_of, h]
  obtain ⟨hw1, hw2, _⟩ := wait_succeeds se.timeout_ms env.jiffies_left
  unfold msm_get_stats
  simp only [hcopy, Bool.not_true, Bool.false_eq_true, if_false, hpend, hw1, hw2, hq]
  rcases hty with h | h
  · simp only [h, hcmd]
    exact ⟨_, rfl, (get_stats_vfe_keeps _ _ _ _ _ _).2.2.2.2, (get_stats_vfe_keeps _ _ _ _ _ _).1⟩
  · simp only [h, hcmd]
    exact ⟨_, rfl, (get_stats_vfe_keeps _ _ _ _ _ _).2.2.2.2, (get_stats_vfe_keeps _ _ _ _ _ _).1⟩

/-! ## C12: the pending predicate of the message queue -/

/-- C12: `msm_stats_pending` is true exactly when the message queue is non-empty and
the tag of its first entry is one of `MSM_CAM_Q_CTRL`, `MSM_CAM_Q_VFE_EVT`,
`MSM_CAM_Q_VFE_MSG`, `MSM_CAM_Q_V4L2_REQ` (it only reads the device).  And when,
on an empty message queue, `msm_vfe_sync` pushes an entry tagged event and
`msm_control` then pushes its command entry, the queue holds these two entries in
this order, `msm_stats_pending` is true, and the next `msm_get_stats` call
unlinks the event entry, leaving the command entry queued. -/
theorem C12_stats_pending (msm : msm_device_t) :
    (msm_stats_pending msm = true ↔
      ∃ qcmd rest, msm.msg_event_queue = qcmd :: rest ∧
        (qcmd.type = .MSM_CAM_Q_CTRL ∨ qcmd.type = .MSM_CAM_Q_VFE_EVT ∨
         qcmd.type = .MSM_CAM_Q_VFE_MSG ∨ qcmd.type = .MSM_CAM_Q_V4L2_REQ)) ∧
    (∀ (vdata : msm_vfe_resp_t) (venv : vfe_sync_env) (ctrlcmd_t : msm_ctrl_cmd_t)
        (cenv : msm_control_env) (r : msm_control_result) (se : msm_stats_event_ctrl)
        (genv : get_stats_env),
      msm.msg_event_queue = [] →
      venv.kmalloc_qcmd_ok = true →
      cenv.copy_from_user_arg_ok = true → cenv.kmalloc_ctrlcmd_ok = true →
      cenv.kmalloc_value_ok = true → cenv.copy_from_user_value_ok = true →
      cenv.kmalloc_qcmd_ok = true →
      msm_control ctrlcmd_t cenv (msm_vfe_sync vdata .MSM_CAM_Q_VFE_EVT venv msm) = some r →
      genv.copy_from_user_se_ok = true →
      r.msm.msg_event_queue =
        [{ type := .MSM_CAM_Q_VFE_EVT, command := .vfe_resp vdata },
         msm_control_request ctrlcmd_t cenv] ∧
      msm_stats_pending r.msm = true ∧
      ∃ g, msm_get_stats se genv r.msm = some g ∧
        g.dequeued = some { type := .MSM_CAM_Q_VFE_EVT, command := .vfe_resp vdata } ∧
        g.msm.msg_event_queue = [msm_control_request ctrlcmd_t cenv]) := by
  constructor
  · unfold msm_stats_pending
    cases hq : msm.msg_event_queue with
    | nil => simp [stats_pending_of]
    | cons qcmd rest => simp [stats_pending_of]
  · intro vdata venv ctrlcmd_t cenv r se genv hempty hv h1 h2 h3 h4 h5 hr hg
    have hpush := msm_control_pushes_request ctrlcmd_t cenv _ r h1 h2 h3 h4 h5 hr
    have hsync : (msm_vfe_sync vdata .MSM_CAM_Q_VFE_EVT venv msm).msg_event_queue
        = [{ type := .MSM_CAM_Q_VFE_EVT, command := .vfe_resp vdata }] := by
      simp [msm_vfe_sync, hv, hempty]
    rw [hsync] at hpush
    have hq : r.msm.msg_event_queue =
        { type := .MSM_CAM_Q_VFE_EVT, command := .vfe_resp vdata } ::
          [msm_control_request ctrlcmd_t cenv] := by
      rw [hpush]; rfl
    refine ⟨hq, ?_, ?_⟩
    · unfold msm_stats_pending
      rw [hq]
      simp [stats_pending_of]
    · exact msm_get_stats_vfe_head se genv r.msm _ _ vdata hq hg (Or.inl rfl) rfl

/-- Witness for C12: starting from `two_responses_queued`, whose message queue is
empty, `sample_event` is pushed tagged event and `sample_request` is pushed by
`msm_control`. -/
theorem C12_stats_pending_witness :
    event_then_command.msm.msg_event_queue =
      [{ type := .MSM_CAM_Q_VFE_EVT, command := .vfe_resp sample_event },
       msm_control_request sample_request msm_control_env_ok] ∧
    msm_stats_pending event_then_command.msm = true ∧
    ∃ g, msm_get_stats sample_se get_stats_env_ok event_then_command.msm = some g ∧
      g.dequeued = some { type := .MSM_CAM_Q_VFE_EVT, command := .vfe_resp sample_event } ∧
      g.msm.msg_event_queue = [msm_control_request sample_request msm_control_env_ok] :=
  (C12_stats_pending two_responses_queued).2 sample_event vfe_sync_env_ok sample_request
    msm_control_env_ok event_then_command sample_se get_stats_env_ok rfl rfl rfl rfl rfl rfl rfl
    (by decide) rfl

/-! ## Open and release: the cases -/

theorem __msm_open_first (env : msm_open_env) (msm : msm_device_t) (h0 : msm.opencnt = 0)
    (hc : open_checks_pass env) (hi : open_init_succeeds env) :
    __msm_open env msm =
      { rc := env.s_init_rc,
        msm := { msm with opencnt := 1, wake_locked := true, vfefn := env.fn_table,
                          sync := { frame := [], stats := [] } },
        calls := [.msm_camvfe_check, .wake_lock, .msm_camvfe_fn_init, .vfe_init, .s_init] } := by
  obtain ⟨hc1, hc2⟩ := hc
  obtain ⟨hi1, hi2, hi3⟩ := hi
  have n1 : ¬ env.camvfe_check_rc < 0 := by omega
  have n2 : ¬ env.vfe_init_rc < 0 := by omega
  have n3 : ¬ env.s_init_rc < 0 := by omega
  simp [__msm_open, n1, n2, n3, hc2, hi1, h0]

theorem __msm_open_next (env : msm_open_env) (msm : msm_device_t) (h1 : 1 ≤ msm.opencnt)
    (h3 : msm.opencnt ≤ 3) (hc : open_checks_pass env) :
    __msm_open env msm =
      { rc := 0, msm := { msm with opencnt := msm.opencnt + 1 },
        calls := [.msm_camvfe_check] } := by
  obtain ⟨hc1, hc2⟩ := hc
  have n1 : ¬ env.camvfe_check_rc < 0 := by omega
  have n2 : ¬ msm.opencnt > 3 := by omega
  have n3 : ¬ msm.opencnt + 1 = 1 := by omega
  have n4 : msm.opencnt + 1 > 1 := by omega
  simp [__msm_open, n1, n2, n3, n4, hc2]

theorem __msm_open_full (env : msm_open_env) (msm : msm_device_t) (h : msm.opencnt > 3)
    (hc : open_checks_pass env) :
    __msm_open env msm = { rc := -EFAULT, msm := msm, calls := [.msm_camvfe_check] } := by
  obtain ⟨hc1, hc2⟩ := hc
  have n1 : ¬ env.camvfe_check_rc < 0 := by omega
  simp [__msm_open, n1, h, hc2]

theorem msm_release_not_last (pmsm : msm_device_t) (h : pmsm.opencnt ≠ 1) :
    msm_release pmsm =
      { rc := 0, msm := { pmsm with opencnt := pmsm.opencnt - 1 }, calls := [] } := by
  have n : ¬ pmsm.opencnt - 1 = 0 := by omega
  simp [msm_release, n]

theorem drain_ctrl_status_queue_nil (l : List msm_queue_cmd_t) :
    drain_ctrl_status_queue l = [] := by
  induction l with
  | nil => rfl
  | cons qcmd rest ih => simp [drain_ctrl_status_queue, ih]

theorem drain_prev_frame_q_nil (l : List msm_queue_cmd_t) : drain_prev_frame_q l = [] := by
  induction l with
  | nil => rfl
  | cons qcmd rest ih => simp [drain_prev_frame_q, frame_pending_of, ih]

/-- What the last close does: both region lists, the control-status queue and the
previous-frame queue are empty afterwards and the crop length is 0; the message
and picture queues are drained only as far as their pending predicates allow. -/
theorem msm_release_last (pmsm : msm_device_t) (h : pmsm.opencnt = 1) :
    (msm_release pmsm).rc = 0 ∧
    (msm_release pmsm).msm.opencnt = 0 ∧
    (msm_release pmsm).msm.sync = empty_sync ∧
    (msm_release pmsm).msm.croplen = 0 ∧
    (msm_release pmsm).msm.ctrl_status_queue = [] ∧
    (msm_release pmsm).msm.prev_frame_q = [] ∧
    (msm_release pmsm).msm.msg_event_queue = drain_msg_event_queue pmsm.msg_event_queue ∧
    (msm_release pmsm).msm.pict_frame_q = drain_pict_frame_q pmsm.pict_frame_q := by
  have n : pmsm.opencnt - 1 = 0 := by omega
  simp [msm_release, n, empty_sync, drain_ctrl_status_queue_nil, drain_prev_frame_q_nil]

/-! ## C14: at most four openers -/

/-- C14: from a device with open count 0, four `__msm_open` calls whose checks pass
(and whose initialisation succeeds on the first) succeed, taking the count to 1,
2, 3, 4; a fifth call fails with the code for too many openers (`-EFAULT` here)
and leaves the device unchanged.  In general a call whose checks pass fails that
way whenever the count is above 3 and otherwise raises the count by one, so a
count of at most 4 stays at most 4.  From count 4, four `msm_release` calls
return 0 and take the count back to 0, leaving both region lists empty. -/
theorem C14_open_four_then_close :
    (∀ (msm m1 m2 m3 m4 : msm_device_t) (e1 e2 e3 e4 e5 : msm_open_env),
      msm.opencnt = 0 → open_checks_pass e1 → open_init_succeeds e1 →
      open_checks_pass e2 → open_checks_pass e3 → open_checks_pass e4 → open_checks_pass e5 →
      m1 = (__msm_open e1 msm).msm → m2 = (__msm_open e2 m1).msm →
      m3 = (__msm_open e3 m2).msm → m4 = (__msm_open e4 m3).msm →
      0 ≤ (__msm_open e1 msm).rc ∧ m1.opencnt = 1 ∧
      (__msm_open e2 m1).rc = 0 ∧ m2.opencnt = 2 ∧
      (__msm_open e3 m2).rc = 0 ∧ m3.opencnt = 3 ∧
      (__msm_open e4 m3).rc = 0 ∧ m4.opencnt = 4 ∧
      (__msm_open e5 m4).rc = -EFAULT ∧ (__msm_open e5 m4).msm = m4) ∧
    (∀ (env : msm_open_env) (msm : msm_device_t), open_checks_pass env →
      (msm.opencnt > 3 → (__msm_open env msm).rc = -EFAULT ∧ (__msm_open env msm).msm = msm) ∧
      (msm.opencnt ≤ 3 → (__msm_open env msm).msm.opencnt = msm.opencnt + 1) ∧
      (msm.opencnt ≤ 4 → (__msm_open env msm).msm.opencnt ≤ 4)) ∧
    (∀ (m4 m3 m2 m1 m0 : msm_device_t), m4.opencnt = 4 →
      m3 = (msm_release m4).msm → m2 = (msm_release m3).msm →
      m1 = (msm_release m2).msm → m0 = (msm_release m1).msm →
      (msm_release m4).rc = 0 ∧ (msm_release m3).rc = 0 ∧ (msm_release m2).rc = 0 ∧
      (msm_release m1).rc = 0 ∧
      m3.opencnt = 3 ∧ m2.opencnt = 2 ∧ m1.opencnt = 1 ∧ m0.opencnt = 0 ∧
      m0.sync = empty_sync) := by
  refine ⟨?_, ?_, ?_⟩
  · intro msm m1 m2 m3 m4 e1 e2 e3 e4 e5 h0 c1 i1 c2 c3 c4 c5 hm1 hm2 hm3 hm4
    have o1 := __msm_open_first e1 msm h0 c1 i1
    rw [o1] at hm1
    have k1 : m1.opencnt = 1 := by rw [hm1]
    have o2 := __msm_open_next e2 m1 (by omega) (by omega) c2
    rw [o2] at hm2
    have k2 : m2.opencnt = 2 := by rw [hm2]; simp [k1]
    have o3 := __msm_open_next e3 m2 (by omega) (by omega) c3
    rw [o3] at hm3
    have k3 : m3.opencnt = 3 := by rw [hm3]; simp [k2]
    have o4 := __msm_open_next e4 m3 (by omega) (by omega) c4
    rw [o4] at hm4
    have k4 : m4.opencnt = 4 := by rw [hm4]; simp [k3]
    have o5 := __msm_open_full e5 m4 (by omega) c5
    rw [o1, o2, o3, o4, o5]
    exact ⟨i1.2.2, k1, rfl, k2, rfl, k3, rfl, k4, rfl, rfl⟩
  · intro env msm hc
    refine ⟨?_, ?_, ?_⟩
    · intro h
      rw [__msm_open_full env msm h hc]
      exact ⟨rfl, rfl⟩
    · intro h
      obtain ⟨hc1, hc2⟩ := hc
      have n1 : ¬ env.camvfe_check_rc < 0 := by omega
      have n2 : ¬ msm.opencnt > 3 := by omega
      simp only [__msm_open, n1, n2, hc2, Bool.not_true, Bool.false_eq_true, if_false]
      split_ifs <;> rfl
    · intro h
      by_cases h3 : msm.opencnt > 3
      · rw [__msm_open_full env msm h3 hc]; exact h
      · obtain ⟨hc1, hc2⟩ := hc
        have n1 : ¬ env.camvfe_check_rc < 0 := by omega
        have hle : msm.opencnt + 1 ≤ 4 := by omega
        simp only [__msm_open, n1, h3, hc2, Bool.not_true, Bool.false_eq_true, if_false]
        split_ifs <;> exact hle
  · intro m4 m3 m2 m1 m0 h4 hm3 hm2 hm1 hm0
    have r4 := msm_release_not_last m4 (by omega)
    rw [r4] at hm3
    have k3 : m3.opencnt = 3 := by rw [hm3]; simp [h4]
    have r3 := msm_release_not_last m3 (by omega)
    rw [r3] at hm2
    have k2 : m2.opencnt = 2 := by rw [hm2]; simp [k3]
    have r2 := msm_release_not_last m2 (by omega)
    rw [r2] at hm1
    have k1 : m1.opencnt = 1 := by rw [hm1]; simp [k2]
    obtain ⟨l1, l2, l3, _⟩ := msm_release_last m1 k1
    rw [r4, r3, r2, hm0]
    exact ⟨rfl, rfl, rfl, l1, k3, k2, k1, l2, l3⟩

/-- Witness for C14: five opens with `open_env_ok` from the device
`msm_camera_drv_start` sets up; four succeed, the fifth fails with `-EFAULT`. -/
theorem C14_open_four_then_close_witness :
    0 ≤ (__msm_open open_env_ok msm_camera_drv_start_device).rc ∧ opened_once.opencnt = 1 ∧
    (__msm_open open_env_ok opened_once).rc = 0 ∧ opened_twice.opencnt = 2 ∧
    (__msm_open open_env_ok opened_twice).rc = 0 ∧ opened_three_times.opencnt = 3 ∧
    (__msm_open open_env_ok opened_three_times).rc = 0 ∧ opened_four_times.opencnt = 4 ∧
    (__msm_open open_env_ok opened_four_times).rc = -EFAULT ∧
    (__msm_open open_env_ok opened_four_times).msm = opened_four_times :=
  C14_open_four_then_close.1 msm_camera_drv_start_device opened_once opened_twice
    opened_three_times opened_four_times open_env_ok open_env_ok open_env_ok open_env_ok
    open_env_ok rfl (by decide) (by decide) (by decide) (by decide) (by decide) (by decide)
    rfl rfl rfl rfl

/-! ## C15: a failed first open -/

/-- C15 (the code at the failing input): on the device `msm_camera_drv_start` sets
up (open count 0), an open whose `vfe_init` fails with `-EIO` returns `-EIO`, but
the open count is 1 afterwards, not 0; the next open, in an environment where
everything would succeed, returns 0 with open count 2 and calls neither
`vfe_init` nor the sensor init. -/
theorem C15_failed_first_open_keeps_count :
    msm_camera_drv_start_device.opencnt = 0 ∧
    (__msm_open open_env_vfe_init_fails msm_camera_drv_start_device).rc = - EIO ∧
    (__msm_open open_env_vfe_init_fails msm_camera_drv_start_device).msm.opencnt = 1 ∧
    (__msm_open open_env_ok
      (__msm_open open_env_vfe_init_fails msm_camera_drv_start_device).msm).rc = 0 ∧
    (__msm_open open_env_ok
      (__msm_open open_env_vfe_init_fails msm_camera_drv_start_device).msm).msm.opencnt = 2 ∧
    (__msm_open open_env_ok
      (__msm_open open_env_vfe_init_fails msm_camera_drv_start_device).msm).calls
      = [.msm_camvfe_check] := by
  decide

/-! ## C16: init on the first open, release on the last close -/

/-- C16 (as stated, refuted): an open whose function table has an init function but
no release function succeeds and takes the count from 0 to 1; the close that
takes the count back to 0 calls the sensor release but not `vfe_release`. -/
theorem C16_close_without_vfe_release :
    (__msm_open open_env_no_vfe_release msm_camera_drv_start_device).rc = 0 ∧
    hw_call.vfe_init ∈ (__msm_open open_env_no_vfe_release msm_camera_drv_start_device).calls ∧
    opened_without_release.opencnt = 1 ∧
    (msm_release opened_without_release).msm.opencnt = 0 ∧
    hw_call.s_release ∈ (msm_release opened_without_release).calls ∧
    hw_call.vfe_release ∉ (msm_release opened_without_release).calls := by
  decide

/-- C16 (amended): a successful `__msm_open` (non-negative return code) calls `vfe_init` and
the sensor init exactly when it takes the open count from 0 to 1; `msm_release`
calls the sensor release exactly when it takes the count from 1 to 0, and
`vfe_release` exactly then too provided the function table has one; and an open
at a count from 1 to 3 whose checks pass returns 0 and changes nothing but the
count (region lists, the four queues, crop data and the post-processing flag stay
as they are). -/
theorem C16_init_and_release_once :
    (∀ (env : msm_open_env) (msm : msm_device_t), 0 ≤ (__msm_open env msm).rc →
      (hw_call.vfe_init ∈ (__msm_open env msm).calls ↔ msm.opencnt = 0) ∧
      (hw_call.s_init ∈ (__msm_open env msm).calls ↔ msm.opencnt = 0) ∧
      (msm.opencnt = 0 → (__msm_open env msm).msm.opencnt = 1)) ∧
    (∀ (pmsm : msm_device_t),
      (hw_call.s_release ∈ (msm_release pmsm).calls ↔ pmsm.opencnt = 1) ∧
      (hw_call.vfe_release ∈ (msm_release pmsm).calls ↔
        pmsm.opencnt = 1 ∧ pmsm.vfefn.vfe_release = true) ∧
      (pmsm.opencnt = 1 → (msm_release pmsm).msm.opencnt = 0)) ∧
    (∀ (env : msm_open_env) (msm : msm_device_t), open_checks_pass env →
      1 ≤ msm.opencnt → msm.opencnt < 4 →
      __msm_open env msm =
        { rc := 0, msm := { msm with opencnt := msm.opencnt + 1 },
          calls := [.msm_camvfe_check] }) := by
  refine ⟨?_, ?_, ?_⟩
  · intro env msm hrc
    by_cases h0 : msm.opencnt = 0
    · simp only [h0, iff_true, forall_const]
      unfold __msm_open at hrc ⊢
      simp only [h0] at hrc ⊢
      split_ifs at hrc ⊢ <;> simp_all [ENODEV, EFAULT] <;> omega
    · simp only [h0, iff_false, false_implies, and_true]
      unfold __msm_open
      have n : ¬ msm.opencnt + 1 = 1 := by omega
      simp only [n, if_false]
      split_ifs <;> simp
  · intro pmsm
    by_cases h1 : pmsm.opencnt = 1
    · have n : pmsm.opencnt - 1 = 0 := by omega
      simp [msm_release, n, h1]
    · have n : ¬ pmsm.opencnt - 1 = 0 := by omega
      simp [msm_release, n, h1]
  · intro env msm hc h1 h4
    exact __msm_open_next env msm h1 (by omega) hc

/-- Witness for C16: the first open of `msm_camera_drv_start_device` calls both init
functions, the second open calls neither and changes only the count, the closes
of `opened_twice` and `opened_once` call the sensor release on the last one
only, and `vfe_release` is called on the last close when the table has it
(`opened_once`) and not when it lacks it (`opened_without_release`). -/
theorem C16_init_and_release_once_witness :
    (0 : Int) ≤ (__msm_open open_env_ok msm_camera_drv_start_device).rc ∧
    (hw_call.vfe_init ∈ (__msm_open open_env_ok msm_camera_drv_start_device).calls ↔
      msm_camera_drv_start_device.opencnt = 0) ∧
    (hw_call.s_release ∈ (msm_release opened_twice).calls ↔ opened_twice.opencnt = 1) ∧
    (hw_call.s_release ∈ (msm_release opened_once).calls ↔ opened_once.opencnt = 1) ∧
    (hw_call.vfe_release ∈ (msm_release opened_once).calls ↔
      opened_once.opencnt = 1 ∧ opened_once.vfefn.vfe_release = true) ∧
    (hw_call.vfe_release ∈ (msm_release opened_without_release).calls ↔
      opened_without_release.opencnt = 1 ∧
      opened_without_release.vfefn.vfe_release = true) ∧
    __msm_open open_env_ok opened_once =
      { rc := 0, msm := { opened_once with opencnt := opened_once.opencnt + 1 },
        calls := [.msm_camvfe_check] } :=
  ⟨by decide,
   (C16_init_and_release_once.1 open_env_ok msm_camera_drv_start_device (by decide)).1,
   (C16_init_and_release_once.2.1 opened_twice).1,
   (C16_init_and_release_once.2.1 opened_once).1,
   (C16_init_and_release_once.2.1 opened_once).2.1,
   (C16_init_and_release_once.2.1 opened_without_release).2.1,
   C16_init_and_release_once.2.2 open_env_ok opened_once (by decide) (by decide) (by decide)⟩

/-! ## The drain of the message queue stops at an unknown tag -/

/-- Outside the protocol: `untagged_entry_queued`, built by a `msm_vfe_sync` call
whose `qtype` is neither event nor message, has open count 1 and a message queue
holding one entry whose tag is none of the four kinds.  `msm_release` takes the
count to 0 and empties the region lists, yet the message queue still holds that
entry: its drain loop runs only while `msm_stats_pending` is true. -/
theorem release_leaves_untagged_entry :
    untagged_entry_queued.opencnt = 1 ∧
    (msm_release untagged_entry_queued).msm.opencnt = 0 ∧
    (msm_release untagged_entry_queued).msm.sync = empty_sync ∧
    (msm_release untagged_entry_queued).msm.msg_event_queue =
      [{ type := .other 0, command := .vfe_resp sample_event }] ∧
    (msm_release untagged_entry_queued).msm.msg_event_queue ≠ [] := by
  decide

/-! ## C18: the control round trip -/

/-- C18: (1) with every copy and allocation succeeding, `msm_ctrl_cmd_done` returns
0 and appends to the control-status queue one entry whose payload carries the
caller's opcode, status and length and the first `length` bytes of the caller's
buffer.  (2) When the first entry of the control-status queue is such a
response, a `msm_control` call (copies and allocations succeeding) finds its
wait condition true, returns a non-negative code (0 after the interruptible
wait, the remaining time after the timed wait), unlinks exactly that entry,
leaving the rest of the queue in order, copies the response's opcode, status and
length into the structure handed back through `arg`, and copies the response's
payload bytes to the caller's value buffer (no bytes when the length is 0). -/
theorem C18_control_round_trip :
    (∀ (msm : msm_device_t) (resp : msm_ctrl_cmd_t) (denv : ctrl_cmd_done_env),
      denv.copy_from_user_arg_ok = true → denv.kzalloc_ctrlcmd_ok = true →
      denv.kmalloc_value_ok = true → denv.copy_from_user_value_ok = true →
      denv.kmalloc_qcmd_ok = true →
      msm_ctrl_cmd_done resp denv msm =
        (0, { msm with ctrl_status_queue := msm.ctrl_status_queue ++
                [{ type := denv.uninit_type, command := .ctrl (ctrl_cmd_done_command resp) }] }) ∧
      (ctrl_cmd_done_command resp).type = resp.type ∧
      (ctrl_cmd_done_command resp).status = resp.status ∧
      (ctrl_cmd_done_command resp).length = resp.length ∧
      (ctrl_cmd_done_command resp).value =
        (if resp.length > 0 then resp.value.take resp.length else [])) ∧
    (∀ (msm : msm_device_t) (ctrlcmd_t : msm_ctrl_cmd_t) (env : msm_control_env)
        (resp : msm_ctrl_cmd_t) (ty : msm_queut_t) (rest : List msm_queue_cmd_t),
      msm.ctrl_status_queue =
        { type := ty, command := .ctrl (ctrl_cmd_done_command resp) } :: rest →
      env.copy_from_user_arg_ok = true → env.kmalloc_ctrlcmd_ok = true →
      env.kmalloc_value_ok = true → env.copy_from_user_value_ok = true →
      env.kmalloc_qcmd_ok = true → env.copy_to_user_value_ok = true →
      env.copy_to_user_arg_ok = true →
      ∃ r, msm_control ctrlcmd_t env msm = some r ∧
        0 ≤ r.rc ∧
        r.rc = (if ctrlcmd_t.timeout_ms > 0 then ((max env.jiffies_left 1 : Nat) : Int) else 0) ∧
        r.dequeued = some { type := ty, command := .ctrl (ctrl_cmd_done_command resp) } ∧
        r.msm.ctrl_status_queue = rest ∧
        r.arg_out = some { ctrlcmd_t with type := resp.type, length := resp.length,
                                          status := resp.status } ∧
        r.value_out =
          (if resp.length > 0 then some (ctrl_cmd_done_command resp).value else none)) := by
  constructor
  · intro msm resp denv h1 h2 h3 h4 h5
    refine ⟨?_, rfl, rfl, rfl, rfl⟩
    simp [msm_ctrl_cmd_done, h1, h2, h3, h4, h5]
  · intro msm ctrlcmd_t env resp ty rest hq h1 h2 h3 h4 h5 h6 h7
    have hpend : msm_ctrl_stats_pending
        { msm with msg_event_queue :=
            msm.msg_event_queue ++ [msm_control_request ctrlcmd_t env] } = true := by
      simp [msm_ctrl_stats_pending, hq]
    obtain ⟨hw1, hw2, hw3⟩ := wait_succeeds ctrlcmd_t.timeout_ms env.jiffies_left
    unfold msm_control
    simp only [h1, h2, h3, h4, h5, Bool.not_true, Bool.false_eq_true, if_false, hpend,
      hw1, hw2]
    simp only [hq]
    unfold msm_control_deliver
    simp only [h6, h7, Bool.not_true, Bool.false_eq_true, if_false]
    by_cases hlen : resp.length > 0
    · have hl : (ctrl_cmd_done_command resp).length > 0 := hlen
      simp only [hl, if_true]
      refine ⟨_, rfl, hw3, ?_, rfl, rfl, rfl, ?_⟩
      · by_cases ht : ctrlcmd_t.timeout_ms > 0 <;>
          simp [ht, wait_event_timeout, wait_event_interruptible]
      · simp [hlen, ctrl_cmd_done_command, List.take_take]
    · have hl : ¬ (ctrl_cmd_done_command resp).length > 0 := hlen
      simp only [hl, if_false]
      refine ⟨_, rfl, hw3, ?_, rfl, rfl, rfl, ?_⟩
      · by_cases ht : ctrlcmd_t.timeout_ms > 0 <;>
          simp [ht, wait_event_timeout, wait_event_interruptible]
      · simp [hlen]

/-- Witness for C18: `msm_ctrl_cmd_done` queues `sample_response_1` on the device
`msm_camera_drv_start` sets up; on `two_responses_queued`, whose first response is
that one, `msm_control` hands back opcode 1, status 0, length 2 and the bytes
0xAA, 0xBB. -/
theorem C18_control_round_trip_witness :
    (msm_ctrl_cmd_done sample_response_1 ctrl_cmd_done_env_ok msm_camera_drv_start_device).1 = 0 ∧
    ∃ r, msm_control sample_request msm_control_env_ok two_responses_queued = some r ∧
      0 ≤ r.rc ∧
      r.rc = (if sample_request.timeout_ms > 0
              then ((max msm_control_env_ok.jiffies_left 1 : Nat) : Int) else 0) ∧
      r.dequeued = some sample_entry_1 ∧
      r.msm.ctrl_status_queue = [sample_entry_2] ∧
      r.arg_out = some { sample_request with type := 1, length := 2, status := 0 } ∧
      r.value_out = (if sample_response_1.length > 0
                     then some (ctrl_cmd_done_command sample_response_1).value else none) :=
  ⟨by rw [(C18_control_round_trip.1 msm_camera_drv_start_device sample_response_1
      ctrl_cmd_done_env_ok rfl rfl rfl rfl rfl).1],
   C18_control_round_trip.2 two_responses_queued sample_request msm_control_env_ok
     sample_response_1 (.other 0) [sample_entry_2] (by decide) rfl rfl rfl rfl rfl rfl rfl⟩

/-! ## C19: a timed wait without a response -/

/-- C19: when the timeout is positive and the control-status queue is empty,
`msm_control` (its copies and allocations succeeding) and `__msm_control` (its
allocation succeeding) return `-ETIMEDOUT`; nothing is unlinked, nothing is
handed back to the caller, and the control-status queue is still empty.  The
only change to the device is the request entry appended to the message queue. -/
theorem C19_timed_wait_times_out :
    (∀ (ctrlcmd_t : msm_ctrl_cmd_t) (env : msm_control_env) (msm : msm_device_t),
      ctrlcmd_t.timeout_ms > 0 → msm.ctrl_status_queue = [] →
      env.copy_from_user_arg_ok = true → env.kmalloc_ctrlcmd_ok = true →
      env.kmalloc_value_ok = true → env.copy_from_user_value_ok = true →
      env.kmalloc_qcmd_ok = true →
      msm_control ctrlcmd_t env msm =
        some { rc := -ETIMEDOUT,
               msm := { msm with msg_event_queue :=
                          msm.msg_event_queue ++ [msm_control_request ctrlcmd_t env] },
               value_out := none, arg_out := none, dequeued := none } ∧
      ∀ r, msm_control ctrlcmd_t env msm = some r → r.msm.ctrl_status_queue = []) ∧
    (∀ (ctrlcmd : msm_ctrl_cmd_t) (env : msm_control_kernel_env) (vmsm : msm_device_t),
      ctrlcmd.timeout_ms > 0 → vmsm.ctrl_status_queue = [] →
      env.kmalloc_qcmd_ok = true →
      __msm_control ctrlcmd env vmsm =
        some { rc := -ETIMEDOUT,
               msm := { vmsm with msg_event_queue := vmsm.msg_event_queue ++
                          [{ type := .MSM_CAM_Q_V4L2_REQ, command := .ctrl ctrlcmd }] },
               value_out := none, dequeued := none } ∧
      ∀ r, __msm_control ctrlcmd env vmsm = some r → r.msm.ctrl_status_queue = []) := by
  constructor
  · intro ctrlcmd_t env msm ht hq h1 h2 h3 h4 h5
    have heq : msm_control ctrlcmd_t env msm =
        some { rc := -ETIMEDOUT,
               msm := { msm with msg_event_queue :=
                          msm.msg_event_queue ++ [msm_control_request ctrlcmd_t env] },
               value_out := none, arg_out := none, dequeued := none } := by
      simp [msm_control, h1, h2, h3, h4, h5, ht, msm_ctrl_stats_pending, hq,
        wait_event_timeout]
    refine ⟨heq, ?_⟩
    intro r hr
    rw [heq] at hr
    cases hr
    exact hq
  · intro ctrlcmd env vmsm ht hq h1
    have heq : __msm_control ctrlcmd env vmsm =
        some { rc := -ETIMEDOUT,
               msm := { vmsm with msg_event_queue := vmsm.msg_event_queue ++
                          [{ type := .MSM_CAM_Q_V4L2_REQ, command := .ctrl ctrlcmd }] },
               value_out := none, dequeued := none } := by
      simp [__msm_control, h1, ht, msm_ctrl_stats_pending, hq, wait_event_timeout]
    refine ⟨heq, ?_⟩
    intro r hr
    rw [heq] at hr
    cases hr
    exact hq

/-- Witness for C19: `sample_request` (timeout 100 ms) on the device
`msm_camera_drv_start` sets up, whose control-status queue is empty. -/
theorem C19_timed_wait_times_out_witness :
    (msm_control sample_request msm_control_env_ok msm_camera_drv_start_device).map
        (fun r => (r.rc, r.dequeued, r.msm.ctrl_status_queue))
      = some (-ETIMEDOUT, none, []) ∧
    (__msm_control sample_request { kmalloc_qcmd_ok := true, jiffies_left := 5 }
        msm_camera_drv_start_device).map
        (fun r => (r.rc, r.dequeued, r.msm.ctrl_status_queue))
      = some (-ETIMEDOUT, none, []) :=
  ⟨by rw [(C19_timed_wait_times_out.1 sample_request msm_control_env_ok
      msm_camera_drv_start_device (by decide) rfl rfl rfl rfl rfl rfl).1]; rfl,
   by rw [(C19_timed_wait_times_out.2 sample_request { kmalloc_qcmd_ok := true, jiffies_left := 5 }
      msm_camera_drv_start_device (by decide) rfl rfl).1]; rfl⟩

/-! ## C20: a response without payload -/

/-- The value buffer `msm_control_deliver` writes, when it writes one, holds the
first `length` bytes of the delivered response. -/
theorem msm_control_deliver_value (ctrlcmd_t : msm_ctrl_cmd_t) (env : msm_control_env)
    (rc : Int) (msm : msm_device_t) (qcmd : msm_queue_cmd_t)
    (dequeued : Option msm_queue_cmd_t) (c : msm_ctrl_cmd_t) (r : msm_control_result)
    (bytes : List Nat) (hc : qcmd.command = .ctrl c)
    (h : msm_control_deliver ctrlcmd_t env rc msm qcmd dequeued = some r)
    (hv : r.value_out = some bytes) : bytes = c.value.take c.length := by
  unfold msm_control_deliver at h
  rw [hc] at h
  simp only at h
  split_ifs at h <;> cases h <;> simp_all

/-- C21: the request `sample_short_request` declares a value buffer of 2 bytes; the
response at the head of the control-status queue, queued by `msm_ctrl_cmd_done`,
has length 4.  `msm_control` and `__msm_control` both write 4 bytes to the
2-byte buffer, so the bound by the requested length does not hold. -/
theorem C21_copies_more_than_requested :
    sample_short_request.length = 2 ∧
    long_response_queued.ctrl_status_queue = [sample_long_entry] ∧
    (msm_control sample_short_request msm_control_env_ok long_response_queued).map
        (fun r => r.value_out.map List.length) = some (some 4) ∧
    (__msm_control sample_short_request { kmalloc_qcmd_ok := true, jiffies_left := 5 }
        long_response_queued).map (fun r => r.value_out.map List.length) = some (some 4) ∧
    ¬ (∀ (ctrlcmd_t : msm_ctrl_cmd_t) (env : msm_control_env) (msm : msm_device_t)
        (r : msm_control_result) (bytes : List Nat),
        msm_control ctrlcmd_t env msm = some r → r.value_out = some bytes →
        bytes.length ≤ ctrlcmd_t.length) := by
  refine ⟨by decide, by decide, by decide, by decide, ?_⟩
  intro h
  have h2 := h sample_short_request msm_control_env_ok long_response_queued
    ((msm_control sample_short_request msm_control_env_ok long_response_queued).get
      (by decide)) [1, 2, 3, 4] (by decide) (by decide)
  exact absurd h2 (by decide)

/-- When the head of the control-status queue is a response `c`, the bytes
`msm_control` and `__msm_control` write to the caller's value buffer are the
first `c.length` bytes of the response's payload, whatever length the request
declared.  With its copies and allocations succeeding, `msm_control` makes that
copy whenever `c.length > 0`, and `__msm_control` (its allocation succeeding)
always. -/
theorem control_copy_back_is_response_length (msm : msm_device_t) (head : msm_queue_cmd_t)
    (rest : List msm_queue_cmd_t) (c : msm_ctrl_cmd_t)
    (hq : msm.ctrl_status_queue = head :: rest) (hc : head.command = .ctrl c) :
    (∀ (ctrlcmd_t : msm_ctrl_cmd_t) (env : msm_control_env) (r : msm_control_result)
        (bytes : List Nat),
      msm_control ctrlcmd_t env msm = some r → r.value_out = some bytes →
      bytes = c.value.take c.length ∧ bytes.length ≤ c.length ∧
      (c.value.length = c.length → bytes.length = c.length)) ∧
    (∀ (ctrlcmd_t : msm_ctrl_cmd_t) (env : msm_control_env),
      env.copy_from_user_arg_ok = true → env.kmalloc_ctrlcmd_ok = true →
      env.kmalloc_value_ok = true → env.copy_from_user_value_ok = true →
      env.kmalloc_qcmd_ok = true → env.copy_to_user_value_ok = true →
      env.copy_to_user_arg_ok = true → 0 < c.length →
      ∃ r, msm_control ctrlcmd_t env msm = some r ∧ 0 ≤ r.rc ∧
        r.value_out = some (c.value.take c.length)) ∧
    (∀ (ctrlcmd : msm_ctrl_cmd_t) (env : msm_control_kernel_env)
        (r : msm_control_kernel_result) (bytes : List Nat),
      __msm_control ctrlcmd env msm = some r → r.value_out = some bytes →
      bytes = c.value.take c.length ∧ bytes.length ≤ c.length ∧
      (c.value.length = c.length → bytes.length = c.length)) ∧
    (∀ (ctrlcmd : msm_ctrl_cmd_t) (env : msm_control_kernel_env),
      env.kmalloc_qcmd_ok = true →
      ∃ r, __msm_control ctrlcmd env msm = some r ∧ 0 ≤ r.rc ∧
        r.value_out = some (c.value.take c.length)) := by
  have hlen : ∀ bytes : List Nat, bytes = c.value.take c.length →
      bytes = c.value.take c.length ∧ bytes.length ≤ c.length ∧
      (c.value.length = c.length → bytes.length = c.length) := by
    intro bytes hb
    subst hb
    refine ⟨rfl, by simp, ?_⟩
    intro hl
    simp [hl]
  refine ⟨?_, ?_, ?_, ?_⟩
  · intro ctrlcmd_t env r bytes h hv
    apply hlen
    have hpend : msm_ctrl_stats_pending
        { msm with msg_event_queue :=
            msm.msg_event_queue ++ [msm_control_request ctrlcmd_t env] } = true := by
      simp [msm_ctrl_stats_pending, hq]
    obtain ⟨hw1, hw2, _⟩ := wait_succeeds ctrlcmd_t.timeout_ms env.jiffies_left
    unfold msm_control at h
    simp only [hpend, hw1, hw2, if_false] at h
    simp only [hq] at h
    split_ifs at h
    · cases h; cases hv
    · cases h; cases hv
    · cases h; cases hv
    · cases h; cases hv
    · cases h; cases hv
    all_goals exact msm_control_deliver_value _ _ _ _ _ _ c r bytes hc h hv
  · intro ctrlcmd_t env h1 h2 h3 h4 h5 h6 h7 hpos
    have hpend : msm_ctrl_stats_pending
        { msm with msg_event_queue :=
            msm.msg_event_queue ++ [msm_control_request ctrlcmd_t env] } = true := by
      simp [msm_ctrl_stats_pending, hq]
    obtain ⟨hw1, hw2, hw3⟩ := wait_succeeds ctrlcmd_t.timeout_ms env.jiffies_left
    unfold msm_control
    simp only [h1, h2, h3, h4, h5, Bool.not_true, Bool.false_eq_true, if_false, hpend,
      hw1, hw2]
    simp only [hq]
    unfold msm_control_deliver
    rw [hc]
    simp only [h6, h7, Bool.not_true, Bool.false_eq_true, if_false, hpos, if_true]
    exact ⟨_, rfl, hw3, rfl⟩
  · intro ctrlcmd env r bytes h hv
    apply hlen
    have hpend : msm_ctrl_stats_pending
        { msm with msg_event_queue := msm.msg_event_queue ++
            [{ type := .MSM_CAM_Q_V4L2_REQ, command := .ctrl ctrlcmd }] } = true := by
      simp [msm_ctrl_stats_pending, hq]
    obtain ⟨hw1, hw2, _⟩ := wait_succeeds ctrlcmd.timeout_ms env.jiffies_left
    unfold __msm_control at h
    simp only [hpend, hw1, hw2, if_false] at h
    simp only [hq] at h
    rw [hc] at h
    split_ifs at h
    · cases h; cases hv
    all_goals
      cases h
      cases hv
      rfl
  · intro ctrlcmd env h1
    have hpend : msm_ctrl_stats_pending
        { msm with msg_event_queue := msm.msg_event_queue ++
            [{ type := .MSM_CAM_Q_V4L2_REQ, command := .ctrl ctrlcmd }] } = true := by
      simp [msm_ctrl_stats_pending, hq]
    obtain ⟨hw1, hw2, hw3⟩ := wait_succeeds ctrlcmd.timeout_ms env.jiffies_left
    unfold __msm_control
    simp only [h1, Bool.not_true, Bool.false_eq_true, if_false, hpend, hw1, hw2]
    simp only [hq]
    rw [hc]
    exact ⟨_, rfl, hw3, rfl⟩

/-! ## C22: `__msm_get_frame` -/

/-- C22: `__msm_get_frame`.  With an empty previous-frame queue it returns `-EAGAIN`
and hands back the device and the frame descriptor as they were.  With a
notification `(y_phy, cbcr_phy)` at the head it returns 0, unlinks exactly that
entry (the rest of the queue stays, in order, and the other queues and the
stats list are untouched), and the frame's buffer, y_off, cbcr_off and fd and
the registry are those of `msm_pmem_frame_ptov_lookup(y_phy, cbcr_phy)`: if no
active frame region matches, buffer 0, offsets and fd as they were, registry
unchanged; otherwise the values of the first matching active region, and that
region alone is marked inactive. -/
theorem C22_get_frame (frame : msm_frame_t) (msm : msm_device_t) :
    (msm.prev_frame_q = [] →
      __msm_get_frame frame msm =
        some { rc := -EAGAIN, frame := frame, msm := msm, dequeued := none }) ∧
    (∀ (qcmd : msm_queue_cmd_t) (rest : List msm_queue_cmd_t) (pphy : msm_vfe_phy_info),
      msm.prev_frame_q = qcmd :: rest → qcmd.command = .phy pphy →
      ∃ r, __msm_get_frame frame msm = some r ∧ r.rc = 0 ∧
        r.dequeued = some qcmd ∧
        r.frame =
          { frame with
            buffer := (msm_pmem_frame_ptov_lookup pphy.y_phy pphy.cbcr_phy frame.y_off
              frame.cbcr_off frame.fd msm.sync).1.rc,
            y_off := (msm_pmem_frame_ptov_lookup pphy.y_phy pphy.cbcr_phy frame.y_off
              frame.cbcr_off frame.fd msm.sync).1.yoff,
            cbcr_off := (msm_pmem_frame_ptov_lookup pphy.y_phy pphy.cbcr_phy frame.y_off
              frame.cbcr_off frame.fd msm.sync).1.cbcroff,
            fd := (msm_pmem_frame_ptov_lookup pphy.y_phy pphy.cbcr_phy frame.y_off
              frame.cbcr_off frame.fd msm.sync).1.fd } ∧
        r.msm =
          { msm with
            prev_frame_q := rest,
            sync := (msm_pmem_frame_ptov_lookup pphy.y_phy pphy.cbcr_phy frame.y_off
              frame.cbcr_off frame.fd msm.sync).2 } ∧
        r.msm.sync.stats = msm.sync.stats ∧
        ((∀ x ∈ msm.sync.frame, ¬ frame_ptov_match pphy.y_phy pphy.cbcr_phy x) →
          r.frame = { frame with buffer := 0 } ∧ r.msm.sync = msm.sync) ∧
        ((∃ x ∈ msm.sync.frame, frame_ptov_match pphy.y_phy pphy.cbcr_phy x) →
          ∃ pre region post, msm.sync.frame = pre ++ region :: post ∧
            (∀ x ∈ pre, ¬ frame_ptov_match pphy.y_phy pphy.cbcr_phy x) ∧
            frame_ptov_match pphy.y_phy pphy.cbcr_phy region ∧
            r.frame = { frame with buffer := region.vaddr, y_off := region.y_off,
                                   cbcr_off := region.cbcr_off, fd := region.fd } ∧
            r.msm.sync.frame = pre ++ { region with active := 0 } :: post)) := by
  constructor
  · intro hq
    simp only [__msm_get_frame, hq]
  · intro qcmd rest pphy hq hc
    have heq : __msm_get_frame frame msm =
        some { rc := 0,
               frame :=
                 { frame with
                   buffer := (msm_pmem_frame_ptov_lookup pphy.y_phy pphy.cbcr_phy frame.y_off
                     frame.cbcr_off frame.fd msm.sync).1.rc,
                   y_off := (msm_pmem_frame_ptov_lookup pphy.y_phy pphy.cbcr_phy frame.y_off
                     frame.cbcr_off frame.fd msm.sync).1.yoff,
                   cbcr_off := (msm_pmem_frame_ptov_lookup pphy.y_phy pphy.cbcr_phy
                     frame.y_off frame.cbcr_off frame.fd msm.sync).1.cbcroff,
                   fd := (msm_pmem_frame_ptov_lookup pphy.y_phy pphy.cbcr_phy frame.y_off
                     frame.cbcr_off frame.fd msm.sync).1.fd },
               msm :=
                 { msm with
                   prev_frame_q := rest,
                   sync := (msm_pmem_frame_ptov_lookup pphy.y_phy pphy.cbcr_phy frame.y_off
                     frame.cbcr_off frame.fd msm.sync).2 },
               dequeued := some qcmd } := by
      simp only [__msm_get_frame, hq, hc]
    refine ⟨_, heq, rfl, rfl, rfl, rfl, rfl, ?_, ?_⟩
    · intro hnone
      have hl : msm_pmem_frame_ptov_lookup pphy.y_phy pphy.cbcr_phy frame.y_off
          frame.cbcr_off frame.fd msm.sync =
          ({ rc := 0, yoff := frame.y_off, cbcroff := frame.cbcr_off, fd := frame.fd,
             frame := msm.sync.frame }, msm.sync) := by
        simp only [msm_pmem_frame_ptov_lookup,
          frame_ptov_loop_none pphy.y_phy pphy.cbcr_phy frame.y_off frame.cbcr_off frame.fd
            msm.sync.frame hnone]
      rw [hl]
      exact ⟨rfl, rfl⟩
    · intro hex
      obtain ⟨pre, region, post, hsplit, hpre, hr⟩ :=
        exists_first_split (frame_ptov_match pphy.y_phy pphy.cbcr_phy) msm.sync.frame hex
      refine ⟨pre, region, post, hsplit, hpre, hr, ?_, ?_⟩ <;>
        simp only [msm_pmem_frame_ptov_lookup, hsplit,
          frame_ptov_loop_split pphy.y_phy pphy.cbcr_phy frame.y_off frame.cbcr_off frame.fd
            pre region post hpre hr]

/-- Witness for C22: on the device `msm_camera_drv_start` sets up the queue is empty
and the call returns `-EAGAIN`; on `frame_notified` the head notification is
(0x8000, 0x8000), which resolves to `sample_region`: buffer 0x1000, offsets
(0, 0), fd 5, and the queue is empty afterwards. -/
theorem C22_get_frame_witness :
    __msm_get_frame sample_frame msm_camera_drv_start_device =
      some { rc := -EAGAIN, frame := sample_frame, msm := msm_camera_drv_start_device,
             dequeued := none } ∧
    (∃ r, __msm_get_frame sample_frame frame_notified = some r ∧ r.rc = 0 ∧
      r.frame = { sample_frame with buffer := 0x1000, y_off := 0, cbcr_off := 0, fd := 5 } ∧
      r.msm.prev_frame_q = [] ∧
      r.msm.sync.frame = [{ sample_region with active := 0 }]) := by
  refine ⟨(C22_get_frame sample_frame msm_camera_drv_start_device).1 rfl, ?_⟩
  obtain ⟨r, hr, hrc, _, hf, hm, _, _, _⟩ :=
    (C22_get_frame sample_frame frame_notified).2
      { type := .MSM_CAM_Q_VFE_MSG, command := .phy sample_output1.phy } []
      sample_output1.phy (by decide) rfl
  refine ⟨r, hr, hrc, ?_, ?_, ?_⟩
  · rw [hf]; decide
  · rw [hm]
  · rw [hm]; decide

/-! ## C23: releasing a frame or stats buffer -/

/-- C23, counterexample: on `buffers_handed_out` the inactive stats region matches
(0x2000, 6), yet for a stat kind other than AEC/AWB and AF `msm_put_stats_buffer`
issues no release command and returns `-EINVAL`, not the config function's
result; on `handed_out_no_config` the inactive frame region matches
(0x1000, 0, 0, 5), yet `__msm_put_frame_buf` issues no command and returns 0
whatever the config function would return; and when nothing matches, the code
both functions return is `-EFAULT`. -/
theorem C23_release_without_command :
    (∃ x ∈ buffers_handed_out.sync.stats, stats_vtop_match 0x2000 6 x) ∧
    (msm_put_stats_buffer sample_stats_bad_kind put_stats_env_ok buffers_handed_out).rc
      = -EINVAL ∧
    (msm_put_stats_buffer sample_stats_bad_kind put_stats_env_ok
      buffers_handed_out).config_calls = [] ∧
    (∃ x ∈ handed_out_no_config.sync.frame, frame_vtop_match 0x1000 0 0 5 x) ∧
    (__msm_put_frame_buf sample_frame_release (-5) handed_out_no_config).rc = 0 ∧
    (__msm_put_frame_buf sample_frame_release (-5) handed_out_no_config).config_calls = [] ∧
    (__msm_put_frame_buf { sample_frame_release with buffer := 0x3000 } 0
      buffers_handed_out).rc = -EFAULT ∧
    (msm_put_stats_buffer { sample_stats_release with buffer := 0x3000 } put_stats_env_ok
      buffers_handed_out).rc = -EFAULT := by
  decide

/-- C23, amended.  `__msm_put_frame_buf` and `msm_put_stats_buffer` (its user copy
succeeding): when no inactive region matches the descriptor they return
`-EFAULT`, issue no release command and leave the device unchanged.  When an
inactive region matches, with `region` the first one and its physical address
non-zero (and, for stats, the kind being AEC/AWB or AF), `region` becomes
active, the other list is untouched, and: if the function table has a config
function, it is called once with the release command (frame release, stats
release, AF stats release) and `region`'s physical address, and the result is
what it returns; if the table has none, no command is issued and the result is
0.  For any other stat kind `msm_put_stats_buffer` issues no command and
returns `-EINVAL`. -/
theorem C23_release_buffers (msm : msm_device_t) :
    (∀ (pb : msm_frame_t) (vfe_config_rc : Int),
      ((∀ x ∈ msm.sync.frame, ¬ frame_vtop_match pb.buffer pb.y_off pb.cbcr_off pb.fd x) →
        __msm_put_frame_buf pb vfe_config_rc msm =
          { rc := -EFAULT, msm := msm, config_calls := [] }) ∧
      ((∃ x ∈ msm.sync.frame, frame_vtop_match pb.buffer pb.y_off pb.cbcr_off pb.fd x) →
        ∃ pre region post, msm.sync.frame = pre ++ region :: post ∧
          (∀ x ∈ pre, ¬ frame_vtop_match pb.buffer pb.y_off pb.cbcr_off pb.fd x) ∧
          frame_vtop_match pb.buffer pb.y_off pb.cbcr_off pb.fd region ∧
          (region.paddr ≠ 0 →
            __msm_put_frame_buf pb vfe_config_rc msm =
              { rc := if msm.vfefn.vfe_config then vfe_config_rc else 0,
                msm := { msm with sync :=
                  { frame := pre ++ { region with active := 1 } :: post,
                    stats := msm.sync.stats } },
                config_calls :=
                  if msm.vfefn.vfe_config then
                    [{ cmd_type := .CMD_FRAME_BUF_RELEASE, data := .pphy region.paddr }]
                  else [] }))) ∧
    (∀ (buf : msm_stats_buf_t) (env : put_stats_env), env.copy_from_user_ok = true →
      ((∀ x ∈ msm.sync.stats, ¬ stats_vtop_match buf.buffer buf.fd x) →
        msm_put_stats_buffer buf env msm =
          { rc := -EFAULT, msm := msm, config_calls := [] }) ∧
      ((∃ x ∈ msm.sync.stats, stats_vtop_match buf.buffer buf.fd x) →
        ∃ pre region post, msm.sync.stats = pre ++ region :: post ∧
          (∀ x ∈ pre, ¬ stats_vtop_match buf.buffer buf.fd x) ∧
          stats_vtop_match buf.buffer buf.fd region ∧
          (region.paddr ≠ 0 → buf.type = STAT_AEAW ∨ buf.type = STAT_AF →
            msm_put_stats_buffer buf env msm =
              { rc := if msm.vfefn.vfe_config then env.vfe_config_rc else 0,
                msm := { msm with sync :=
                  { frame := msm.sync.frame,
                    stats := pre ++ { region with active := 1 } :: post } },
                config_calls :=
                  if msm.vfefn.vfe_config then
                    [{ cmd_type := if buf.type = STAT_AEAW then .CMD_STATS_BUF_RELEASE
                                   else .CMD_STATS_AF_BUF_RELEASE,
                       data := .pphy region.paddr }]
                  else [] }) ∧
          (region.paddr ≠ 0 → buf.type ≠ STAT_AEAW → buf.type ≠ STAT_AF →
            (msm_put_stats_buffer buf env msm).rc = -EINVAL ∧
            (msm_put_stats_buffer buf env msm).config_calls = []))) := by
  constructor
  · intro pb vfe_config_rc
    constructor
    · intro hnone
      have hl : msm_pmem_frame_vtop_lookup pb.buffer pb.y_off pb.cbcr_off pb.fd msm.sync =
          (0, msm.sync) := by
        simp only [msm_pmem_frame_vtop_lookup,
          frame_vtop_loop_none pb.buffer pb.y_off pb.cbcr_off pb.fd msm.sync.frame hnone]
      simp only [__msm_put_frame_buf, hl, ne_eq, not_true_eq_false, if_false]
    · intro hex
      obtain ⟨pre, region, post, hsplit, hpre, hr⟩ :=
        exists_first_split (frame_vtop_match pb.buffer pb.y_off pb.cbcr_off pb.fd)
          msm.sync.frame hex
      refine ⟨pre, region, post, hsplit, hpre, hr, ?_⟩
      intro hp
      have hl : msm_pmem_frame_vtop_lookup pb.buffer pb.y_off pb.cbcr_off pb.fd msm.sync =
          (region.paddr, { frame := pre ++ { region with active := 1 } :: post,
                           stats := msm.sync.stats }) := by
        simp only [msm_pmem_frame_vtop_lookup, hsplit,
          frame_vtop_loop_split pb.buffer pb.y_off pb.cbcr_off pb.fd pre region post hpre hr]
      by_cases hcfg : msm.vfefn.vfe_config = true <;>
        simp [__msm_put_frame_buf, hl, hp, hcfg]
  · intro buf env hcopy
    constructor
    · intro hnone
      have hl : msm_pmem_stats_vtop_lookup buf.buffer buf.fd msm.sync = (0, msm.sync) := by
        simp only [msm_pmem_stats_vtop_lookup,
          stats_vtop_loop_none buf.buffer buf.fd msm.sync.stats hnone]
      simp [msm_put_stats_buffer, hcopy, hl]
    · intro hex
      obtain ⟨pre, region, post, hsplit, hpre, hr⟩ :=
        exists_first_split (stats_vtop_match buf.buffer buf.fd) msm.sync.stats hex
      refine ⟨pre, region, post, hsplit, hpre, hr, ?_, ?_⟩
      · intro hp hkind
        have hl : msm_pmem_stats_vtop_lookup buf.buffer buf.fd msm.sync =
            (region.paddr, { frame := msm.sync.frame,
                             stats := pre ++ { region with active := 1 } :: post }) := by
          simp only [msm_pmem_stats_vtop_lookup, hsplit,
            stats_vtop_loop_split buf.buffer buf.fd pre region post hpre hr]
        by_cases hcfg : msm.vfefn.vfe_config = true <;>
          by_cases ha : buf.type = STAT_AEAW <;>
          rcases hkind with hk | hk <;>
          simp_all [msm_put_stats_buffer, put_stats_release]
      · intro hp h1 h2
        have hl : msm_pmem_stats_vtop_lookup buf.buffer buf.fd msm.sync =
            (region.paddr, { frame := msm.sync.frame,
                             stats := pre ++ { region with active := 1 } :: post }) := by
          simp only [msm_pmem_stats_vtop_lookup, hsplit,
            stats_vtop_loop_split buf.buffer buf.fd pre region post hpre hr]
        simp [msm_put_stats_buffer, hcopy, hl, hp, h1, h2]

/-- Witness for C23: on `buffers_handed_out` nothing matches vaddr 0x3000, so both
calls return `-EFAULT` and change nothing; the descriptors of `sample_region`
and `sample_stats_region` match, and the config function is called with the
frame release command and 0x8000, resp. the stats release command and 0x9000. -/
theorem C23_release_buffers_witness :
    __msm_put_frame_buf { sample_frame_release with buffer := 0x3000 } 0 buffers_handed_out =
      { rc := -EFAULT, msm := buffers_handed_out, config_calls := [] } ∧
    (__msm_put_frame_buf sample_frame_release 0 buffers_handed_out).config_calls =
      [{ cmd_type := .CMD_FRAME_BUF_RELEASE, data := .pphy 0x8000 }] ∧
    msm_put_stats_buffer { sample_stats_release with buffer := 0x3000 } put_stats_env_ok
        buffers_handed_out =
      { rc := -EFAULT, msm := buffers_handed_out, config_calls := [] } ∧
    (msm_put_stats_buffer sample_stats_release put_stats_env_ok buffers_handed_out).config_calls =
      [{ cmd_type := .CMD_STATS_BUF_RELEASE, data := .pphy 0x9000 }] := by
  refine ⟨((C23_release_buffers buffers_handed_out).1
      { sample_frame_release with buffer := 0x3000 } 0).1 (by decide), ?_,
    ((C23_release_buffers buffers_handed_out).2
      { sample_stats_release with buffer := 0x3000 } put_stats_env_ok rfl).1 (by decide), ?_⟩
  · obtain ⟨pre, region, post, hsplit, _, _, hres⟩ :=
      ((C23_release_buffers buffers_handed_out).1 sample_frame_release 0).2 (by decide)
    have hmem : region ∈ buffers_handed_out.sync.frame := by rw [hsplit]; simp
    have hp : region.paddr = 0x8000 :=
      (by decide : ∀ x ∈ buffers_handed_out.sync.frame, x.paddr = 0x8000) region hmem
    rw [hres (by rw [hp]; decide), hp]
    rfl
  · obtain ⟨pre, region, post, hsplit, _, _, hres, _⟩ :=
      ((C23_release_buffers buffers_handed_out).2 sample_stats_release put_stats_env_ok
        rfl).2 (by decide)
    have hmem : region ∈ buffers_handed_out.sync.stats := by rw [hsplit]; simp
    have hp : region.paddr = 0x9000 :=
      (by decide : ∀ x ∈ buffers_handed_out.sync.stats, x.paddr = 0x9000) region hmem
    rw [hres (by rw [hp]; decide) (Or.inl rfl), hp]
    rfl

/-! ## C24: what the hardware callback queues -/

/-- C24: `msm_vfe_sync(vdata, qtype)` with `qtype` event or message and every
allocation succeeding.  One entry carrying `vdata`, tagged `qtype`, is appended
to the tail of the message queue.  The previous-frame queue gets one entry
carrying `vdata`'s physical-address record exactly when `qtype` is message and
`vdata`'s type is OUTPUT1 or OUTPUT2, and is unchanged otherwise.  The picture
queue gets one entry without payload exactly when `qtype` is message, `vdata`'s
type is SNAPSHOT and `pict_pp` is 0, and is unchanged otherwise.  The
control-status queue and the registry are unchanged. -/
theorem C24_vfe_sync_appends (vdata : msm_vfe_resp_t) (qtype : msm_queut_t)
    (env : vfe_sync_env) (msm : msm_device_t)
    (hk1 : env.kmalloc_qcmd_ok = true) (hk2 : env.kmalloc_qcmd_frame_ok = true)
    (hk3 : env.kmalloc_fphy_ok = true)
    (hq : qtype = .MSM_CAM_Q_VFE_EVT ∨ qtype = .MSM_CAM_Q_VFE_MSG) :
    (msm_vfe_sync vdata qtype env msm).msg_event_queue =
      msm.msg_event_queue ++ [{ type := qtype, command := .vfe_resp vdata }] ∧
    (msm_vfe_sync vdata qtype env msm).prev_frame_q =
      (if qtype = .MSM_CAM_Q_VFE_MSG ∧
          (vdata.type = .VFE_MSG_OUTPUT1 ∨ vdata.type = .VFE_MSG_OUTPUT2) then
        msm.prev_frame_q ++ [{ type := .MSM_CAM_Q_VFE_MSG, command := .phy vdata.phy }]
       else msm.prev_frame_q) ∧
    (msm_vfe_sync vdata qtype env msm).pict_frame_q =
      (if qtype = .MSM_CAM_Q_VFE_MSG ∧ vdata.type = .VFE_MSG_SNAPSHOT ∧ msm.pict_pp = 0 then
        msm.pict_frame_q ++ [{ type := .MSM_CAM_Q_VFE_MSG, command := .null }]
       else msm.pict_frame_q) ∧
    (msm_vfe_sync vdata qtype env msm).ctrl_status_queue = msm.ctrl_status_queue ∧
    (msm_vfe_sync vdata qtype env msm).sync = msm.sync := by
  rcases hq with hq | hq
  · subst hq
    simp [msm_vfe_sync, hk1]
  · subst hq
    by_cases h1 : vdata.type = .VFE_MSG_OUTPUT1
    · simp [msm_vfe_sync, hk1, hk2, hk3, h1]
    · by_cases h2 : vdata.type = .VFE_MSG_OUTPUT2
      · simp [msm_vfe_sync, hk1, hk2, hk3, h2]
      · by_cases h3 : vdata.type = .VFE_MSG_SNAPSHOT
        · by_cases hp : msm.pict_pp = 0 <;> simp [msm_vfe_sync, hk1, hk2, h3, hp]
        · simp [msm_vfe_sync, hk1, h1, h2, h3]

/-- Witness for C24: `sample_output1` reported as a message on `registered_device`:
one entry on the message queue, one on the previous-frame queue, none on the
picture queue. -/
theorem C24_vfe_sync_appends_witness :
    frame_notified.msg_event_queue =
      [{ type := .MSM_CAM_Q_VFE_MSG, command := .vfe_resp sample_output1 }] ∧
    frame_notified.prev_frame_q =
      [{ type := .MSM_CAM_Q_VFE_MSG, command := .phy sample_output1.phy }] ∧
    frame_notified.pict_frame_q = [] ∧
    frame_notified.ctrl_status_queue = [] ∧
    frame_notified.sync = sample_sync := by
  have h := C24_vfe_sync_appends sample_output1 .MSM_CAM_Q_VFE_MSG vfe_sync_env_ok
    registered_device rfl rfl rfl (Or.inr rfl)
  exact ⟨h.1, by rw [show frame_notified.prev_frame_q = _ from h.2.1]; decide,
    by rw [show frame_notified.pict_frame_q = _ from h.2.2.1]; decide, h.2.2.2.1, h.2.2.2.2⟩

/-! ## C25: the region list of `msm_frame_axi_cfg` -/

/-- A lookup with bound 8 that stores from position `base` on stores at positions
below `base + 8`. -/
theorem lookup_stores_below (ptype : List msm_pmem_region) (type : msm_pmem_t) (base : Nat) :
    ∀ w ∈ (msm_pmem_region_lookup ptype type 8).2.enumFrom base, w.1 < base + 8 := by
  intro w hw
  have h := List.fst_lt_add_of_mem_enumFrom hw
  rw [msm_pmem_region_lookup_of_pos ptype type 8 (by omega) (by omega)] at h
  simp only [List.length_take] at h
  omega

/-- Each of the two counts `msm_frame_axi_cfg` computes is at most 8, and for every
command but the snapshot command every store hits the 8-entry array. -/
theorem msm_frame_axi_cfg_lookups_bounds (cmd_type : vfe_cmd_type) (sync : msm_sync) :
    (msm_frame_axi_cfg_lookups cmd_type sync).bufnum1 ≤ 8 ∧
    (msm_frame_axi_cfg_lookups cmd_type sync).bufnum2 ≤ 8 ∧
    (cmd_type ≠ .CMD_AXI_CFG_SNAP_O1_AND_O2 →
      axi_stores_in_bounds (msm_frame_axi_cfg_lookups cmd_type sync)) := by
  have hle : ∀ t, (msm_pmem_region_lookup sync.frame t 8).1 ≤ 8 := by
    intro t
    rw [msm_pmem_region_lookup_of_pos sync.frame t 8 (by omega) (by omega)]
    exact Nat.min_le_left _ _
  have hst : ∀ t, ∀ w ∈ (msm_pmem_region_lookup sync.frame t 8).2.enumFrom 0, w.1 < 8 := by
    intro t w hw
    have := lookup_stores_below sync.frame t 0 w hw
    omega
  cases cmd_type <;>
    simp only [msm_frame_axi_cfg_lookups, axi_stores_in_bounds, hle, Nat.zero_le, true_and,
      ne_eq, not_true_eq_false, false_implies, and_true, List.not_mem_nil, implies_true,
      reduceCtorEq, not_false_eq_true, true_implies] <;>
    exact hst _

/-- C25: at the snapshot command on `nine_snapshot_regions` (8 thumbnail buffers, 1
main-image buffer) `msm_frame_axi_cfg` gets `bufnum1 = 8` and `bufnum2 = 1`: the
second lookup starts at `&region[8]` and stores the main-image region at
position 8, past the end of `region[8]`. -/
theorem C25_snapshot_stores_past_region_list :
    (msm_frame_axi_cfg_lookups .CMD_AXI_CFG_SNAP_O1_AND_O2 nine_snapshot_regions).bufnum1 = 8 ∧
    (msm_frame_axi_cfg_lookups .CMD_AXI_CFG_SNAP_O1_AND_O2 nine_snapshot_regions).bufnum2 = 1 ∧
    ((msm_frame_axi_cfg_lookups .CMD_AXI_CFG_SNAP_O1_AND_O2 nine_snapshot_regions).region.map
      (fun w => w.1)) = [0, 1, 2, 3, 4, 5, 6, 7, 8] ∧
    ¬ axi_stores_in_bounds
      (msm_frame_axi_cfg_lookups .CMD_AXI_CFG_SNAP_O1_AND_O2 nine_snapshot_regions) ∧
    msm_frame_axi_cfg .CMD_AXI_CFG_SNAP_O1_AND_O2 0 snapshot_device = none := by
  decide

/-! ## C26: replacing stored crop metadata -/

/-- C26, counterexample: with 4 bytes of crop metadata stored, a 2-byte blob (a
shrink) is accepted and the stored length becomes 2, while a 6-byte blob (a
growth) is refused with `-EINVAL` and the stored length stays 4. -/
theorem C26_shrink_accepted_growth_refused :
    crop_stored.croplen = 4 ∧
    (msm_set_crop { info := [9, 9], len := 2 } set_crop_env_ok crop_stored).1 = 0 ∧
    (msm_set_crop { info := [9, 9], len := 2 } set_crop_env_ok crop_stored).2.croplen = 2 ∧
    (msm_set_crop { info := [9, 9, 9, 9, 9, 9], len := 6 } set_crop_env_ok crop_stored).1
      = -EINVAL ∧
    (msm_set_crop { info := [9, 9, 9, 9, 9, 9], len := 6 } set_crop_env_ok
      crop_stored).2.croplen = 4 := by
  decide

/-- C26, amended: `msm_set_crop` on a device that stores crop metadata of length
`c > 0`, called with a blob of length `n`, the copy of the argument structure
succeeding.  It returns `-EINVAL` exactly when `n > c` (a growth), and then the
device is unchanged; when `n ≤ c` and the copy of the blob succeeds it returns
0 and the stored length is `n`. -/
theorem C26_set_crop_refuses_growth (crop : crop_info_t) (env : set_crop_env)
    (msm : msm_device_t) (hc : 0 < msm.croplen) (harg : env.copy_from_user_arg_ok = true) :
    ((msm_set_crop crop env msm).1 = -EINVAL ↔ msm.croplen < crop.len) ∧
    (msm.croplen < crop.len → msm_set_crop crop env msm = (-EINVAL, msm)) ∧
    (crop.len ≤ msm.croplen → env.copy_from_user_info_ok = true →
      (msm_set_crop crop env msm).1 = 0 ∧
      (msm_set_crop crop env msm).2.croplen = crop.len) := by
  have hne : msm.croplen ≠ 0 := by omega
  refine ⟨?_, ?_, ?_⟩
  · by_cases hlt : msm.croplen < crop.len
    · simp [msm_set_crop, harg, hne, hlt]
    · by_cases hi : env.copy_from_user_info_ok = true <;>
        by_cases hs : crop.len ≤ CROPINFO_MEMBER_SIZE <;>
        simp [msm_set_crop, msm_set_crop_store, harg, hne, hlt, hi, hs, EFAULT, EINVAL]
  · intro hlt
    simp [msm_set_crop, harg, hne, hlt]
  · intro hle hi
    have hlt : ¬ msm.croplen < crop.len := by omega
    by_cases hs : crop.len ≤ CROPINFO_MEMBER_SIZE <;>
      simp [msm_set_crop, msm_set_crop_store, harg, hne, hlt, hi, hs]

/-- Witness for C26: on `crop_stored` (4 bytes stored) a 6-byte blob is refused and
a 2-byte blob is stored. -/
theorem C26_set_crop_refuses_growth_witness :
    0 < crop_stored.croplen ∧
    msm_set_crop { info := [9, 9, 9, 9, 9, 9], len := 6 } set_crop_env_ok crop_stored =
      (-EINVAL, crop_stored) ∧
    (msm_set_crop { info := [9, 9], len := 2 } set_crop_env_ok crop_stored).1 = 0 ∧
    (msm_set_crop { info := [9, 9], len := 2 } set_crop_env_ok crop_stored).2.croplen = 2 :=
  ⟨by decide,
   (C26_set_crop_refuses_growth { info := [9, 9, 9, 9, 9, 9], len := 6 } set_crop_env_ok
     crop_stored (by decide) rfl).2.1 (by decide),
   ((C26_set_crop_refuses_growth { info := [9, 9], len := 2 } set_crop_env_ok
     crop_stored (by decide) rfl).2.2 (by decide) rfl).1,
   ((C26_set_crop_refuses_growth { info := [9, 9], len := 2 } set_crop_env_ok
     crop_stored (by decide) rfl).2.2 (by decide) rfl).2⟩

/-! ## C28: `msm_put_stats_buffer` called with an unknown stat kind -/

/-- C28: on `buffers_handed_out`, whose only stats region (vaddr 0x2000, fd 6) is
inactive, `msm_put_stats_buffer` called for (0x2000, 6) with a stat kind that is
neither AEC/AWB nor AF returns `-EINVAL` and issues no release command, but the
region's active flag has been set: the stats list afterwards differs from the
one before. -/
theorem C28_bad_kind_flips_flag :
    sample_stats_bad_kind.type ≠ STAT_AEAW ∧ sample_stats_bad_kind.type ≠ STAT_AF ∧
    buffers_handed_out.sync.stats = [{ sample_stats_region with active := 0 }] ∧
    (msm_put_stats_buffer sample_stats_bad_kind put_stats_env_ok buffers_handed_out).rc
      = -EINVAL ∧
    (msm_put_stats_buffer sample_stats_bad_kind put_stats_env_ok
      buffers_handed_out).config_calls = [] ∧
    (msm_put_stats_buffer sample_stats_bad_kind put_stats_env_ok
      buffers_handed_out).msm.sync.stats = [{ sample_stats_region with active := 1 }] ∧
    (msm_put_stats_buffer sample_stats_bad_kind put_stats_env_ok
      buffers_handed_out).msm.sync.stats ≠ buffers_handed_out.sync.stats := by
  decide

/-! ## C29: crop metadata handed out by `msm_get_frame` -/

/-- C29: on `crop_frame_ready`, which stores 4 bytes of crop metadata,
`msm_get_frame` called with a crop-buffer capacity of 2 copies 4 bytes, unlinks
the frame notification and returns 0; called with a capacity of 8 it returns
`-EINVAL` without copying or unlinking.  `msm_get_pic`, the sibling call, refuses
a capacity of 2 with `-EINVAL` and copies 4 bytes into a capacity of 8. -/
theorem C29_get_frame_check_reversed :
    crop_frame_ready.croplen = 4 ∧
    (msm_get_frame { sample_frame with croplen := 2 } get_frame_env_ok crop_frame_ready).map
        (fun r => (r.rc, r.crop_copied, r.dequeued.isSome, r.msm.prev_frame_q.length))
      = some (0, some 4, true, 0) ∧
    (msm_get_frame { sample_frame with croplen := 8 } get_frame_env_ok crop_frame_ready).map
        (fun r => (r.rc, r.crop_copied, r.dequeued.isSome, r.msm.prev_frame_q.length))
      = some (-EINVAL, none, false, 1) ∧
    (msm_get_pic { sample_request with length := 2 } get_pic_env_ok crop_frame_ready).map
        (fun r => (r.rc, r.crop_copied)) = some (-EINVAL, none) ∧
    (msm_get_pic { sample_request with length := 8 } get_pic_env_ok crop_frame_ready).map
        (fun r => (r.rc, r.crop_copied)) = some (-ETIMEDOUT, some 4) := by
  decide

/-! ## C30: `acpuclk_set_rate` -/

/-- Where the search loop stops with `found`, the row is the one at that index and
its frequency is the requested one. -/
theorem acpuclk_set_rate_loop_found (rate : Nat) :
    ∀ (l : List clkctl_acpu_speed) (i j : Nat) (next : clkctl_acpu_speed),
      acpuclk_set_rate_loop rate l i = .found j next →
      ∃ k, j = i + k ∧ l.get? k = some next ∧ next.acpu_khz = rate := by
  intro l
  induction l with
  | nil => intro i j next h; simp [acpuclk_set_rate_loop] at h
  | cons a l ih =>
    intro i j next h
    unfold acpuclk_set_rate_loop at h
    split_ifs at h with h1 h2
    · cases h
      exact ⟨0, rfl, rfl, h1⟩
    · obtain ⟨k, hk, hg, hr⟩ := ih (i + 1) j next h
      exact ⟨k + 1, by omega, by simpa using hg, hr⟩

/-- Whenever `acpuclk_set_rate` returns 0, `acpuclk_get_rate()` afterwards is
`rate / 1000`. -/
theorem acpuclk_set_rate_ok_rate (rate : Nat) (for_power_collapse set_vdd_level_rc : Int)
    (st : clock_state) (r : set_rate_result)
    (h : acpuclk_set_rate rate for_power_collapse set_vdd_level_rc st = some r)
    (hrc : r.rc = 0) : acpuclk_get_rate r.state = some (rate / 1000) := by
  unfold acpuclk_set_rate at h
  split at h
  · cases h
  · rename_i cur hcur
    simp only at h
    by_cases h1 : rate / 1000 = cur.acpu_khz
    · simp only [h1, if_true] at h
      cases h
      show (acpu_freq_tbl.get? st.current_speed).map (fun s => s.acpu_khz) = _
      rw [hcur, h1]
      rfl
    · simp only [h1, if_false] at h
      split at h
      · cases h
      · cases h
        simp [EINVAL] at hrc
      · rename_i i next hloop
        obtain ⟨k, hk, hg, hr⟩ := acpuclk_set_rate_loop_found _ _ _ _ _ hloop
        have hi : i = k := by omega
        subst hi
        by_cases hv : for_power_collapse = 0 ∧ next.vdd > cur.vdd ∧ set_vdd_level_rc ≠ 0
        · rw [if_pos hv] at h
          cases h
          simp [EINVAL] at hrc
        · rw [if_neg hv] at h
          cases h
          show (acpu_freq_tbl.get? i).map (fun s => s.acpu_khz) = _
          rw [hg, ← hr]
          rfl

/-- On a list in which no row has the requested frequency and some row has
frequency 0, the search loop leaves through the `-EINVAL` exit. -/
theorem acpuclk_set_rate_loop_invalid (rate : Nat) :
    ∀ (l : List clkctl_acpu_speed) (i : Nat), (∀ s ∈ l, s.acpu_khz ≠ rate) →
      (∃ s ∈ l, s.acpu_khz = 0) → acpuclk_set_rate_loop rate l i = .invalid := by
  intro l
  induction l with
  | nil => intro i _ hz; simp at hz
  | cons a l ih =>
    intro i hne hz
    have ha : a.acpu_khz ≠ rate := hne a (by simp)
    unfold acpuclk_set_rate_loop
    by_cases h0 : a.acpu_khz = 0
    · rw [if_neg ha, if_pos h0]
    · have hz2 : ∃ s ∈ l, s.acpu_khz = 0 := by
        obtain ⟨s, hs, hs0⟩ := hz
        rcases List.mem_cons.mp hs with h | h
        · subst h; exact absurd hs0 h0
        · exact ⟨s, h, hs0⟩
      rw [if_neg ha, if_neg h0]
      exact ih (i + 1) (fun s hs => hne s (by simp [hs])) hz2

/-- A frequency other than 0 that none of the 21 real rows lists, and that is not
the current one, is refused with `-EINVAL`, the state staying as it was. -/
theorem acpuclk_set_rate_unknown_nonzero (rate : Nat) (for_power_collapse set_vdd_level_rc : Int)
    (st : clock_state) (cur : clkctl_acpu_speed)
    (hcur : acpu_freq_tbl.get? st.current_speed = some cur)
    (hne : rate / 1000 ≠ cur.acpu_khz) (hnz : rate / 1000 ≠ 0)
    (hnot : ∀ s ∈ acpu_real_speeds, s.acpu_khz ≠ rate / 1000) :
    acpuclk_set_rate rate for_power_collapse set_vdd_level_rc st =
      some { rc := -EINVAL, state := st, calls := [] } := by
  have htbl : acpu_freq_tbl = acpu_real_speeds ++
      [{ acpu_khz := 0, clk_cfg := 0, clk_sel := 0, sc_l_value := 0, lpj := 0, vdd := 0 }] := by
    decide
  have hall : ∀ s ∈ acpu_freq_tbl, s.acpu_khz ≠ rate / 1000 := by
    intro s hs
    rw [htbl] at hs
    rcases List.mem_append.mp hs with h | h
    · exact hnot s h
    · simp only [List.mem_singleton] at h
      subst h
      exact fun e => hnz e.symm
  have hloop : acpuclk_set_rate_loop (rate / 1000) acpu_freq_tbl 0 = .invalid :=
    acpuclk_set_rate_loop_invalid (rate / 1000) acpu_freq_tbl 0 hall (by decide)
  unfold acpuclk_set_rate
  simp only [hcur, hne, if_false, hloop]

/-- C30: with the clock at 768 MHz (row 14, as `acpuclk_init` leaves it), a rate of 0
Hz: `rate / 1000 = 0` differs from the current 768000 kHz and is none of the 21
listed frequencies, yet `acpuclk_set_rate` returns 0, not `-EINVAL`, and leaves
`current_speed` at row 21, the all-zero terminator; `acpuclk_get_rate()` then
returns 0.  The same happens for every rate below 1000 Hz, here 999, and with
`for_power_collapse` set or clear. -/
theorem C30_rate_zero_selects_terminator :
    acpuclk_get_rate clock_at_768 = some 768000 ∧
    (∀ s ∈ acpu_real_speeds, s.acpu_khz ≠ 0 / 1000) ∧
    acpu_real_speeds.length = 21 ∧
    (acpuclk_set_rate 0 0 0 clock_at_768).map (fun r => (r.rc, r.state.current_speed))
      = some (0, 21) ∧
    (acpuclk_set_rate 999 1 0 clock_at_768).map (fun r => (r.rc, r.state.current_speed))
      = some (0, 21) ∧
    (acpu_freq_tbl.get? 21).map (fun s => s.acpu_khz) = some 0 ∧
    ((acpuclk_set_rate 0 0 0 clock_at_768).bind (fun r => acpuclk_get_rate r.state))
      = some 0 ∧
    (acpuclk_set_rate 0 0 0 clock_at_768).map (fun r => r.calls)
      = some [.select_clock 0 0, .select_clock 0 0, .scpll_apps_enable false,
              .acpuclk_set_vdd_level 0] := by
  decide

/-! ## C20, amended: entries of the control-status queue -/

end MsmCamera
